import Mathlib

/-!
# RosaServer: startup, address resolution and memory map

A shallow embedding of the startup path of `rosaserver.cpp`
(`pryMemory`, `getBaseAddress`, `locateMemory`, `installHook`, `installHooks`,
`hookedGetPaths`, `entry`) together with the properties proved about it.

Conventions.
* `uintptr_t`, `size_t` and `unsigned long` are 64-bit words on the pinned
  target; they are natural numbers below `WORD`, and every addition or
  multiplication the source performs on them is reduced modulo `WORD`.
* A C++ function that may throw returns a `Result`: either `returned s` or
  `thrown e s`, where `s` is the process state at that moment (globals and
  the traces of the calls made to the operating system and to the hook
  library survive an exception).
* Everything outside the repository (the operating system, the C library,
  the hook library, the contents of `/proc/self/maps`) is a field of `Env`.
-/

namespace RosaServer

/-! ## Machine words, exceptions -/

/-- Number of values of a 64-bit machine word (`uintptr_t`, `size_t`, `unsigned long`). -/
def WORD : Nat := 18446744073709551616

/-- The C++ exceptions thrown on the startup path. -/
inductive Exn where
  | runtime_error (what : String)
  | invalid_argument (what : String)
  | out_of_range (what : String)
deriving DecidableEq, Repr

/-- Outcome of a C++ call over a state `σ`: normal return, or an exception
    leaving the state `s` behind. -/
inductive Result (σ : Type) where
  | returned (s : σ)
  | thrown (e : Exn) (s : σ)

/-- State left by a call, whichever way it ended. -/
def Result.state {σ : Type} : Result σ → σ
  | .returned s => s
  | .thrown _ s => s

/-- Whether the call returned normally. -/
def Result.isReturned {σ : Type} : Result σ → Bool
  | .returned _ => true
  | .thrown _ _ => false

/-- Sequencing of statements: the continuation runs only after a normal return. -/
def Result.andThen {σ : Type} (r : Result σ) (k : σ → Result σ) : Result σ :=
  match r with
  | .returned s => k s
  | .thrown e s => .thrown e s

/-! ## Page protection (`sys/mman.h`) -/

def PROT_READ : Nat := 1
def PROT_WRITE : Nat := 2
def PROT_EXEC : Nat := 4

/-- One call `mprotect(addr, len, prot)`. -/
structure MprotectCall where
  addr : Nat
  len : Nat
  prot : Nat
deriving DecidableEq, Repr

/-- The pages a granted `mprotect` changes: those containing any part of
    `[addr, addr + len)`; none when `len = 0`. -/
def MprotectCall.touches (pageSize : Nat) (c : MprotectCall) (x : Nat) : Bool :=
  decide (0 < c.len) && decide (c.addr / pageSize ≤ x / pageSize)
    && decide (x / pageSize ≤ (c.addr + c.len - 1) / pageSize)

/-- Protection map after a granted `mprotect`. -/
def applyMprotect (pageSize : Nat) (c : MprotectCall) (prot : Nat → Nat) : Nat → Nat :=
  fun x => if c.touches pageSize x then c.prot else prot x

/-- A byte is writable when the protection of its page includes `PROT_WRITE`. -/
def writable (prot : Nat → Nat) (x : Nat) : Bool :=
  (prot x / PROT_WRITE) % 2 == 1

/-! ## Text helpers (`<string>`, `<sstream>`, `<cstdlib>`) -/

/-- Output of `stream << std::showbase << std::hex << n`. -/
def showbaseHex (n : Nat) : String :=
  if n = 0 then "0" else String.mk ('0' :: 'x' :: Nat.toDigits 16 n)

/-- C `isspace` in the "C" locale. -/
def isspace (c : Char) : Bool :=
  c == ' ' || c == '\t' || c == '\n' || c == '\x0b' || c == '\x0c' || c == '\r'

/-- Value of a hexadecimal digit, if `c` is one. -/
def hexDigit? (c : Char) : Option Nat :=
  if '0' ≤ c ∧ c ≤ '9' then some (c.toNat - 48)
  else if 'a' ≤ c ∧ c ≤ 'f' then some (c.toNat - 87)
  else if 'A' ≤ c ∧ c ≤ 'F' then some (c.toNat - 55)
  else none

def isHexDigit (c : Char) : Bool := (hexDigit? c).isSome

/-- Unbounded value of a run of hexadecimal digits, most significant first. -/
def hexValue (ds : List Char) : Nat :=
  ds.foldl (fun acc c => 16 * acc + (hexDigit? c).getD 0) 0

/-- Removes the optional `0x`/`0X` of base 16; it belongs to the number only
    when a hexadecimal digit follows it. -/
def skipHexPrefix (s : List Char) : List Char :=
  match s with
  | c :: x :: d :: rest =>
      if c = '0' ∧ (x = 'x' ∨ x = 'X') ∧ isHexDigit d = true then d :: rest else s
  | _ => s

/-- Splits off the optional sign of a number: whether it is `-`, and what follows. -/
def takeSign (s : List Char) : Bool × List Char :=
  match s with
  | c :: t => if c = '-' then (true, t) else if c = '+' then (false, t) else (false, s)
  | [] => (false, [])

/-- Outcome of C `strtoul(s, &end, 16)`: `none` when no conversion could be
    performed, otherwise the returned value and whether `errno` is `ERANGE`.
    The subject sequence is the longest run of hexadecimal digits after the
    leading white space, the optional sign and the optional `0x`. -/
def strtoul16 (s : List Char) : Option (Nat × Bool) :=
  let signed := takeSign (s.dropWhile isspace)
  let digits := (skipHexPrefix signed.2).takeWhile isHexDigit
  if digits = [] then none
  else
    let v := hexValue digits
    if WORD ≤ v then some (WORD - 1, true)
    else some (if signed.1 then (WORD - v) % WORD else v, false)

/-- Behaviour of `std::stoul(s, nullptr, 16)`. -/
def stoul16 (s : List Char) : Except Exn Nat :=
  match strtoul16 s with
  | none => .error (.invalid_argument "stoul")
  | some (_, true) => .error (.out_of_range "stoul")
  | some (v, false) => .ok v

/-- Effect of `std::getline(file, line)` on a fresh stream: the characters up to the
    first newline; the empty string when the file could not be opened (`none`). -/
def getline (file : Option (List Char)) : List Char :=
  match file with
  | none => []
  | some cs => cs.takeWhile (fun c => c != '\n')

/-- Result of `line.find("-")`: the index of the first `-`, or `none` for `npos`. -/
def find (line : List Char) : Option Nat :=
  if line.indexOf '-' < line.length then some (line.indexOf '-') else none

/-- Result of `line.substr(0, pos)`, `pos = none` standing for `npos`. -/
def substr0 (line : List Char) (pos : Option Nat) : List Char :=
  match pos with
  | none => line
  | some k => line.take k

/-- Body of `getBaseAddress()` (rosaserver.cpp:1053), given the contents of
    `/proc/self/maps`. -/
def getBaseAddress (maps : Option (List Char)) : Except Exn Nat :=
  let line := getline maps
  let pos := find line
  let truncated := substr0 line pos
  stoul16 truncated

/-! ## The Memory Map Table -/

/-- The pointer globals of namespace `Engine` that `locateMemory` assigns, in
    source order (`Engine::World::traffic` is written `World_traffic`). -/
inductive Slot where
  | version | subVersion | serverName | serverPort
  | numEvents | serverMaxBytesPerSecond | adminPassword | isPassworded
  | password | maxPlayers | World_traffic | World_startCash
  | World_minCash | World_showJoinExit | World_respawnTeam | World_Crime_civCiv
  | World_Crime_civTeam | World_Crime_teamCiv | World_Crime_teamTeam | World_Crime_teamTeamInBase
  | World_Crime_noSpawn | Round_roundTime | Round_startCash | Round_weekly
  | Round_bonusRatio | Round_teamDamage | gameType | mapName
  | loadedMapName | gameState | gameTimer | sunTime
  | isLevelLoaded | gravity | lineIntersectResult | connections
  | accounts | players | humans | itemTypes
  | items | vehicleTypes | vehicles | bullets
  | bodies | bonds | streets | streetIntersections
  | buildings | numConnections | numBullets | numStreets
  | numStreetIntersections | numBuildings | subRosaPuts | subRosa__printf_chk
  | resetGame | areaCreateBlock | areaDeleteBlock | logicSimulation
  | logicSimulationRace | logicSimulationRound | logicSimulationWorld | logicSimulationTerminator
  | logicSimulationCoop | logicSimulationVersus | logicPlayerActions | physicsSimulation
  | rigidBodySimulation | serverReceive | serverSend | bulletSimulation
  | bulletTimeToLive | economyCarMarket | saveAccountsServer | createAccountByJoinTicket
  | serverSendConnectResponse | scenarioArmHuman | linkItem | itemSetMemo
  | itemComputerTransmitLine | itemComputerIncrementLine | itemComputerInput | humanApplyDamage
  | humanCollisionVehicle | humanGrabbing | humanLimbInverseKinematics | grenadeExplosion
  | serverPlayerMessage | playerAI | playerDeathTax | playerGiveWantedLevel
  | createBondRigidBodyToRigidBody | createBondRigidBodyRotRigidBody | createBondRigidBodyToLevel | addCollisionRigidBodyOnRigidBody
  | addCollisionRigidBodyOnLevel | createBullet | createPlayer | deletePlayer
  | createHuman | deleteHuman | createItem | deleteItem
  | createRope | createVehicle | deleteVehicle | createRigidBody
  | createEventMessage | createEventUpdatePlayer | createEventUpdatePlayerFinance | createEventCreateVehicle
  | createEventUpdateVehicle | createEventSound | createEventExplosion | createEventBullet
  | createEventBulletHit | lineIntersectHuman | lineIntersectLevel | lineIntersectVehicle
  | lineIntersectTriangle
deriving DecidableEq, Repr

/-- The C++ identifier of a slot inside namespace `Engine`. -/
def Slot.cname : Slot → String
  | .version => "version"
  | .subVersion => "subVersion"
  | .serverName => "serverName"
  | .serverPort => "serverPort"
  | .numEvents => "numEvents"
  | .serverMaxBytesPerSecond => "serverMaxBytesPerSecond"
  | .adminPassword => "adminPassword"
  | .isPassworded => "isPassworded"
  | .password => "password"
  | .maxPlayers => "maxPlayers"
  | .World_traffic => "World::traffic"
  | .World_startCash => "World::startCash"
  | .World_minCash => "World::minCash"
  | .World_showJoinExit => "World::showJoinExit"
  | .World_respawnTeam => "World::respawnTeam"
  | .World_Crime_civCiv => "World::Crime::civCiv"
  | .World_Crime_civTeam => "World::Crime::civTeam"
  | .World_Crime_teamCiv => "World::Crime::teamCiv"
  | .World_Crime_teamTeam => "World::Crime::teamTeam"
  | .World_Crime_teamTeamInBase => "World::Crime::teamTeamInBase"
  | .World_Crime_noSpawn => "World::Crime::noSpawn"
  | .Round_roundTime => "Round::roundTime"
  | .Round_startCash => "Round::startCash"
  | .Round_weekly => "Round::weekly"
  | .Round_bonusRatio => "Round::bonusRatio"
  | .Round_teamDamage => "Round::teamDamage"
  | .gameType => "gameType"
  | .mapName => "mapName"
  | .loadedMapName => "loadedMapName"
  | .gameState => "gameState"
  | .gameTimer => "gameTimer"
  | .sunTime => "sunTime"
  | .isLevelLoaded => "isLevelLoaded"
  | .gravity => "gravity"
  | .lineIntersectResult => "lineIntersectResult"
  | .connections => "connections"
  | .accounts => "accounts"
  | .players => "players"
  | .humans => "humans"
  | .itemTypes => "itemTypes"
  | .items => "items"
  | .vehicleTypes => "vehicleTypes"
  | .vehicles => "vehicles"
  | .bullets => "bullets"
  | .bodies => "bodies"
  | .bonds => "bonds"
  | .streets => "streets"
  | .streetIntersections => "streetIntersections"
  | .buildings => "buildings"
  | .numConnections => "numConnections"
  | .numBullets => "numBullets"
  | .numStreets => "numStreets"
  | .numStreetIntersections => "numStreetIntersections"
  | .numBuildings => "numBuildings"
  | .subRosaPuts => "subRosaPuts"
  | .subRosa__printf_chk => "subRosa__printf_chk"
  | .resetGame => "resetGame"
  | .areaCreateBlock => "areaCreateBlock"
  | .areaDeleteBlock => "areaDeleteBlock"
  | .logicSimulation => "logicSimulation"
  | .logicSimulationRace => "logicSimulationRace"
  | .logicSimulationRound => "logicSimulationRound"
  | .logicSimulationWorld => "logicSimulationWorld"
  | .logicSimulationTerminator => "logicSimulationTerminator"
  | .logicSimulationCoop => "logicSimulationCoop"
  | .logicSimulationVersus => "logicSimulationVersus"
  | .logicPlayerActions => "logicPlayerActions"
  | .physicsSimulation => "physicsSimulation"
  | .rigidBodySimulation => "rigidBodySimulation"
  | .serverReceive => "serverReceive"
  | .serverSend => "serverSend"
  | .bulletSimulation => "bulletSimulation"
  | .bulletTimeToLive => "bulletTimeToLive"
  | .economyCarMarket => "economyCarMarket"
  | .saveAccountsServer => "saveAccountsServer"
  | .createAccountByJoinTicket => "createAccountByJoinTicket"
  | .serverSendConnectResponse => "serverSendConnectResponse"
  | .scenarioArmHuman => "scenarioArmHuman"
  | .linkItem => "linkItem"
  | .itemSetMemo => "itemSetMemo"
  | .itemComputerTransmitLine => "itemComputerTransmitLine"
  | .itemComputerIncrementLine => "itemComputerIncrementLine"
  | .itemComputerInput => "itemComputerInput"
  | .humanApplyDamage => "humanApplyDamage"
  | .humanCollisionVehicle => "humanCollisionVehicle"
  | .humanGrabbing => "humanGrabbing"
  | .humanLimbInverseKinematics => "humanLimbInverseKinematics"
  | .grenadeExplosion => "grenadeExplosion"
  | .serverPlayerMessage => "serverPlayerMessage"
  | .playerAI => "playerAI"
  | .playerDeathTax => "playerDeathTax"
  | .playerGiveWantedLevel => "playerGiveWantedLevel"
  | .createBondRigidBodyToRigidBody => "createBondRigidBodyToRigidBody"
  | .createBondRigidBodyRotRigidBody => "createBondRigidBodyRotRigidBody"
  | .createBondRigidBodyToLevel => "createBondRigidBodyToLevel"
  | .addCollisionRigidBodyOnRigidBody => "addCollisionRigidBodyOnRigidBody"
  | .addCollisionRigidBodyOnLevel => "addCollisionRigidBodyOnLevel"
  | .createBullet => "createBullet"
  | .createPlayer => "createPlayer"
  | .deletePlayer => "deletePlayer"
  | .createHuman => "createHuman"
  | .deleteHuman => "deleteHuman"
  | .createItem => "createItem"
  | .deleteItem => "deleteItem"
  | .createRope => "createRope"
  | .createVehicle => "createVehicle"
  | .deleteVehicle => "deleteVehicle"
  | .createRigidBody => "createRigidBody"
  | .createEventMessage => "createEventMessage"
  | .createEventUpdatePlayer => "createEventUpdatePlayer"
  | .createEventUpdatePlayerFinance => "createEventUpdatePlayerFinance"
  | .createEventCreateVehicle => "createEventCreateVehicle"
  | .createEventUpdateVehicle => "createEventUpdateVehicle"
  | .createEventSound => "createEventSound"
  | .createEventExplosion => "createEventExplosion"
  | .createEventBullet => "createEventBullet"
  | .createEventBulletHit => "createEventBulletHit"
  | .lineIntersectHuman => "lineIntersectHuman"
  | .lineIntersectLevel => "lineIntersectLevel"
  | .lineIntersectVehicle => "lineIntersectVehicle"
  | .lineIntersectTriangle => "lineIntersectTriangle"

/-- Data pointers assigned before `Engine::gravity` (rosaserver.cpp:1076-1111), with their offsets. -/
def dataTableHead : List (Slot × Nat) :=
  [(Slot.version, 0x2D5F08),
   (Slot.subVersion, 0x2D5F04),
   (Slot.serverName, 0x24EE4234),
   (Slot.serverPort, 0x1CC6CE80),
   (Slot.numEvents, 0x4532f244),
   (Slot.serverMaxBytesPerSecond, 0x1CC6CE84),
   (Slot.adminPassword, 0x1CC6D28C),
   (Slot.isPassworded, 0x24EE4644),
   (Slot.password, 0x1CC6D48C),
   (Slot.maxPlayers, 0x24EE4648),
   (Slot.World_traffic, 0x444AE498),
   (Slot.World_startCash, 0x444AE4C0),
   (Slot.World_minCash, 0x444AE4C4),
   (Slot.World_showJoinExit, 0x444AE4C8),
   (Slot.World_respawnTeam, 0x444AE4CC),
   (Slot.World_Crime_civCiv, 0x444AE49C),
   (Slot.World_Crime_civTeam, 0x444AE4A0),
   (Slot.World_Crime_teamCiv, 0x444AE4A4),
   (Slot.World_Crime_teamTeam, 0x444AE4A8),
   (Slot.World_Crime_teamTeamInBase, 0x444AE4AC),
   (Slot.World_Crime_noSpawn, 0x444AE4B8),
   (Slot.Round_roundTime, 0x444AE484),
   (Slot.Round_startCash, 0x444AE488),
   (Slot.Round_weekly, 0x444AE48C),
   (Slot.Round_bonusRatio, 0x444AE490),
   (Slot.Round_teamDamage, 0x444AE494),
   (Slot.gameType, 0x443F3988),
   (Slot.mapName, 0x443F398C),
   (Slot.loadedMapName, 0x3C2EEFE4),
   (Slot.gameState, 0x443F3BA4),
   (Slot.gameTimer, 0x443F3BAC),
   (Slot.sunTime, 0x9846CC0),
   (Slot.isLevelLoaded, 0x3C2EEFE0)]

/-- Offset of `Engine::gravity` (rosaserver.cpp:1112). -/
def gravityOffset : Nat := 0xC72AC

/-- Data pointers assigned after the gravity constant was pried (rosaserver.cpp:1116-1137). -/
def dataTableTail : List (Slot × Nat) :=
  [(Slot.lineIntersectResult, 0x55E44E00),
   (Slot.connections, 0x43ACE0),
   (Slot.accounts, 0x334F6D0),
   (Slot.players, 0x19BC9CC0),
   (Slot.humans, 0x8B1D4A8),
   (Slot.itemTypes, 0x5A088680),
   (Slot.items, 0x7FE2160),
   (Slot.vehicleTypes, 0x4AD1F20),
   (Slot.vehicles, 0x20DEF320),
   (Slot.bullets, 0x4355E260),
   (Slot.bodies, 0x2DACC0),
   (Slot.bonds, 0x24964220),
   (Slot.streets, 0x3C311030),
   (Slot.streetIntersections, 0x3C2EF02C),
   (Slot.buildings, 0x3C3E2A00),
   (Slot.numConnections, 0x4532F468),
   (Slot.numBullets, 0x4532F240),
   (Slot.numStreets, 0x3C31102C),
   (Slot.numStreetIntersections, 0x3C2EF024),
   (Slot.numBuildings, 0x3C3E29BC)]

/-- Function pointers (rosaserver.cpp:1139-1235). -/
def functionTable : List (Slot × Nat) :=
  [(Slot.subRosaPuts, 0x1CF0),
   (Slot.subRosa__printf_chk, 0x1FE0),
   (Slot.resetGame, 0xB10B0),
   (Slot.areaCreateBlock, 0x11760),
   (Slot.areaDeleteBlock, 0xC400),
   (Slot.logicSimulation, 0xB7BF0),
   (Slot.logicSimulationRace, 0xB3650),
   (Slot.logicSimulationRound, 0xB3DD0),
   (Slot.logicSimulationWorld, 0xB71A0),
   (Slot.logicSimulationTerminator, 0xB4D50),
   (Slot.logicSimulationCoop, 0xB3410),
   (Slot.logicSimulationVersus, 0xB65F0),
   (Slot.logicPlayerActions, 0xA93A0),
   (Slot.physicsSimulation, 0xA6CC0),
   (Slot.rigidBodySimulation, 0x543A0),
   (Slot.serverReceive, 0xC0BB0),
   (Slot.serverSend, 0xBDBA0),
   (Slot.bulletSimulation, 0x98960),
   (Slot.bulletTimeToLive, 0x181B0),
   (Slot.economyCarMarket, 0x1AA30),
   (Slot.saveAccountsServer, 0x6CC0),
   (Slot.createAccountByJoinTicket, 0x65D0),
   (Slot.serverSendConnectResponse, 0xB8FD0),
   (Slot.scenarioArmHuman, 0x4FDD0),
   (Slot.linkItem, 0x2B060),
   (Slot.itemSetMemo, 0x25F80),
   (Slot.itemComputerTransmitLine, 0x26100),
   (Slot.itemComputerIncrementLine, 0x263a0),
   (Slot.itemComputerInput, 0x4e620),
   (Slot.humanApplyDamage, 0x1E1D0),
   (Slot.humanCollisionVehicle, 0x7AF50),
   (Slot.humanGrabbing, 0xA16D0),
   (Slot.humanLimbInverseKinematics, 0x46330),
   (Slot.grenadeExplosion, 0x2A990),
   (Slot.serverPlayerMessage, 0xA7B80),
   (Slot.playerAI, 0x96F80),
   (Slot.playerDeathTax, 0x2D70),
   (Slot.playerGiveWantedLevel, 0x3810),
   (Slot.createBondRigidBodyToRigidBody, 0x12CC0),
   (Slot.createBondRigidBodyRotRigidBody, 0x12f70),
   (Slot.createBondRigidBodyToLevel, 0x12B80),
   (Slot.addCollisionRigidBodyOnRigidBody, 0x13070),
   (Slot.addCollisionRigidBodyOnLevel, 0x13220),
   (Slot.createBullet, 0x17CE0),
   (Slot.createPlayer, 0x40EE0),
   (Slot.deletePlayer, 0x411D0),
   (Slot.createHuman, 0x66D10),
   (Slot.deleteHuman, 0x3EB0),
   (Slot.createItem, 0x4DDE0),
   (Slot.deleteItem, 0x2C180),
   (Slot.createRope, 0x4F150),
   (Slot.createVehicle, 0x4CEA0),
   (Slot.deleteVehicle, 0x42A0),
   (Slot.createRigidBody, 0x4cc90),
   (Slot.createEventMessage, 0x29C0),
   (Slot.createEventUpdatePlayer, 0x2BE0),
   (Slot.createEventUpdatePlayerFinance, 0x2D00),
   (Slot.createEventCreateVehicle, 0x2AE0),
   (Slot.createEventUpdateVehicle, 0x41C0),
   (Slot.createEventSound, 0x3CC0),
   (Slot.createEventExplosion, 0x45A0),
   (Slot.createEventBullet, 0x3C30),
   (Slot.createEventBulletHit, 0x4110),
   (Slot.lineIntersectHuman, 0x23AB0),
   (Slot.lineIntersectLevel, 0x7C470),
   (Slot.lineIntersectVehicle, 0x95590),
   (Slot.lineIntersectTriangle, 0x6aa70)]

/-- Every entry of the Memory Map Table with its offset, in assignment order. -/
def memoryMapTable : List (Slot × Nat) :=
  dataTableHead ++ (Slot.gravity, gravityOffset) :: (dataTableTail ++ functionTable)

/-- The `INSTALL(name)` lines of `installHooks` (rosaserver.cpp:1254-1304), in order. -/
def hookSequence : List Slot :=
  [Slot.subRosaPuts, Slot.subRosaPuts, Slot.subRosa__printf_chk, Slot.resetGame,
   Slot.areaCreateBlock, Slot.areaDeleteBlock, Slot.logicSimulation, Slot.logicSimulationRace,
   Slot.logicSimulationRound, Slot.logicSimulationWorld, Slot.logicSimulationTerminator, Slot.logicSimulationCoop,
   Slot.logicSimulationVersus, Slot.logicPlayerActions, Slot.physicsSimulation, Slot.rigidBodySimulation,
   Slot.serverReceive, Slot.serverSend, Slot.bulletSimulation, Slot.economyCarMarket,
   Slot.saveAccountsServer, Slot.createAccountByJoinTicket, Slot.serverSendConnectResponse, Slot.linkItem,
   Slot.itemComputerInput, Slot.humanApplyDamage, Slot.humanCollisionVehicle, Slot.humanGrabbing,
   Slot.humanLimbInverseKinematics, Slot.grenadeExplosion, Slot.serverPlayerMessage, Slot.playerAI,
   Slot.playerDeathTax, Slot.playerGiveWantedLevel, Slot.addCollisionRigidBodyOnRigidBody, Slot.createBullet,
   Slot.createPlayer, Slot.deletePlayer, Slot.createHuman, Slot.deleteHuman,
   Slot.createItem, Slot.deleteItem, Slot.createVehicle, Slot.deleteVehicle,
   Slot.createRigidBody, Slot.createEventMessage, Slot.createEventUpdatePlayer, Slot.createEventUpdateVehicle,
   Slot.createEventBullet, Slot.createEventBulletHit, Slot.lineIntersectHuman]

/-! ## The hook library (`subhook`) and the environment -/

/-- The hook objects: `Hooks::<name>Hook` for an engine function, and the
    file-static `getPathsHook`. -/
inductive HookObject where
  | ofSlot (s : Slot)
  | getPathsHook
deriving DecidableEq, Repr

/-- The interceptors: `Hooks::<name>` for an engine function, and `hookedGetPaths`. -/
inductive Interceptor where
  | ofSlot (s : Slot)
  | hookedGetPaths
deriving DecidableEq, Repr

/-- The values of `subhook::HookFlags`. -/
inductive HookFlags where
  | HookNoFlags
  | HookFlag64BitOffset
deriving DecidableEq, Repr

/-- One call `hook.Install(source, destination, flags)` made by `installHook`,
    with the `name` it was made under. `source = none` is a pointer global
    that was never assigned. -/
structure InstallRequest where
  name : String
  hook : HookObject
  source : Option Nat
  destination : Interceptor
  flags : HookFlags
deriving DecidableEq, Repr

/-- Everything the startup path takes from outside the repository. -/
structure Env where
  /-- The log prefix macro of `rosaserver.h`. -/
  RS_PREFIX : String
  /-- Value of `sysconf(_SC_PAGE_SIZE)`. -/
  pageSize : Nat
  /-- Whether the operating system refuses an `mprotect` call, given the calls
      made before it: `none` when it returns 0, `some text` when it fails and
      `strerror(errno)` is `text`. -/
  mprotectErr : List MprotectCall → MprotectCall → Option String
  /-- How many leading pages of its range a refused `mprotect` call had already
      changed when it failed (the pages mapped before a hole, say); it fails
      before the last page of the range. -/
  mprotectDone : List MprotectCall → MprotectCall → Nat
  /-- Whether `subhook::Hook::Install` reports success, given the calls made
      before it and their outcomes. -/
  Install : List (InstallRequest × Bool) → InstallRequest → Bool
  /-- Contents of `/proc/self/maps`; `none` when the file cannot be opened. -/
  maps : Option (List Char)
  /-- Bytes of the current working directory path, without the terminator. -/
  cwd : List Nat
  /-- Outcome of `sigaction(SIGINT, ..)`: `none` on success, else `strerror(errno)`. -/
  sigactionErr : Option String

/-- The part of the process state the startup path reads or writes. -/
structure Process where
  /-- The global `Lua::memory::baseAddress`; `none` until `entry` assigns it. -/
  baseAddress : Option Nat
  /-- The file-static `getPaths` pointer. -/
  getPaths : Option Nat
  /-- The pointer globals of namespace `Engine`; `none` until assigned. -/
  engine : Slot → Option Nat
  /-- The global `Engine::originalGravity`, as the 32-bit pattern of the float. -/
  originalGravity : Option Nat
  /-- Host memory, one byte per address. -/
  mem : Nat → Nat
  /-- Protection bits of the page of each address. -/
  prot : Nat → Nat
  /-- Every `mprotect` call made so far, oldest first. -/
  mprotects : List MprotectCall
  /-- Every `Hook::Install` call made so far with its outcome, oldest first. -/
  installs : List (InstallRequest × Bool)
  /-- Lines passed to `Console::log`, oldest first. -/
  log : List String
  /-- Names passed to `unsetenv`. -/
  unsetenvs : List String
  /-- Whether the interrupt-signal handler is attached. -/
  sigintHandler : Bool

/-- A process in which nothing of the startup path has run yet. -/
def Process.fresh (mem prot : Nat → Nat) : Process :=
  { baseAddress := none, getPaths := none, engine := fun _ => none,
    originalGravity := none, mem := mem, prot := prot, mprotects := [],
    installs := [], log := [], unsetenvs := [], sigintHandler := false }

/-- Shallow embedding of `Console::log(text)`: the line is appended to the log. -/
def Console_log (text : String) (p : Process) : Process :=
  { p with log := p.log ++ [text] }

/-- Reads the global `Lua::memory::baseAddress` (zero until assigned). -/
def Process.base (p : Process) : Nat := p.baseAddress.getD 0

/-! ## `pryMemory` (rosaserver.cpp:7) -/

/-- The page start computed at lines 10-11: `page -= (page % pageSize)`. -/
def pryPage (pageSize address : Nat) : Nat :=
  address - address % pageSize

/-- The `mprotect` call issued at line 13. -/
def pryRequest (pageSize address numPages : Nat) : MprotectCall :=
  { addr := pryPage pageSize address,
    len := (pageSize * numPages) % WORD,
    prot := PROT_WRITE ||| PROT_READ }

/-- The part of a refused request that the operating system had already applied
    when it failed: the first `done` pages of the range, and fewer pages than the
    range has. -/
def refusedPart (pageSize done : Nat) (c : MprotectCall) : MprotectCall :=
  { c with len := pageSize * min done ((c.len + pageSize - 1) / pageSize - 1) }

/-- The line logged on success (lines 14-21). -/
def pryLogLine (env : Env) (page : Nat) : String :=
  env.RS_PREFIX ++ "Successfully pried open page at " ++ showbaseHex page ++ "\n"

/-- Shallow embedding of `pryMemory(address, numPages)`. -/
def pryMemory (env : Env) (address numPages : Nat) (p : Process) : Result Process :=
  let pageSize := env.pageSize
  let page := pryPage pageSize address
  let call := pryRequest pageSize address numPages
  match env.mprotectErr p.mprotects call with
  | none =>
      .returned (Console_log (pryLogLine env page)
        { p with prot := applyMprotect pageSize call p.prot,
                 mprotects := p.mprotects ++ [call] })
  | some text =>
      .thrown (.runtime_error text)
        { p with prot := applyMprotect pageSize
                   (refusedPart pageSize (env.mprotectDone p.mprotects call) call) p.prot,
                 mprotects := p.mprotects ++ [call] }

/-! ## `locateMemory` (rosaserver.cpp:1075) -/

/-- One assignment `Engine::slot = (T*)(base + offset)`. -/
def assign (base : Nat) (p : Process) (entry : Slot × Nat) : Process :=
  { p with engine := fun s => if s = entry.1 then some ((base + entry.2) % WORD) else p.engine s }

/-- A run of consecutive assignments. -/
def assignAll (base : Nat) (entries : List (Slot × Nat)) (p : Process) : Process :=
  entries.foldl (assign base) p

/-- The 32-bit little-endian value stored at `address`. -/
def read32 (mem : Nat → Nat) (address : Nat) : Nat :=
  mem address % 256 + 256 * (mem ((address + 1) % WORD) % 256)
    + 65536 * (mem ((address + 2) % WORD) % 256)
    + 16777216 * (mem ((address + 3) % WORD) % 256)

/-- Shallow embedding of `locateMemory(base)`. -/
def locateMemory (env : Env) (base : Nat) (p : Process) : Result Process :=
  let p := assignAll base dataTableHead p
  let p := assign base p (.gravity, gravityOffset)
  (pryMemory env ((p.engine .gravity).getD 0) 1 p).andThen fun p =>
    let p := { p with originalGravity := some (read32 p.mem ((p.engine .gravity).getD 0)) }
    let p := assignAll base dataTableTail p
    .returned (assignAll base functionTable p)

/-! ## `installHook`, `INSTALL`, `installHooks` (rosaserver.cpp:1238-1305) -/

/-- The text of the error thrown for a hook that failed to install. -/
def installFailure (env : Env) (name : String) : String :=
  env.RS_PREFIX ++ "Hook " ++ name ++ " failed to install"

/-- Shallow embedding of `installHook(name, hook, source, destination, flags)`. -/
def installHook (env : Env) (name : String) (hook : HookObject) (source : Option Nat)
    (destination : Interceptor) (flags : HookFlags) (p : Process) : Result Process :=
  let request : InstallRequest :=
    { name := name, hook := hook, source := source, destination := destination, flags := flags }
  if env.Install p.installs request then
    .returned { p with installs := p.installs ++ [(request, true)] }
  else
    .thrown (.runtime_error (installFailure env name))
      { p with installs := p.installs ++ [(request, false)] }

/-- The macro `INSTALL(name)`; `flags` takes its default `HookFlag64BitOffset`. -/
def INSTALL (env : Env) (name : Slot) (p : Process) : Result Process :=
  installHook env (name.cname ++ "Hook") (.ofSlot name) (p.engine name) (.ofSlot name)
    .HookFlag64BitOffset p

/-- Runs `INSTALL` for each name of a sequence, stopping at the first exception. -/
def installSeq (env : Env) (names : List Slot) (p : Process) : Result Process :=
  match names with
  | [] => .returned p
  | name :: rest => (INSTALL env name p).andThen (installSeq env rest)

/-- Shallow embedding of `installHooks()`. -/
def installHooks (env : Env) (p : Process) : Result Process :=
  installSeq env hookSequence p

/-! ## `hookedGetPaths` and `entry` (rosaserver.cpp:1307-1357) -/

/-- Writes consecutive bytes into memory starting at `address`. -/
def writeBytes (mem : Nat → Nat) (address : Nat) (bytes : List Nat) : Nat → Nat :=
  match bytes with
  | [] => mem
  | b :: rest =>
      writeBytes (fun x => if x = address then b else mem x) ((address + 1) % WORD) rest

/-- C `getcwd(buf, size)`: stores the path and its terminator when they fit. -/
def getcwd (env : Env) (buf size : Nat) (p : Process) : Process :=
  if env.cwd.length + 1 ≤ size then { p with mem := writeBytes p.mem buf (env.cwd ++ [0]) }
  else p

/-- Shallow embedding of `getPathsNormally()`. -/
def getPathsNormally (env : Env) (p : Process) : Process :=
  let pathA := (p.base + 0x59DF0300) % WORD
  let pathB := (p.base + 0x59DF0500) % WORD
  let p := getcwd env pathA 0x200 p
  getcwd env pathB 0x200 p

/-- Shallow embedding of `printBaseAddress(base)`. -/
def printBaseAddress (env : Env) (base : Nat) (p : Process) : Process :=
  Console_log (env.RS_PREFIX ++ "Base address is " ++ showbaseHex base ++ "\n") p

/-- Shallow embedding of `attachSignalHandler()`. -/
def attachSignalHandler (env : Env) (p : Process) : Result Process :=
  match env.sigactionErr with
  | none => .returned { p with sigintHandler := true }
  | some text => .thrown (.runtime_error text) p

/-- Offset of the host function `getpaths` hooked by `entry`. -/
def getPathsOffset : Nat := 0xC5B00

/-- Lines 1332-1337 of `hookedGetPaths()`: the state in which `locateMemory` is called. -/
def beforeLocate (env : Env) (p : Process) : Process :=
  let p := getPathsNormally env p
  let p := Console_log (env.RS_PREFIX ++ "Assuming 37c\n") p
  let p := Console_log (env.RS_PREFIX ++ "Locating memory...\n") p
  printBaseAddress env p.base p

/-- Lines 1343-1348 of `hookedGetPaths()`: what follows `installHooks`. -/
def afterInstall (env : Env) (p : Process) : Result Process :=
  let p := Console_log (env.RS_PREFIX ++ "Waiting for engine init...\n") p
  let p := { p with unsetenvs := p.unsetenvs ++ ["LD_PRELOAD"] }
  attachSignalHandler env p

/-- Lines 1340-1348 of `hookedGetPaths()`: what follows `locateMemory`. -/
def afterLocate (env : Env) (p : Process) : Result Process :=
  let p := Console_log (env.RS_PREFIX ++ "Installing hooks...\n") p
  (installHooks env p).andThen (afterInstall env)

/-- Shallow embedding of `hookedGetPaths()`: its statements in order, an
    exception of `locateMemory` or `installHooks` ending it. -/
def hookedGetPaths (env : Env) (p : Process) : Result Process :=
  let p := beforeLocate env p
  (locateMemory env p.base p).andThen (afterLocate env)

/-- Shallow embedding of the constructor `entry()`. -/
def entry (env : Env) (p : Process) : Result Process :=
  match getBaseAddress env.maps with
  | .error e => .thrown e p
  | .ok b =>
      let p := { p with baseAddress := some b }
      let p := { p with getPaths := some ((p.base + getPathsOffset) % WORD) }
      installHook env "getPathsHook" .getPathsHook p.getPaths .hookedGetPaths
        .HookFlag64BitOffset p

/-- The startup sequence: the constructor `entry`, then the host's call of
    `getpaths`, which the bootstrap hook redirects to `hookedGetPaths`. -/
def startup (env : Env) (p : Process) : Result Process :=
  (entry env p).andThen (hookedGetPaths env)

/-! ## Auxiliary definitions used by the statements -/

/-- The request `INSTALL(name)` makes when the pointer globals are `engine`. -/
def requestOf (engine : Slot → Option Nat) (name : Slot) : InstallRequest :=
  { name := name.cname ++ "Hook", hook := .ofSlot name, source := engine name,
    destination := .ofSlot name, flags := .HookFlag64BitOffset }

/-- The request `entry` makes for the bootstrap hook when the base is `b`. -/
def bootstrapRequest (b : Nat) : InstallRequest :=
  { name := "getPathsHook", hook := .getPathsHook, source := some ((b + getPathsOffset) % WORD),
    destination := .hookedGetPaths, flags := .HookFlag64BitOffset }

/-- What is left of a line after its leading white space and one optional `+`. -/
def afterBlanksAndPlus (line : List Char) : List Char :=
  match line.dropWhile isspace with
  | c :: t => if c = '+' then t else c :: t
  | [] => []

/-- A sample environment: 4096-byte pages, the given `/proc/self/maps`, and an
    operating system and hook library that grant every request. -/
def grantingEnv (maps : Option (List Char)) : Env :=
  { RS_PREFIX := "[RS] ", pageSize := 4096, mprotectErr := fun _ _ => none,
    mprotectDone := fun _ _ => 0,
    Install := fun _ _ => true, maps := maps, cwd := [47], sigactionErr := none }

/-- A sample environment whose operating system refuses every protection change. -/
def refusingEnv : Env :=
  { RS_PREFIX := "[RS] ", pageSize := 4096,
    mprotectErr := fun _ _ => some "Cannot allocate memory",
    mprotectDone := fun _ _ => 0,
    Install := fun _ _ => true, maps := none, cwd := [47], sigactionErr := none }

/-- A sample environment whose operating system refuses every protection change
    after it has changed the first page of the range: the second page is not
    mapped. -/
def holeEnv : Env :=
  { RS_PREFIX := "[RS] ", pageSize := 4096,
    mprotectErr := fun _ _ => some "Cannot allocate memory",
    mprotectDone := fun _ _ => 1,
    Install := fun _ _ => true, maps := none, cwd := [47], sigactionErr := none }

/-- A sample `/proc/self/maps` whose first region starts at `0x400000`. -/
def sampleMaps : Option (List Char) :=
  some ['4', '0', '0', '0', '0', '0', '-', '4', '0', '1', '0', '0', '0', ' ', 'r', '-', 'x', 'p',
    '\n', '7', 'f', '0', '0', '-', '7', 'f', '0', '1', ' ', 'r', 'w', '-', 'p', '\n']

/-- A sample process: nothing has run, memory holds 7 in every byte and every
    page is readable and executable. -/
def sampleProcess : Process :=
  Process.fresh (fun _ => 7) (fun _ => PROT_READ ||| PROT_EXEC)

/-- The statements of `locateMemory` that follow the call of `pryMemory`
    (rosaserver.cpp:1114-1235). -/
def locateMemoryTail (base : Nat) (p : Process) : Process :=
  assignAll base functionTable (assignAll base dataTableTail
    { p with originalGravity := some (read32 p.mem ((p.engine Slot.gravity).getD 0)) })

/-- The trace left by a run of `INSTALL` lines whose hooks all install. -/
def granted (engine : Slot → Option Nat) (names : List Slot) : List (InstallRequest × Bool) :=
  names.map (fun s => (requestOf engine s, true))

/-- A sample state for `installHooks`: the sample process after `locateMemory`
    at base `0x400000`, every request being granted. -/
def locatedSample : Process :=
  (locateMemory (grantingEnv none) 0x400000 sampleProcess).state

/-- The name under which a hook object is installed. -/
def HookObject.hookName : HookObject → String
  | .ofSlot s => s.cname ++ "Hook"
  | .getPathsHook => "getPathsHook"

/-- The interceptor installed through a hook object. -/
def HookObject.interceptor : HookObject → Interceptor
  | .ofSlot s => .ofSlot s
  | .getPathsHook => .hookedGetPaths

/-- Offset of the host function of every hook object that `entry` and
    `installHooks` install: the bootstrap target, then the hooked entries of the
    function table. -/
def hookTargets : List (HookObject × Nat) :=
  (HookObject.getPathsHook, getPathsOffset) ::
    (functionTable.filter (fun e => decide (e.1 ∈ hookSequence))).map
      (fun e => (HookObject.ofSlot e.1, e.2))

/-- The install request for hook object `h` whose host function lies at `offset`. -/
def hookRequest (b : Nat) (h : HookObject) (offset : Nat) : InstallRequest :=
  { name := h.hookName, hook := h, source := some ((b + offset) % WORD),
    destination := h.interceptor, flags := .HookFlag64BitOffset }

/-! ## Entity capacities (structs.h:8-16) -/

def maxNumberOfAccounts : Nat := 32768
def maxNumberOfPlayers : Nat := 256
def maxNumberOfHumans : Nat := 256
def maxNumberOfItemTypes : Nat := 46
def maxNumberOfItems : Nat := 1024
def maxNumberOfVehicleTypes : Nat := 17
def maxNumberOfVehicles : Nat := 512
def maxNumberOfRigidBodies : Nat := 8192
def maxNumberOfBonds : Nat := 16384

/-! ## The definition phase of `luaInit` (rosaserver.cpp:207-1040) -/

/-- One statement inside a table block `{ auto var = lua->create_table(); ... }`,
    after the two statements that create the table and bind it to its global. -/
inductive TableStmt where
  /-- The statement `var[key] = value;`. -/
  | field (key value : String)
  /-- The statements `sol::table _meta = lua->create_table(); var[sol::metatable_key] = _meta;`. -/
  | metatable
  /-- The statement `_meta[key] = value;`. -/
  | metafield (key value : String)
  /-- The statement `Lua::hook::clear();`. -/
  | hookClear
deriving DecidableEq, Repr

/-- One top-level item of the definition phase, in source form. -/
inductive Define where
  /-- A block `{ auto meta = lua->new_usertype<type>(luaName, constructors); meta[key] = value; ... }`. -/
  | usertype (type luaName constructors : String) (members : List (String × String))
  /-- The statement `server = new Server();`. -/
  | newServer
  /-- The statement `(*lua)[name] = value;`. -/
  | global (name value : String)
  /-- A block `{ auto var = lua->create_table(); (*lua)[name] = var; ... }`. -/
  | table (var name : String) (body : List TableStmt)
deriving DecidableEq, Repr

/-- The usertype block of `Server` (rosaserver.cpp:207-276). -/
def definesServer : List Define :=
  [Define.usertype "Server" "new" "sol::no_constructor"
      [("TPS", "&Server::TPS"),
       ("class", "sol::property(&Server::getClass)"),
       ("port", "sol::property(&Server::getPort)"),
       ("name", "sol::property(&Server::getName, &Server::setName)"),
       ("maxBytesPerSecond", "sol::property(&Server::getMaxBytesPerSecond, &Server::setMaxBytesPerSecond)"),
       ("adminPassword", "sol::property(&Server::getAdminPassword, &Server::setAdminPassword)"),
       ("password", "sol::property(&Server::getPassword, &Server::setPassword)"),
       ("maxPlayers", "sol::property(&Server::getMaxPlayers, &Server::setMaxPlayers)"),
       ("worldTraffic", "sol::property(&Server::getWorldTraffic, &Server::setWorldTraffic)"),
       ("worldStartCash", "sol::property(&Server::getWorldStartCash, &Server::setWorldStartCash)"),
       ("worldMinCash", "sol::property(&Server::getWorldMinCash, &Server::setWorldMinCash)"),
       ("worldShowJoinExit", "sol::property(&Server::getWorldShowJoinExit, &Server::setWorldShowJoinExit)"),
       ("worldRespawnTeam", "sol::property(&Server::getWorldRespawnTeam, &Server::setWorldRespawnTeam)"),
       ("worldCrimeCivCiv", "sol::property(&Server::getWorldCrimeCivCiv, &Server::setWorldCrimeCivCiv)"),
       ("worldCrimeCivTeam", "sol::property(&Server::getWorldCrimeCivTeam, &Server::setWorldCrimeCivTeam)"),
       ("worldCrimeTeamCiv", "sol::property(&Server::getWorldCrimeTeamCiv, &Server::setWorldCrimeTeamCiv)"),
       ("worldCrimeTeamTeam", "sol::property(&Server::getWorldCrimeTeamTeam, &Server::setWorldCrimeTeamTeam)"),
       ("worldCrimeTeamTeamInBase", "sol::property(&Server::getWorldCrimeTeamTeamInBase, &Server::setWorldCrimeTeamTeamInBase)"),
       ("worldCrimeNoSpawn", "sol::property(&Server::getWorldCrimeNoSpawn, &Server::setWorldCrimeNoSpawn)"),
       ("roundRoundTime", "sol::property(&Server::getRoundRoundTime, &Server::setRoundRoundTime)"),
       ("roundStartCash", "sol::property(&Server::getRoundStartCash, &Server::setRoundStartCash)"),
       ("roundIsWeekly", "sol::property(&Server::getRoundIsWeekly, &Server::setRoundIsWeekly)"),
       ("roundHasBonusRatio", "sol::property(&Server::getRoundHasBonusRatio, &Server::setRoundHasBonusRatio)"),
       ("roundTeamDamage", "sol::property(&Server::getRoundTeamDamage, &Server::setRoundTeamDamage)"),
       ("type", "sol::property(&Server::getType, &Server::setType)"),
       ("levelToLoad", "sol::property(&Server::getLevelName, &Server::setLevelName)"),
       ("loadedLevel", "sol::property(&Server::getLoadedLevelName)"),
       ("isLevelLoaded", "sol::property(&Server::getIsLevelLoaded, &Server::setIsLevelLoaded)"),
       ("gravity", "sol::property(&Server::getGravity, &Server::setGravity)"),
       ("defaultGravity", "sol::property(&Server::getDefaultGravity)"),
       ("state", "sol::property(&Server::getState, &Server::setState)"),
       ("time", "sol::property(&Server::getTime, &Server::setTime)"),
       ("sunTime", "sol::property(&Server::getSunTime, &Server::setSunTime)"),
       ("version", "sol::property(&Server::getVersion)"),
       ("versionMajor", "sol::property(&Server::getVersionMajor)"),
       ("versionMinor", "sol::property(&Server::getVersionMinor)"),
       ("numEvents", "sol::property(&Server::getNumEvents)"),
       ("setConsoleTitle", "&Server::setConsoleTitle"),
       ("reset", "&Server::reset")]]

/-- The binding of the `server` global and the usertype blocks of `Connection` to `Item` (rosaserver.cpp:279-529). -/
def definesObjects1 : List Define :=
  [Define.global "server" "server",
   Define.usertype "Connection" "new" "sol::no_constructor"
      [("port", "&Connection::port"),
       ("timeoutTime", "&Connection::timeoutTime"),
       ("class", "sol::property(&Connection::getClass)"),
       ("address", "sol::property(&Connection::getAddress)"),
       ("adminVisible", "sol::property(&Connection::getAdminVisible, &Connection::setAdminVisible)"),
       ("spectatingHuman", "sol::property(&Connection::getSpectatingHuman)")],
   Define.usertype "Account" "new" "sol::no_constructor"
      [("subRosaID", "&Account::subRosaID"),
       ("phoneNumber", "&Account::phoneNumber"),
       ("money", "&Account::money"),
       ("corporateRating", "&Account::corporateRating"),
       ("criminalRating", "&Account::criminalRating"),
       ("spawnTimer", "&Account::spawnTimer"),
       ("playTime", "&Account::playTime"),
       ("banTime", "&Account::banTime"),
       ("class", "sol::property(&Account::getClass)"),
       ("__tostring", "&Account::__tostring"),
       ("index", "sol::property(&Account::getIndex)"),
       ("data", "sol::property(&Account::getDataTable)"),
       ("name", "sol::property(&Account::getName)"),
       ("steamID", "sol::property(&Account::getSteamID)")],
   Define.usertype "Player" "new" "sol::no_constructor"
      [("subRosaID", "&Player::subRosaID"),
       ("phoneNumber", "&Player::phoneNumber"),
       ("money", "&Player::money"),
       ("corporateRating", "&Player::corporateRating"),
       ("criminalRating", "&Player::criminalRating"),
       ("team", "&Player::team"),
       ("teamSwitchTimer", "&Player::teamSwitchTimer"),
       ("stocks", "&Player::stocks"),
       ("spawnTimer", "&Player::spawnTimer"),
       ("menuTab", "&Player::menuTab"),
       ("numActions", "&Player::numActions"),
       ("lastNumActions", "&Player::lastNumActions"),
       ("numMenuButtons", "&Player::numMenuButtons"),
       ("gender", "&Player::gender"),
       ("skinColor", "&Player::skinColor"),
       ("hairColor", "&Player::hairColor"),
       ("hair", "&Player::hair"),
       ("eyeColor", "&Player::eyeColor"),
       ("model", "&Player::model"),
       ("suitColor", "&Player::suitColor"),
       ("tieColor", "&Player::tieColor"),
       ("head", "&Player::head"),
       ("necklace", "&Player::necklace"),
       ("class", "sol::property(&Player::getClass)"),
       ("__tostring", "&Player::__tostring"),
       ("index", "sol::property(&Player::getIndex)"),
       ("isActive", "sol::property(&Player::getIsActive, &Player::setIsActive)"),
       ("data", "sol::property(&Player::getDataTable)"),
       ("name", "sol::property(&Player::getName, &Player::setName)"),
       ("isAdmin", "sol::property(&Player::getIsAdmin, &Player::setIsAdmin)"),
       ("isReady", "sol::property(&Player::getIsReady, &Player::setIsReady)"),
       ("isBot", "sol::property(&Player::getIsBot, &Player::setIsBot)"),
       ("human", "sol::property(&Player::getHuman, &Player::setHuman)"),
       ("connection", "sol::property(&Player::getConnection)"),
       ("account", "sol::property(&Player::getAccount, &Player::setAccount)"),
       ("botDestination", "sol::property(&Player::getBotDestination, &Player::setBotDestination)"),
       ("getAction", "&Player::getAction"),
       ("getMenuButton", "&Player::getMenuButton"),
       ("update", "&Player::update"),
       ("updateFinance", "&Player::updateFinance"),
       ("remove", "&Player::remove"),
       ("sendMessage", "&Player::sendMessage")],
   Define.usertype "Human" "new" "sol::no_constructor"
      [("stamina", "&Human::stamina"),
       ("maxStamina", "&Human::maxStamina"),
       ("vehicleSeat", "&Human::vehicleSeat"),
       ("despawnTime", "&Human::despawnTime"),
       ("movementState", "&Human::movementState"),
       ("zoomLevel", "&Human::zoomLevel"),
       ("damage", "&Human::damage"),
       ("pos", "&Human::pos"),
       ("viewYaw", "&Human::viewYaw"),
       ("viewPitch", "&Human::viewPitch"),
       ("strafeInput", "&Human::strafeInput"),
       ("walkInput", "&Human::walkInput"),
       ("inputFlags", "&Human::inputFlags"),
       ("lastInputFlags", "&Human::lastInputFlags"),
       ("health", "&Human::health"),
       ("bloodLevel", "&Human::bloodLevel"),
       ("chestHP", "&Human::chestHP"),
       ("headHP", "&Human::headHP"),
       ("leftArmHP", "&Human::leftArmHP"),
       ("rightArmHP", "&Human::rightArmHP"),
       ("leftLegHP", "&Human::leftLegHP"),
       ("rightLegHP", "&Human::rightLegHP"),
       ("progressBar", "&Human::progressBar"),
       ("inventoryAnimationFlags", "&Human::inventoryAnimationFlags"),
       ("inventoryAnimationProgress", "&Human::inventoryAnimationProgress"),
       ("inventoryAnimationDuration", "&Human::inventoryAnimationDuration"),
       ("inventoryAnimationHand", "&Human::inventoryAnimationHand"),
       ("inventoryAnimationSlot", "&Human::inventoryAnimationSlot"),
       ("inventoryAnimationCounterFinished", "&Human::inventoryAnimationCounterFinished"),
       ("inventoryAnimationCounter", "&Human::inventoryAnimationCounter"),
       ("gender", "&Human::gender"),
       ("head", "&Human::head"),
       ("skinColor", "&Human::skinColor"),
       ("hairColor", "&Human::hairColor"),
       ("hair", "&Human::hair"),
       ("eyeColor", "&Human::eyeColor"),
       ("model", "&Human::model"),
       ("suitColor", "&Human::suitColor"),
       ("tieColor", "&Human::tieColor"),
       ("necklace", "&Human::necklace"),
       ("class", "sol::property(&Human::getClass)"),
       ("__tostring", "&Human::__tostring"),
       ("index", "sol::property(&Human::getIndex)"),
       ("isActive", "sol::property(&Human::getIsActive, &Human::setIsActive)"),
       ("data", "sol::property(&Human::getDataTable)"),
       ("isAlive", "sol::property(&Human::getIsAlive, &Human::setIsAlive)"),
       ("isImmortal", "sol::property(&Human::getIsImmortal, &Human::setIsImmortal)"),
       ("isOnGround", "sol::property(&Human::getIsOnGround)"),
       ("isStanding", "sol::property(&Human::getIsStanding)"),
       ("isBleeding", "sol::property(&Human::getIsBleeding, &Human::setIsBleeding)"),
       ("player", "sol::property(&Human::getPlayer, &Human::setPlayer)"),
       ("vehicle", "sol::property(&Human::getVehicle, &Human::setVehicle)"),
       ("rightHandItem", "sol::property(&Human::getRightHandItem)"),
       ("leftHandItem", "sol::property(&Human::getLeftHandItem)"),
       ("slot2ItemCount", "&Human::slot2ItemCount"),
       ("slot2Item1", "sol::property(&Human::getSlot2Item1)"),
       ("slot2Item2", "sol::property(&Human::getSlot2Item2)"),
       ("slot3ItemCount", "&Human::slot3ItemCount"),
       ("slot3Item1", "sol::property(&Human::getSlot3Item1)"),
       ("slot3Item2", "sol::property(&Human::getSlot3Item2)"),
       ("slot4ItemCount", "&Human::slot4ItemCount"),
       ("slot4Item1", "sol::property(&Human::getSlot4Item1)"),
       ("slot4Item2", "sol::property(&Human::getSlot4Item2)"),
       ("slot5ItemCount", "&Human::slot5ItemCount"),
       ("slot5Item1", "sol::property(&Human::getSlot5Item1)"),
       ("slot5Item2", "sol::property(&Human::getSlot5Item2)"),
       ("slot6ItemCount", "&Human::slot6ItemCount"),
       ("slot6Item1", "sol::property(&Human::getSlot6Item1)"),
       ("slot6Item2", "sol::property(&Human::getSlot6Item2)"),
       ("rightHandGrab", "sol::property(&Human::getRightHandGrab, &Human::setRightHandGrab)"),
       ("leftHandGrab", "sol::property(&Human::getLeftHandGrab, &Human::setLeftHandGrab)"),
       ("isAppearanceDirty", "sol::property(&Human::getIsAppearanceDirty, &Human::setIsAppearanceDirty)"),
       ("remove", "&Human::remove"),
       ("teleport", "&Human::teleport"),
       ("speak", "&Human::speak"),
       ("arm", "&Human::arm"),
       ("getBone", "&Human::getBone"),
       ("getRigidBody", "&Human::getRigidBody"),
       ("setVelocity", "&Human::setVelocity"),
       ("addVelocity", "&Human::addVelocity"),
       ("mountItem", "&Human::mountItem"),
       ("applyDamage", "&Human::applyDamage")],
   Define.usertype "ItemType" "new" "sol::no_constructor"
      [("price", "&ItemType::price"),
       ("mass", "&ItemType::mass"),
       ("fireRate", "&ItemType::fireRate"),
       ("bulletType", "&ItemType::bulletType"),
       ("bulletVelocity", "&ItemType::bulletVelocity"),
       ("bulletSpread", "&ItemType::bulletSpread"),
       ("numHands", "&ItemType::numHands"),
       ("rightHandPos", "&ItemType::rightHandPos"),
       ("leftHandPos", "&ItemType::leftHandPos"),
       ("primaryGripStiffness", "&ItemType::primaryGripStiffness"),
       ("primaryGripRotation", "&ItemType::primaryGripRotation"),
       ("secondaryGripStiffness", "&ItemType::secondaryGripStiffness"),
       ("secondaryGripRotation", "&ItemType::secondaryGripRotation"),
       ("boundsCenter", "&ItemType::boundsCenter"),
       ("gunHoldingPos", "&ItemType::gunHoldingPos"),
       ("class", "sol::property(&ItemType::getClass)"),
       ("__tostring", "&ItemType::__tostring"),
       ("index", "sol::property(&ItemType::getIndex)"),
       ("name", "sol::property(&ItemType::getName, &ItemType::setName)"),
       ("isGun", "sol::property(&ItemType::getIsGun, &ItemType::setIsGun)")],
   Define.usertype "Item" "new" "sol::no_constructor"
      [("physicsSettledTimer", "&Item::physicsSettledTimer"),
       ("despawnTime", "&Item::despawnTime"),
       ("parentSlot", "&Item::parentSlot"),
       ("pos", "&Item::pos"),
       ("vel", "&Item::vel"),
       ("rot", "&Item::rot"),
       ("bullets", "&Item::bullets"),
       ("phoneNumber", "&Item::phoneNumber"),
       ("displayPhoneNumber", "&Item::displayPhoneNumber"),
       ("enteredPhoneNumber", "&Item::enteredPhoneNumber"),
       ("phoneTexture", "&Item::phoneTexture"),
       ("computerCurrentLine", "&Item::computerCurrentLine"),
       ("computerTopLine", "&Item::computerTopLine"),
       ("computerCursor", "&Item::computerCursor"),
       ("class", "sol::property(&Item::getClass)"),
       ("__tostring", "&Item::__tostring"),
       ("index", "sol::property(&Item::getIndex)"),
       ("isActive", "sol::property(&Item::getIsActive, &Item::setIsActive)"),
       ("data", "sol::property(&Item::getDataTable)"),
       ("hasPhysics", "sol::property(&Item::getHasPhysics, &Item::setHasPhysics)"),
       ("physicsSettled", "sol::property(&Item::getPhysicsSettled, &Item::setPhysicsSettled)"),
       ("isStatic", "sol::property(&Item::getIsStatic, &Item::setIsStatic)"),
       ("type", "sol::property(&Item::getType, &Item::setType)"),
       ("rigidBody", "sol::property(&Item::getRigidBody)"),
       ("connectedPhone", "sol::property(&Item::getConnectedPhone, &Item::setConnectedPhone)"),
       ("vehicle", "sol::property(&Item::getVehicle, &Item::setVehicle)"),
       ("grenadePrimer", "sol::property(&Item::getGrenadePrimer, &Item::setGrenadePrimer)"),
       ("parentHuman", "sol::property(&Item::getParentHuman)"),
       ("parentItem", "sol::property(&Item::getParentItem)"),
       ("remove", "&Item::remove"),
       ("mountItem", "&Item::mountItem"),
       ("unmount", "&Item::unmount"),
       ("speak", "&Item::speak"),
       ("explode", "&Item::explode"),
       ("setMemo", "&Item::setMemo"),
       ("computerTransmitLine", "&Item::computerTransmitLine"),
       ("computerIncrementLine", "&Item::computerIncrementLine"),
       ("computerSetLine", "&Item::computerSetLine"),
       ("computerSetLineColors", "&Item::computerSetLineColors"),
       ("computerSetColor", "&Item::computerSetColor")]]

/-- The usertype blocks of `VehicleType` to `ChildProcess` (rosaserver.cpp:531-688). -/
def definesObjects2 : List Define :=
  [Define.usertype "VehicleType" "new" "sol::no_constructor"
      [("controllableState", "&VehicleType::controllableState"),
       ("price", "&VehicleType::price"),
       ("mass", "&VehicleType::mass"),
       ("class", "sol::property(&VehicleType::getClass)"),
       ("__tostring", "&VehicleType::__tostring"),
       ("index", "sol::property(&VehicleType::getIndex)"),
       ("name", "sol::property(&VehicleType::getName, &VehicleType::setName)"),
       ("usesExternalModel", "sol::property(&VehicleType::getUsesExternalModel)")],
   Define.usertype "Vehicle" "new" "sol::no_constructor"
      [("controllableState", "&Vehicle::controllableState"),
       ("health", "&Vehicle::health"),
       ("color", "&Vehicle::color"),
       ("pos", "&Vehicle::pos"),
       ("pos2", "&Vehicle::pos2"),
       ("rot", "&Vehicle::rot"),
       ("vel", "&Vehicle::vel"),
       ("windowState0", "&Vehicle::windowState0"),
       ("windowState1", "&Vehicle::windowState1"),
       ("windowState2", "&Vehicle::windowState2"),
       ("windowState3", "&Vehicle::windowState3"),
       ("windowState4", "&Vehicle::windowState4"),
       ("windowState5", "&Vehicle::windowState5"),
       ("windowState6", "&Vehicle::windowState6"),
       ("windowState7", "&Vehicle::windowState7"),
       ("gearX", "&Vehicle::gearX"),
       ("steerControl", "&Vehicle::steerControl"),
       ("gearY", "&Vehicle::gearY"),
       ("gasControl", "&Vehicle::gasControl"),
       ("engineRPM", "&Vehicle::engineRPM"),
       ("bladeBodyID", "&Vehicle::bladeBodyID"),
       ("class", "sol::property(&Vehicle::getClass)"),
       ("__tostring", "&Vehicle::__tostring"),
       ("index", "sol::property(&Vehicle::getIndex)"),
       ("isActive", "sol::property(&Vehicle::getIsActive, &Vehicle::setIsActive)"),
       ("type", "sol::property(&Vehicle::getType, &Vehicle::setType)"),
       ("isLocked", "sol::property(&Vehicle::getIsLocked, &Vehicle::setIsLocked)"),
       ("data", "sol::property(&Vehicle::getDataTable)"),
       ("lastDriver", "sol::property(&Vehicle::getLastDriver)"),
       ("rigidBody", "sol::property(&Vehicle::getRigidBody)"),
       ("updateType", "&Vehicle::updateType"),
       ("updateDestruction", "&Vehicle::updateDestruction"),
       ("remove", "&Vehicle::remove")],
   Define.usertype "Bullet" "new" "sol::no_constructor"
      [("type", "&Bullet::type"),
       ("time", "&Bullet::time"),
       ("lastPos", "&Bullet::lastPos"),
       ("pos", "&Bullet::pos"),
       ("vel", "&Bullet::vel"),
       ("class", "sol::property(&Bullet::getClass)"),
       ("player", "sol::property(&Bullet::getPlayer)")],
   Define.usertype "Bone" "new" "sol::no_constructor"
      [("pos", "&Bone::pos"),
       ("pos2", "&Bone::pos2"),
       ("class", "sol::property(&Bone::getClass)")],
   Define.usertype "RigidBody" "new" "sol::no_constructor"
      [("type", "&RigidBody::type"),
       ("unk0", "&RigidBody::unk0"),
       ("mass", "&RigidBody::mass"),
       ("pos", "&RigidBody::pos"),
       ("vel", "&RigidBody::vel"),
       ("rot", "&RigidBody::rot"),
       ("rot2", "&RigidBody::rot2"),
       ("class", "sol::property(&RigidBody::getClass)"),
       ("__tostring", "&RigidBody::__tostring"),
       ("index", "sol::property(&RigidBody::getIndex)"),
       ("isActive", "sol::property(&RigidBody::getIsActive, &RigidBody::setIsActive)"),
       ("data", "sol::property(&RigidBody::getDataTable)"),
       ("isSettled", "sol::property(&RigidBody::getIsSettled, &RigidBody::setIsSettled)"),
       ("bondTo", "&RigidBody::bondTo"),
       ("bondRotTo", "&RigidBody::bondRotTo"),
       ("bondToLevel", "&RigidBody::bondToLevel"),
       ("collideLevel", "&RigidBody::collideLevel")],
   Define.usertype "Bond" "new" "sol::no_constructor"
      [("type", "&Bond::type"),
       ("despawnTime", "&Bond::despawnTime"),
       ("globalPos", "&Bond::globalPos"),
       ("localPos", "&Bond::localPos"),
       ("otherLocalPos", "&Bond::otherLocalPos"),
       ("class", "sol::property(&Bond::getClass)"),
       ("__tostring", "&Bond::__tostring"),
       ("index", "sol::property(&Bond::getIndex)"),
       ("isActive", "sol::property(&Bond::getIsActive, &Bond::setIsActive)"),
       ("body", "sol::property(&Bond::getBody)"),
       ("otherBody", "sol::property(&Bond::getOtherBody)")],
   Define.usertype "Action" "new" "sol::no_constructor"
      [("type", "&Action::type"),
       ("a", "&Action::a"),
       ("b", "&Action::b"),
       ("c", "&Action::c"),
       ("d", "&Action::d"),
       ("class", "sol::property(&Action::getClass)")],
   Define.usertype "MenuButton" "new" "sol::no_constructor"
      [("id", "&MenuButton::id"),
       ("text", "sol::property(&MenuButton::getText, &MenuButton::setText)"),
       ("class", "sol::property(&MenuButton::getClass)")],
   Define.usertype "Worker" "Worker" "sol::constructors<ChildProcess(std::string)>()"
      [("stop", "&Worker::stop"),
       ("sendMessage", "&Worker::sendMessage"),
       ("receiveMessage", "&Worker::receiveMessage")],
   Define.usertype "ChildProcess" "ChildProcess" "sol::constructors<ChildProcess(std::string)>()"
      [("isRunning", "&ChildProcess::isRunning"),
       ("terminate", "&ChildProcess::terminate"),
       ("getExitCode", "&ChildProcess::getExitCode"),
       ("receiveMessage", "&ChildProcess::receiveMessage"),
       ("sendMessage", "&ChildProcess::sendMessage"),
       ("setCPULimit", "&ChildProcess::setCPULimit"),
       ("setMemoryLimit", "&ChildProcess::setMemoryLimit"),
       ("setFileSizeLimit", "&ChildProcess::setFileSizeLimit"),
       ("getPriority", "&ChildProcess::getPriority"),
       ("setPriority", "&ChildProcess::setPriority")]]

/-- The usertype blocks of `StreetLane` to `Hooks::UnsignedInteger` (rosaserver.cpp:690-777). -/
def definesObjects3 : List Define :=
  [Define.usertype "StreetLane" "new" "sol::no_constructor"
      [("direction", "&StreetLane::direction"),
       ("posA", "&StreetLane::posA"),
       ("posB", "&StreetLane::posB"),
       ("class", "sol::property(&StreetLane::getClass)")],
   Define.usertype "Street" "new" "sol::no_constructor"
      [("trafficCuboidA", "&Street::trafficCuboidA"),
       ("trafficCuboidB", "&Street::trafficCuboidB"),
       ("numTraffic", "&Street::numTraffic"),
       ("class", "sol::property(&Street::getClass)"),
       ("__tostring", "&Street::__tostring"),
       ("index", "sol::property(&Street::getIndex)"),
       ("name", "sol::property(&Street::getName)"),
       ("intersectionA", "sol::property(&Street::getIntersectionA)"),
       ("intersectionB", "sol::property(&Street::getIntersectionB)"),
       ("numLanes", "sol::property(&Street::getNumLanes)"),
       ("getLane", "&Street::getLane")],
   Define.usertype "StreetIntersection" "new" "sol::no_constructor"
      [("pos", "&StreetIntersection::pos"),
       ("lightsState", "&StreetIntersection::lightsState"),
       ("lightsTimer", "&StreetIntersection::lightsTimer"),
       ("lightsTimerMax", "&StreetIntersection::lightsTimerMax"),
       ("lightEast", "&StreetIntersection::lightEast"),
       ("lightSouth", "&StreetIntersection::lightSouth"),
       ("lightWest", "&StreetIntersection::lightWest"),
       ("lightNorth", "&StreetIntersection::lightNorth"),
       ("class", "sol::property(&StreetIntersection::getClass)"),
       ("__tostring", "&StreetIntersection::__tostring"),
       ("index", "sol::property(&StreetIntersection::getIndex)"),
       ("streetEast", "sol::property(&StreetIntersection::getStreetEast)"),
       ("streetSouth", "sol::property(&StreetIntersection::getStreetSouth)"),
       ("streetWest", "sol::property(&StreetIntersection::getStreetWest)"),
       ("streetNorth", "sol::property(&StreetIntersection::getStreetNorth)")],
   Define.usertype "ShopCar" "new" "sol::no_constructor"
      [("price", "&ShopCar::price"),
       ("color", "&ShopCar::color"),
       ("class", "sol::property(&ShopCar::getClass)"),
       ("type", "sol::property(&ShopCar::getType, &ShopCar::setType)")],
   Define.usertype "Building" "new" "sol::no_constructor"
      [("type", "&Building::type"),
       ("pos", "&Building::pos"),
       ("spawnRot", "&Building::spawnRot"),
       ("interiorCuboidA", "&Building::interiorCuboidA"),
       ("interiorCuboidB", "&Building::interiorCuboidB"),
       ("numShopCars", "&Building::numShopCars"),
       ("shopCarSales", "&Building::shopCarSales"),
       ("class", "sol::property(&Building::getClass)"),
       ("__tostring", "&Building::__tostring"),
       ("index", "sol::property(&Building::getIndex)"),
       ("getShopCar", "&Building::getShopCar")],
   Define.usertype "Hooks::Float" "new" "sol::no_constructor"
      [("value", "&Hooks::Float::value")],
   Define.usertype "Hooks::Integer" "new" "sol::no_constructor"
      [("value", "&Hooks::Integer::value")],
   Define.usertype "Hooks::UnsignedInteger" "new" "sol::no_constructor"
      [("value", "&Hooks::UnsignedInteger::value")]]

/-- The `flagStateForReset` global and the `hook`, `event`, `physics` and `chat` tables (rosaserver.cpp:779-819); the `hook` block ends with the call of `Lua::hook::clear`. -/
def definesApi : List Define :=
  [Define.global "flagStateForReset" "Lua::flagStateForReset",
   Define.table "hookTable" "hook"
      [TableStmt.field "persistentMode" "hookMode",
       TableStmt.field "enable" "Lua::hook::enable",
       TableStmt.field "disable" "Lua::hook::disable",
       TableStmt.field "clear" "Lua::hook::clear",
       TableStmt.hookClear],
   Define.table "eventTable" "event"
      [TableStmt.field "sound" "sol::overload(Lua::event::sound, Lua::event::soundSimple)",
       TableStmt.field "explosion" "Lua::event::explosion",
       TableStmt.field "bullet" "Lua::event::bullet",
       TableStmt.field "bulletHit" "Lua::event::bulletHit"],
   Define.table "physicsTable" "physics"
      [TableStmt.field "lineIntersectLevel" "Lua::physics::lineIntersectLevel",
       TableStmt.field "lineIntersectHuman" "Lua::physics::lineIntersectHuman",
       TableStmt.field "lineIntersectVehicle" "Lua::physics::lineIntersectVehicle",
       TableStmt.field "lineIntersectTriangle" "Lua::physics::lineIntersectTriangle",
       TableStmt.field "garbageCollectBullets" "Lua::physics::garbageCollectBullets",
       TableStmt.field "createBlock" "Lua::physics::createBlock",
       TableStmt.field "deleteBlock" "Lua::physics::deleteBlock"],
   Define.table "chatTable" "chat"
      [TableStmt.field "announce" "Lua::chat::announce",
       TableStmt.field "tellAdmins" "Lua::chat::tellAdmins",
       TableStmt.field "addRaw" "Lua::chat::addRaw"]]

/-- The thirteen entity-kind tables (rosaserver.cpp:821-984). -/
def definesEntityTables : List Define :=
  [Define.table "accountsTable" "accounts"
      [TableStmt.field "save" "Lua::accounts::save",
       TableStmt.field "getCount" "Lua::accounts::getCount",
       TableStmt.field "getAll" "Lua::accounts::getAll",
       TableStmt.field "getByPhone" "Lua::accounts::getByPhone",
       TableStmt.metatable,
       TableStmt.metafield "__len" "Lua::accounts::getCount",
       TableStmt.metafield "__index" "Lua::accounts::getByIndex"],
   Define.table "playersTable" "players"
      [TableStmt.field "getCount" "Lua::players::getCount",
       TableStmt.field "getAll" "Lua::players::getAll",
       TableStmt.field "getByPhone" "Lua::players::getByPhone",
       TableStmt.field "getNonBots" "Lua::players::getNonBots",
       TableStmt.field "createBot" "Lua::players::createBot",
       TableStmt.metatable,
       TableStmt.metafield "__len" "Lua::players::getCount",
       TableStmt.metafield "__index" "Lua::players::getByIndex"],
   Define.table "humansTable" "humans"
      [TableStmt.field "getCount" "Lua::humans::getCount",
       TableStmt.field "getAll" "Lua::humans::getAll",
       TableStmt.field "create" "Lua::humans::create",
       TableStmt.metatable,
       TableStmt.metafield "__len" "Lua::humans::getCount",
       TableStmt.metafield "__index" "Lua::humans::getByIndex"],
   Define.table "itemTypesTable" "itemTypes"
      [TableStmt.field "getCount" "Lua::itemTypes::getCount",
       TableStmt.field "getAll" "Lua::itemTypes::getAll",
       TableStmt.field "getByName" "Lua::itemTypes::getByName",
       TableStmt.metatable,
       TableStmt.metafield "__len" "Lua::itemTypes::getCount",
       TableStmt.metafield "__index" "Lua::itemTypes::getByIndex"],
   Define.table "itemsTable" "items"
      [TableStmt.field "getCount" "Lua::items::getCount",
       TableStmt.field "getAll" "Lua::items::getAll",
       TableStmt.field "create" "sol::overload(Lua::items::create, Lua::items::createVel)",
       TableStmt.field "createRope" "Lua::items::createRope",
       TableStmt.metatable,
       TableStmt.metafield "__len" "Lua::items::getCount",
       TableStmt.metafield "__index" "Lua::items::getByIndex"],
   Define.table "vehicleTypesTable" "vehicleTypes"
      [TableStmt.field "getCount" "Lua::vehicleTypes::getCount",
       TableStmt.field "getAll" "Lua::vehicleTypes::getAll",
       TableStmt.field "getByName" "Lua::vehicleTypes::getByName",
       TableStmt.metatable,
       TableStmt.metafield "__len" "Lua::vehicleTypes::getCount",
       TableStmt.metafield "__index" "Lua::vehicleTypes::getByIndex"],
   Define.table "vehiclesTable" "vehicles"
      [TableStmt.field "getCount" "Lua::vehicles::getCount",
       TableStmt.field "getAll" "Lua::vehicles::getAll",
       TableStmt.field "create" "sol::overload(Lua::vehicles::create, Lua::vehicles::createVel)",
       TableStmt.metatable,
       TableStmt.metafield "__len" "Lua::vehicles::getCount",
       TableStmt.metafield "__index" "Lua::vehicles::getByIndex"],
   Define.table "bulletsTable" "bullets"
      [TableStmt.field "getCount" "Lua::bullets::getCount",
       TableStmt.field "getAll" "Lua::bullets::getAll",
       TableStmt.field "create" "Lua::bullets::create"],
   Define.table "rigidBodiesTable" "rigidBodies"
      [TableStmt.field "getCount" "Lua::rigidBodies::getCount",
       TableStmt.field "getAll" "Lua::rigidBodies::getAll",
       TableStmt.metatable,
       TableStmt.metafield "__len" "Lua::rigidBodies::getCount",
       TableStmt.metafield "__index" "Lua::rigidBodies::getByIndex"],
   Define.table "bondsTable" "bonds"
      [TableStmt.field "getCount" "Lua::bonds::getCount",
       TableStmt.field "getAll" "Lua::bonds::getAll",
       TableStmt.metatable,
       TableStmt.metafield "__len" "Lua::bonds::getCount",
       TableStmt.metafield "__index" "Lua::bonds::getByIndex"],
   Define.table "streetsTable" "streets"
      [TableStmt.field "getCount" "Lua::streets::getCount",
       TableStmt.field "getAll" "Lua::streets::getAll",
       TableStmt.metatable,
       TableStmt.metafield "__len" "Lua::streets::getCount",
       TableStmt.metafield "__index" "Lua::streets::getByIndex"],
   Define.table "intersectionsTable" "intersections"
      [TableStmt.field "getCount" "Lua::intersections::getCount",
       TableStmt.field "getAll" "Lua::intersections::getAll",
       TableStmt.metatable,
       TableStmt.metafield "__len" "Lua::intersections::getCount",
       TableStmt.metafield "__index" "Lua::intersections::getByIndex"],
   Define.table "buildingsTable" "buildings"
      [TableStmt.field "getCount" "Lua::buildings::getCount",
       TableStmt.field "getAll" "Lua::buildings::getAll",
       TableStmt.metatable,
       TableStmt.metafield "__len" "Lua::buildings::getCount",
       TableStmt.metafield "__index" "Lua::buildings::getByIndex"]]

/-- The `memory` table and the constants (rosaserver.cpp:986-1040). -/
def definesMemory : List Define :=
  [Define.table "memoryTable" "memory"
      [TableStmt.field "getBaseAddress" "Lua::memory::getBaseAddress",
       TableStmt.field "getAddress" "sol::overload( &Lua::memory::getAddressOfConnection, &Lua::memory::getAddressOfAccount, &Lua::memory::getAddressOfPlayer, &Lua::memory::getAddressOfHuman, &Lua::memory::getAddressOfItemType, &Lua::memory::getAddressOfItem, &Lua::memory::getAddressOfVehicleType, &Lua::memory::getAddressOfVehicle, &Lua::memory::getAddressOfBullet, &Lua::memory::getAddressOfBone, &Lua::memory::getAddressOfRigidBody, &Lua::memory::getAddressOfBond, &Lua::memory::getAddressOfAction, &Lua::memory::getAddressOfMenuButton, &Lua::memory::getAddressOfStreetLane, &Lua::memory::getAddressOfStreet, &Lua::memory::getAddressOfStreetIntersection)",
       TableStmt.field "readByte" "Lua::memory::readByte",
       TableStmt.field "readUByte" "Lua::memory::readUByte",
       TableStmt.field "readShort" "Lua::memory::readShort",
       TableStmt.field "readUShort" "Lua::memory::readUShort",
       TableStmt.field "readInt" "Lua::memory::readInt",
       TableStmt.field "readUInt" "Lua::memory::readUInt",
       TableStmt.field "readLong" "Lua::memory::readLong",
       TableStmt.field "readULong" "Lua::memory::readULong",
       TableStmt.field "readFloat" "Lua::memory::readFloat",
       TableStmt.field "readDouble" "Lua::memory::readDouble",
       TableStmt.field "readBytes" "Lua::memory::readBytes",
       TableStmt.field "writeByte" "Lua::memory::writeByte",
       TableStmt.field "writeUByte" "Lua::memory::writeUByte",
       TableStmt.field "writeShort" "Lua::memory::writeShort",
       TableStmt.field "writeUShort" "Lua::memory::writeUShort",
       TableStmt.field "writeInt" "Lua::memory::writeInt",
       TableStmt.field "writeUInt" "Lua::memory::writeUInt",
       TableStmt.field "writeLong" "Lua::memory::writeLong",
       TableStmt.field "writeULong" "Lua::memory::writeULong",
       TableStmt.field "writeFloat" "Lua::memory::writeFloat",
       TableStmt.field "writeDouble" "Lua::memory::writeDouble",
       TableStmt.field "writeBytes" "Lua::memory::writeBytes"],
   Define.global "RESET_REASON_BOOT" "RESET_REASON_BOOT",
   Define.global "RESET_REASON_ENGINECALL" "RESET_REASON_ENGINECALL",
   Define.global "RESET_REASON_LUARESET" "RESET_REASON_LUARESET",
   Define.global "RESET_REASON_LUACALL" "RESET_REASON_LUACALL",
   Define.global "STATE_PREGAME" "1",
   Define.global "STATE_GAME" "2",
   Define.global "STATE_RESTARTING" "3",
   Define.global "TYPE_DRIVING" "1",
   Define.global "TYPE_RACE" "2",
   Define.global "TYPE_ROUND" "3",
   Define.global "TYPE_WORLD" "4",
   Define.global "TYPE_TERMINATOR" "5",
   Define.global "TYPE_COOP" "6",
   Define.global "TYPE_VERSUS" "7"]

/-- The definition phase of `luaInit`, in source order. -/
def luaInitDefines : List Define :=
  definesServer ++ Define.newServer ::
    (definesObjects1 ++ definesObjects2 ++ definesObjects3 ++ definesApi
      ++ definesEntityTables ++ definesMemory)

/-! ## The scripting runtime: `luaInit` (rosaserver.cpp:148) -/

/-- The entity kinds that have an Extension Side-Table, one per `*DataTables` array
    cleared by `luaInit`. -/
inductive DataKind where
  | accounts | players | humans | items | vehicles | bodies
deriving DecidableEq, Repr

/-- The bound of the loop that clears the side-table of a kind. -/
def DataKind.capacity : DataKind → Nat
  | .accounts => maxNumberOfAccounts
  | .players => maxNumberOfPlayers
  | .humans => maxNumberOfHumans
  | .items => maxNumberOfItems
  | .vehicles => maxNumberOfVehicles
  | .bodies => maxNumberOfRigidBodies

/-- The side-tables in the order in which `luaInit` clears them. -/
def DataKind.all : List DataKind :=
  [.accounts, .players, .humans, .items, .vehicles, .bodies]

/-- What `luaInit` does, one entry per executed statement that the properties
    talk about; object identities are allocation numbers. -/
inductive Event where
  /-- Construction of the `std::lock_guard` on `stateResetMutex`. -/
  | lock
  /-- Destruction of the `std::lock_guard` at the end of `luaInit`. -/
  | unlock
  | log (text : String)
  /-- The statement `delete server;` (a null pointer is `none`). -/
  | deleteServer (server : Option Nat)
  /-- The statement `delete xDataTables[i];` on the non-null entry `table`. -/
  | deleteTable (kind : DataKind) (index : Nat) (table : Nat)
  /-- The statement `delete lua;`. -/
  | deleteLua (lua : Option Nat)
  /-- The statement `lua = new sol::state();`. -/
  | newLua (lua : Nat)
  /-- The call `defineThreadSafeAPIs(lua)` (rosaserver.cpp:27-146). -/
  | defineThreadSafeAPIs
  | newUsertype (type luaName constructors : String)
  | member (type key value : String)
  | newServer (server : Nat)
  | setGlobal (name value : String)
  | createTable (var : String)
  | setField (var key value : String)
  | newMetatable (var : String)
  | setMetafield (var key value : String)
  /-- The call `Lua::hook::clear()`. -/
  | hookClear
  /-- The call `lua->load_file(LUA_ENTRY_FILE)`. -/
  | loadFile (file : String)
  /-- A call of `noLuaCallError` and what it returned. -/
  | noLuaCallError (ok : Bool)
  /-- The call `load()` that runs the bootstrap script. -/
  | runScript
deriving DecidableEq, Repr

/-- The part of the state that a running script can reach through the
    registered bindings: host memory (field accessors, `memory.write*`), the
    side-tables (the `data` properties) and the script bindings of the hooks
    (`hook.enable`, `hook.disable`, `hook.clear`). -/
structure ScriptWorld where
  mem : Nat → Nat
  dataTables : DataKind → Nat → Option Nat
  hookEnabled : String → Bool

/-- What `luaInit` takes from outside the repository. -/
structure LuaEnv where
  /-- The log prefix macro used by `luaInit`. -/
  LUA_PREFIX : String
  /-- The path macro of the bootstrap script. -/
  LUA_ENTRY_FILE : String
  /-- Whether `lua->load_file` fails, so that `noLuaCallError(&load)` is false. -/
  loadFails : Bool
  /-- What running the bootstrap script does to the state it can reach, and
      whether it ended without error. -/
  bootstrap : ScriptWorld → ScriptWorld × Bool

/-- The state of the scripting runtime together with the host process. -/
structure Runtime where
  /-- The host process: memory, installed hooks, console log. -/
  host : Process
  /-- The global `lua`; `none` is the null pointer. -/
  lua : Option Nat
  /-- The file-static `server`. -/
  server : Option Nat
  /-- The arrays `accountDataTables`, `playerDataTables`, `humanDataTables`,
      `itemDataTables`, `vehicleDataTables` and `bodyDataTables`. -/
  dataTables : DataKind → Nat → Option Nat
  /-- The script binding (enabled flag) of each hook, by hook name. -/
  hookEnabled : String → Bool
  /-- The number the next allocated object gets. -/
  nextObject : Nat
  /-- Everything done so far, oldest first. -/
  events : List Event

/-- The Uninitialized state: no interpreter, no server object, empty side-tables. -/
def Runtime.uninitialized (host : Process) : Runtime :=
  { host := host, lua := none, server := none, dataTables := fun _ _ => none,
    hookEnabled := fun _ => false, nextObject := 0, events := [] }

/-- Records one event. -/
def Runtime.emit (e : Event) (s : Runtime) : Runtime :=
  { s with events := s.events ++ [e] }

/-- A call of `Console::log(text)` inside `luaInit`. -/
def Runtime.log (text : String) (s : Runtime) : Runtime :=
  { s with host := Console_log text s.host, events := s.events ++ [.log text] }

/-- A loop `for (int i = 0; i < max; i++) body`. -/
def forLoop (max : Nat) (body : Nat → Runtime → Runtime) (s : Runtime) : Runtime :=
  (List.range max).foldl (fun s i => body i s) s

/-- The body `if (xDataTables[i]) { delete xDataTables[i]; xDataTables[i] = nullptr; }`. -/
def clearEntry (k : DataKind) (i : Nat) (s : Runtime) : Runtime :=
  match s.dataTables k i with
  | some t =>
      { s with
        dataTables := fun k₂ i₂ => if k₂ = k ∧ i₂ = i then none else s.dataTables k₂ i₂,
        events := s.events ++ [.deleteTable k i t] }
  | none => s

/-- The branch `if (redo) { ... }` of `luaInit` (rosaserver.cpp:152-197). -/
def teardown (env : LuaEnv) (s : Runtime) : Runtime :=
  let s := s.log (env.LUA_PREFIX ++ "Resetting state...\n")
  let s := s.emit (.deleteServer s.server)
  let s := forLoop maxNumberOfAccounts (clearEntry .accounts) s
  let s := forLoop maxNumberOfPlayers (clearEntry .players) s
  let s := forLoop maxNumberOfHumans (clearEntry .humans) s
  let s := forLoop maxNumberOfItems (clearEntry .items) s
  let s := forLoop maxNumberOfVehicles (clearEntry .vehicles) s
  let s := forLoop maxNumberOfRigidBodies (clearEntry .bodies) s
  s.emit (.deleteLua s.lua)

/-- The event of one statement of a table block. -/
def TableStmt.event (var : String) : TableStmt → Event
  | .field key value => .setField var key value
  | .metatable => .newMetatable var
  | .metafield key value => .setMetafield var key value
  | .hookClear => .hookClear

/-- The events of one item of the definition phase; `next` is the number a
    newly allocated object gets. -/
def Define.events (next : Nat) : Define → List Event
  | .usertype type luaName constructors members =>
      .newUsertype type luaName constructors :: members.map (fun m => .member type m.1 m.2)
  | .newServer => [.newServer next]
  | .global name value => [.setGlobal name value]
  | .table var name body =>
      .createTable var :: .setGlobal name var :: body.map (TableStmt.event var)

/-- Whether an item calls `Lua::hook::clear()`. -/
def Define.clearsHooks : Define → Bool
  | .table _ _ body => body.contains .hookClear
  | _ => false

/-- Modelled from the spec: `Lua::hook::clear` is not in the source files; it
    "clears all Hook Records' script bindings", so every hook ends up disabled
    for scripts. -/
def hookClear (_enabled : String → Bool) : String → Bool :=
  fun _ => false

/-- Executes one item of the definition phase. -/
def runDefine (s : Runtime) (d : Define) : Runtime :=
  let s := { s with events := s.events ++ d.events s.nextObject }
  match d with
  | .newServer => { s with server := some s.nextObject, nextObject := s.nextObject + 1 }
  | _ => if d.clearsHooks then { s with hookEnabled := hookClear s.hookEnabled } else s

/-- The statements `sol::protected_function_result res = load(); if (noLuaCallError(&res)) ...`
    (rosaserver.cpp:1046-1049). -/
def runBootstrap (env : LuaEnv) (s : Runtime) : Runtime :=
  let w := env.bootstrap
    { mem := s.host.mem, dataTables := s.dataTables, hookEnabled := s.hookEnabled }
  let s := { s with
    host := { s.host with mem := w.1.mem },
    dataTables := w.1.dataTables,
    hookEnabled := w.1.hookEnabled,
    events := s.events ++ [Event.runScript] }
  let s := s.emit (.noLuaCallError w.2)
  if w.2 then s.log (env.LUA_PREFIX ++ "No problems!\n") else s

/-- The statements of `luaInit` after the `if (redo)`/`else` (rosaserver.cpp:202-1050). -/
def rebuild (env : LuaEnv) (s : Runtime) : Runtime :=
  let s := { s with lua := some s.nextObject, nextObject := s.nextObject + 1,
                    events := s.events ++ [Event.newLua s.nextObject] }
  let s := s.log (env.LUA_PREFIX ++ "Defining...\n")
  let s := s.emit .defineThreadSafeAPIs
  let s := luaInitDefines.foldl runDefine s
  let s := s.log (env.LUA_PREFIX ++ "Running " ++ env.LUA_ENTRY_FILE ++ "...\n")
  let s := s.emit (.loadFile env.LUA_ENTRY_FILE)
  let s := s.emit (.noLuaCallError (!env.loadFails))
  if env.loadFails then s else runBootstrap env s

/-- Shallow embedding of `luaInit(redo)`. -/
def luaInit (env : LuaEnv) (redo : Bool) (s : Runtime) : Runtime :=
  let s := s.emit .lock
  let s := if redo then teardown env s
           else s.log (env.LUA_PREFIX ++ "Initializing state...\n")
  let s := rebuild env s
  s.emit .unlock

/-- A run of the lifecycle: one `luaInit(false)` from the Uninitialized state, then
    one `luaInit(true)` per element of `resets`, each in its own environment. -/
def lifecycle (boot : LuaEnv) (resets : List LuaEnv) (host : Process) : Runtime :=
  resets.foldl (fun s env => luaInit env true s) (luaInit boot false (Runtime.uninitialized host))

/-! ## Auxiliary definitions for the properties of `luaInit` -/

/-- The `delete xDataTables[i]` statements a teardown performs on the side-tables
    `tables`: one per non-null entry, kind by kind and index by index. -/
def expectedDeletes (tables : DataKind → Nat → Option Nat) : List Event :=
  DataKind.all.flatMap fun k =>
    (List.range k.capacity).filterMap fun i => (tables k i).map (Event.deleteTable k i)

/-- The side-tables with every entry inside the capacity of its kind set to null. -/
def clearedTables (tables : DataKind → Nat → Option Nat) : DataKind → Nat → Option Nat :=
  fun k i => if i < k.capacity then none else tables k i

/-- Whether an item of the definition phase is `server = new Server();`. -/
def Define.isNewServer : Define → Bool
  | .newServer => true
  | _ => false

/-- The events of a run of items of the definition phase; `next` is the number
    the first allocated object gets. -/
def definesEvents (next : Nat) : List Define → List Event
  | [] => []
  | d :: ds => d.events next ++ definesEvents (if d.isNewServer then next + 1 else next) ds

/-- The events of the bootstrap phase (rosaserver.cpp:1042-1050), given whether
    the script ended without error. -/
def bootstrapEvents (env : LuaEnv) (ok : Bool) : List Event :=
  [.log (env.LUA_PREFIX ++ "Running " ++ env.LUA_ENTRY_FILE ++ "...\n"),
   .loadFile env.LUA_ENTRY_FILE, .noLuaCallError (!env.loadFails)]
  ++ (if env.loadFails then []
      else [.runScript, .noLuaCallError ok]
        ++ (if ok then [.log (env.LUA_PREFIX ++ "No problems!\n")] else []))

/-- The steps of the lifecycle that the specification names. -/
inductive Step where
  | construct | register | clearHooks | load | run
deriving DecidableEq, Repr

/-- The step an event belongs to; logging, locking, error checks and
    destructions are not steps of the rebuild. -/
def Event.step? : Event → Option Step
  | .newLua _ => some .construct
  | .defineThreadSafeAPIs => some .register
  | .newUsertype _ _ _ => some .register
  | .member _ _ _ => some .register
  | .newServer _ => some .register
  | .setGlobal _ _ => some .register
  | .createTable _ => some .register
  | .setField _ _ _ => some .register
  | .newMetatable _ => some .register
  | .setMetafield _ _ _ => some .register
  | .hookClear => some .clearHooks
  | .loadFile _ => some .load
  | .runScript => some .run
  | _ => none

/-- The sequence of steps in a trace. -/
def steps (events : List Event) : List Step :=
  events.filterMap Event.step?

/-- The two classes of objects of which the runtime keeps one instance. -/
inductive ObjClass where
  | interpreter | server
deriving DecidableEq, Repr

/-- The object of class `c` that an event constructs, if any. -/
def Event.created? (c : ObjClass) : Event → Option Nat
  | .newLua id => if c = .interpreter then some id else none
  | .newServer id => if c = .server then some id else none
  | _ => none

/-- The object of class `c` that an event destroys, if any. -/
def Event.destroyed? (c : ObjClass) : Event → Option Nat
  | .deleteLua (some id) => if c = .interpreter then some id else none
  | .deleteServer (some id) => if c = .server then some id else none
  | _ => none

/-- Replays a trace from the live objects `live` of class `c`: a construction
    while another instance is live is a violation (`none`); otherwise the
    objects live at the end. -/
def liveAfter (c : ObjClass) : List Nat → List Event → Option (List Nat)
  | live, [] => some live
  | live, e :: rest =>
      match e.created? c with
      | some id => if live = [] then liveAfter c [id] rest else none
      | none =>
          match e.destroyed? c with
          | some id => liveAfter c (live.erase id) rest
          | none => liveAfter c live rest

/-- The table destroyed by an event, with its kind and index. -/
def Event.deletedTable? : Event → Option (DataKind × Nat × Nat)
  | .deleteTable k i t => some (k, i, t)
  | _ => none

/-- Modelled from the spec: the bodies of `Player::getDataTable` and its siblings
    (bound to the `data` property of the handle types) are not in the source files.
    A side-table entry is "lazily created": reading `data` of slot `i` of kind `k`
    creates the entry, here the table numbered `fresh`, when there is none. -/
def getDataTable (k : DataKind) (i fresh : Nat) (w : ScriptWorld) : ScriptWorld :=
  match w.dataTables k i with
  | some _ => w
  | none =>
      { w with dataTables :=
          (fun k₂ i₂ => if k₂ = k ∧ i₂ = i then some fresh else w.dataTables k₂ i₂) }

/-- A sample environment of `luaInit` whose bootstrap script reads
    `players[0].data` and ends without error. -/
def touchingEnv : LuaEnv where
  LUA_PREFIX := "[Lua] "
  LUA_ENTRY_FILE := "main/init.lua"
  loadFails := false
  bootstrap := fun w => (getDataTable DataKind.players 0 99 w, true)

/-- The events of the definition phase that bind a name: all of them but the
    construction of the Server object. -/
def Event.isBinding : Event → Bool
  | .newUsertype _ _ _ => true
  | .member _ _ _ => true
  | .setGlobal _ _ => true
  | .createTable _ => true
  | .setField _ _ _ => true
  | .newMetatable _ => true
  | .setMetafield _ _ _ => true
  | .hookClear => true
  | _ => false

/-- A sample runtime before a reset: interpreter 0 and server 1 are live, and the
    accounts side-table holds table 77 at index 5. -/
def sampleRuntime : Runtime :=
  { host := sampleProcess, lua := some 0, server := some 1,
    dataTables := (fun k i => if k = DataKind.accounts ∧ i = 5 then some 77 else none),
    hookEnabled := (fun _ => true), nextObject := 2,
    events := [Event.newLua 0, Event.newServer 1] }

/-- The state the bootstrap script of a call `luaInit(redo)` starts from when the
    call starts in `s`: host memory as it is, the side-tables after the teardown
    (if any), and every hook binding cleared. -/
def scriptStart (redo : Bool) (s : Runtime) : ScriptWorld :=
  { mem := s.host.mem,
    dataTables := if redo then clearedTables s.dataTables else s.dataTables,
    hookEnabled := fun _ => false }

/-- What the script-visible state is when `luaInit(redo)` returns: what the
    bootstrap script made of `scriptStart`, or `scriptStart` itself when the
    script could not be loaded. -/
def scriptEnd (env : LuaEnv) (redo : Bool) (s : Runtime) : ScriptWorld :=
  if env.loadFails then scriptStart redo s else (env.bootstrap (scriptStart redo s)).1

/-- The events of `luaInit(redo)` between taking the lock and constructing the
    new interpreter. -/
def prefixEvents (env : LuaEnv) (redo : Bool) (s : Runtime) : List Event :=
  if redo then
    [Event.log (env.LUA_PREFIX ++ "Resetting state...\n"), Event.deleteServer s.server]
      ++ expectedDeletes s.dataTables ++ [Event.deleteLua s.lua]
  else [Event.log (env.LUA_PREFIX ++ "Initializing state...\n")]

/-- The events of `luaInit` from the construction of the interpreter numbered `n`
    to the end of the bootstrap phase. -/
def rebuildEvents (env : LuaEnv) (n : Nat) (ok : Bool) : List Event :=
  [Event.newLua n, Event.log (env.LUA_PREFIX ++ "Defining...\n"), Event.defineThreadSafeAPIs]
    ++ definesEvents (n + 1) luaInitDefines ++ bootstrapEvents env ok

/-- The events of one call `luaInit(redo)` that starts in `s`. -/
def luaInitEvents (env : LuaEnv) (redo : Bool) (s : Runtime) : List Event :=
  [Event.lock] ++ prefixEvents env redo s
    ++ rebuildEvents env s.nextObject (env.bootstrap (scriptStart redo s)).2 ++ [Event.unlock]

/-- The lines one call `luaInit(redo)` passes to `Console::log`. -/
def luaInitLog (env : LuaEnv) (redo : Bool) (s : Runtime) : List String :=
  [env.LUA_PREFIX ++ (if redo then "Resetting state...\n" else "Initializing state...\n"),
   env.LUA_PREFIX ++ "Defining...\n",
   env.LUA_PREFIX ++ "Running " ++ env.LUA_ENTRY_FILE ++ "...\n"]
  ++ (if !env.loadFails && (env.bootstrap (scriptStart redo s)).2
      then [env.LUA_PREFIX ++ "No problems!\n"] else [])

/-- The events of `luaInit` after the construction of the interpreter numbered `n`. -/
def afterConstruction (env : LuaEnv) (n : Nat) (ok : Bool) : List Event :=
  [Event.log (env.LUA_PREFIX ++ "Defining...\n"), Event.defineThreadSafeAPIs]
    ++ definesEvents (n + 1) luaInitDefines ++ bootstrapEvents env ok ++ [Event.unlock]

/-! ## The entity-kind tables and the create and remove operations -/

/-- The global names of the entity-kind tables (rosaserver.cpp:821-984). -/
def entityTableNames : List String :=
  ["accounts", "players", "humans", "itemTypes", "items", "vehicleTypes", "vehicles",
   "bullets", "rigidBodies", "bonds", "streets", "intersections", "buildings"]

/-- The statements of the block of `luaInit` that registers the global table `name`. -/
def tableBody (name : String) : Option (List TableStmt) :=
  luaInitDefines.findSome? fun d =>
    match d with
    | .table _ n body => if n = name then some body else none
    | _ => none

/-- The function that the statements `body` leave in the field `key` of the
    table (the last assignment wins). -/
def fieldOf (body : List TableStmt) (key : String) : Option String :=
  body.reverse.findSome? fun st =>
    match st with
    | .field k v => if k = key then some v else none
    | _ => none

/-- The function that the statements `body` leave in the field `key` of the
    metatable of the table. -/
def metafieldOf (body : List TableStmt) (key : String) : Option String :=
  body.reverse.findSome? fun st =>
    match st with
    | .metafield k v => if k = key then some v else none
    | _ => none

/-- Whether the table `name` has `getCount` and `getAll`. -/
def hasCountAndAll (name : String) : Bool :=
  match tableBody name with
  | some body => (fieldOf body "getCount").isSome && (fieldOf body "getAll").isSome
  | none => false

/-- Whether the table `name` has an `__index` handler and a `__len` bound to the
    function that `getCount` is bound to. -/
def hasIndexAndLen (name : String) : Bool :=
  match tableBody name with
  | some body =>
      (metafieldOf body "__index").isSome && (fieldOf body "getCount").isSome
        && metafieldOf body "__len" == fieldOf body "getCount"
  | none => false

/-- The members that `luaInit` binds on the handle type `type`. -/
def usertypeMembers (type : String) : List (String × String) :=
  luaInitDefines.flatMap fun d =>
    match d with
    | .usertype t _ _ members => if t = type then members else []
    | _ => []

/-- The create and remove operations that `luaInit` exposes to scripts. -/
inductive ScriptOp where
  | playersCreateBot | humansCreate | itemsCreate | itemsCreateRope | vehiclesCreate
  | bulletsCreate | playerRemove | humanRemove | itemRemove | vehicleRemove
deriving DecidableEq, Repr

/-- Whether `luaInit` registers the operation: a field of an entity-kind table, or
    the member `remove` of a handle type. -/
def ScriptOp.registered : ScriptOp → Bool
  | .playersCreateBot => ((tableBody "players").bind (fieldOf · "createBot")).isSome
  | .humansCreate => ((tableBody "humans").bind (fieldOf · "create")).isSome
  | .itemsCreate => ((tableBody "items").bind (fieldOf · "create")).isSome
  | .itemsCreateRope => ((tableBody "items").bind (fieldOf · "createRope")).isSome
  | .vehiclesCreate => ((tableBody "vehicles").bind (fieldOf · "create")).isSome
  | .bulletsCreate => ((tableBody "bullets").bind (fieldOf · "create")).isSome
  | .playerRemove => ((usertypeMembers "Player").lookup "remove").isSome
  | .humanRemove => ((usertypeMembers "Human").lookup "remove").isSome
  | .itemRemove => ((usertypeMembers "Item").lookup "remove").isSome
  | .vehicleRemove => ((usertypeMembers "Vehicle").lookup "remove").isSome

/-- Modelled from the spec: the bodies of the bound functions (`Lua::items::create`,
    `Player::remove`, ...) are not in the source files; each operation "delegates
    to the corresponding hooked host create function" or to "the hooked host
    delete function", which is the pointer global of namespace `Engine` named
    here. -/
def ScriptOp.hostFunction : ScriptOp → Slot
  | .playersCreateBot => .createPlayer
  | .humansCreate => .createHuman
  | .itemsCreate => .createItem
  | .itemsCreateRope => .createRope
  | .vehiclesCreate => .createVehicle
  | .bulletsCreate => .createBullet
  | .playerRemove => .deletePlayer
  | .humanRemove => .deleteHuman
  | .itemRemove => .deleteItem
  | .vehicleRemove => .deleteVehicle

/-- Whether `locateMemory` assigns the pointer global `s`. -/
def located (s : Slot) : Bool := (memoryMapTable.lookup s).isSome

/-- Whether `installHooks` has a line `INSTALL(s)`. -/
def hooked (s : Slot) : Bool := decide (s ∈ hookSequence)

/-! ## The liveness flag (structs.h) -/

/-- The structs that have the members `getIsActive` and `setIsActive`. -/
inductive ActiveStruct where
  | EarShot | Player | Human | Item | Vehicle | RigidBody | Bond
deriving DecidableEq, Repr

/-- Offset of the member `int active`, the first member of each of these structs. -/
def ActiveStruct.activeOffset : ActiveStruct → Nat
  | .EarShot => 0
  | .Player => 0
  | .Human => 0
  | .Item => 0
  | .Vehicle => 0
  | .RigidBody => 0
  | .Bond => 0

/-- The address of the member `active` of the struct at `this`. -/
def ActiveStruct.activeAddress (k : ActiveStruct) (this : Nat) : Nat :=
  (this + k.activeOffset) % WORD

/-- Stores the 32-bit value `v` at `address`, little-endian. -/
def write32 (mem : Nat → Nat) (address v : Nat) : Nat → Nat :=
  writeBytes mem address [v % 256, v / 256 % 256, v / 65536 % 256, v / 16777216 % 256]

/-- The member `bool getIsActive() const { return active; }`: the conversion of an
    `int` to `bool` is the test against zero. -/
def getIsActive (k : ActiveStruct) (mem : Nat → Nat) (this : Nat) : Bool :=
  read32 mem (k.activeAddress this) != 0

/-- The member `void setIsActive(bool b) { active = b; }`: the conversion of a
    `bool` to `int` gives 1 or 0. -/
def setIsActive (k : ActiveStruct) (this : Nat) (b : Bool) (mem : Nat → Nat) : Nat → Nat :=
  write32 mem (k.activeAddress this) (if b then 1 else 0)

/-! ## Raw structures (structs.h) -/

/-- A C++ object type with its size and alignment in bytes. -/
structure CType where
  name : String
  size : Nat
  align : Nat
deriving DecidableEq, Repr

def CType.int : CType := ⟨"int", 4, 4⟩
def CType.unsignedInt : CType := ⟨"unsigned int", 4, 4⟩
def CType.float : CType := ⟨"float", 4, 4⟩
def CType.short : CType := ⟨"short", 2, 2⟩
def CType.longLong : CType := ⟨"long long", 8, 8⟩
def CType.char : CType := ⟨"char", 1, 1⟩
def CType.unsignedChar : CType := ⟨"unsigned char", 1, 1⟩
/-- The alias `using padding = uint8_t;`. -/
def CType.padding : CType := ⟨"padding", 1, 1⟩

/-- One data member of a struct: its name, the type of its elements, the array
    dimensions as written (none for a scalar), and the hexadecimal offset of
    the trailing comment, if there is one. -/
structure Member where
  name : String
  type : CType
  dims : List Int
  comment : Option Nat
deriving DecidableEq, Repr

/-- Whether every array dimension is a valid one (not negative). -/
def Member.wellFormed (m : Member) : Bool :=
  m.dims.all (fun d => decide (0 ≤ d))

/-- Number of elements of the member. -/
def Member.count (m : Member) : Nat :=
  (m.dims.foldl (fun n d => n * d) 1).toNat

/-- Size of the member in bytes. -/
def Member.size (m : Member) : Nat :=
  m.type.size * m.count

/-- The least multiple of `align` that is not below `offset`. -/
def alignUp (offset align : Nat) : Nat :=
  (offset + align - 1) / align * align

/-- Offsets of the members under natural alignment, starting at `offset`: each
    member lies at the next multiple of the alignment of its type. -/
def layoutFrom (offset : Nat) : List Member → List (Member × Nat)
  | [] => []
  | m :: ms =>
      (m, alignUp offset m.type.align)
        :: layoutFrom (alignUp offset m.type.align + m.size) ms

/-- Offsets of the members of a struct. -/
def layout (members : List Member) : List (Member × Nat) :=
  layoutFrom 0 members

/-- Offset of the first byte after the last member. -/
def endOffset (members : List Member) : Nat :=
  members.foldl (fun offset m => alignUp offset m.type.align + m.size) 0

/-- Alignment of a struct: the largest alignment of a member. -/
def structAlign (members : List Member) : Nat :=
  members.foldl (fun a m => max a m.type.align) 1

/-- Size of a struct: the end of the last member rounded up to the alignment. -/
def structSize (members : List Member) : Nat :=
  alignUp (endOffset members) (structAlign members)

/-- The type of a struct declared with the given members. -/
def structType (name : String) (members : List Member) : CType :=
  ⟨name, structSize members, structAlign members⟩

/-- The operator `sizeof` applied to a struct, as used in array dimensions. -/
def sizeof (members : List Member) : Int :=
  (structSize members : Int)

/-- Offset of the member called `name`, if the struct has one. -/
def offsetOf (members : List Member) (name : String) : Option Nat :=
  ((layout members).find? (fun mo => mo.1.name == name)).map (fun mo => mo.2)

/-- Whether every member with an offset comment lies at the offset of its comment. -/
def commentsHold (members : List Member) : Bool :=
  (layout members).all fun mo =>
    match mo.1.comment with
    | none => true
    | some c => c == mo.2

/-- The address of element `i` of an array of `members` structs at `arrayBase`. -/
def slotAddress (arrayBase i : Nat) (members : List Member) : Nat :=
  (arrayBase + i * structSize members) % WORD

/-- The data members of `struct EarShot` (structs.h:29), documented as 40 bytes. -/
def EarShot : List Member :=
  [Member.mk "active" CType.int [] none,
   Member.mk "playerID" CType.int [] (some 0x4),
   Member.mk "humanID" CType.int [] (some 0x8),
   Member.mk "receivingItemID" CType.int [] (some 0xc),
   Member.mk "transmittingItemID" CType.int [] (some 0x10),
   Member.mk "unk2" CType.int [] (some 0x14),
   Member.mk "unk3" CType.int [] (some 0x18),
   Member.mk "unk4" CType.int [] (some 0x1c),
   Member.mk "distance" CType.float [] (some 0x20),
   Member.mk "volume" CType.float [] (some 0x24)]

/-- The data members of `struct Connection` (structs.h:56), documented as 188896 bytes. -/
def Connection : List Member :=
  [Member.mk "address" CType.unsignedInt [] none,
   Member.mk "port" CType.unsignedInt [] (some 0x4),
   Member.mk "unk0" CType.int [3] (some 0x8),
   Member.mk "adminVisible" CType.int [] (some 0x14),
   Member.mk "playerID" CType.int [] (some 0x18),
   Member.mk "unk1" CType.int [] (some 0x1c),
   Member.mk "bandwidth" CType.int [] (some 0x20),
   Member.mk "timeoutTime" CType.int [] (some 0x24),
   Member.mk "unk2" CType.padding [0x5c - 0x24 - 4] none,
   Member.mk "earShots" (structType "EarShot" EarShot) [8] (some 0x5c),
   Member.mk "unk3" CType.padding [0x19c - (0x5c + (sizeof EarShot * 8))] none,
   Member.mk "spectatingHumanID" CType.int [] (some 0x19c),
   Member.mk "unk4" CType.padding [0x2E1E0 - 0x19c - 4] none]

/-- The data members of `struct Account` (structs.h:80), documented as 112 bytes. -/
def Account : List Member :=
  [Member.mk "subRosaID" CType.int [] none,
   Member.mk "phoneNumber" CType.int [] (some 0x4),
   Member.mk "steamID" CType.longLong [] (some 0x8),
   Member.mk "name" CType.char [32] (some 0x10),
   Member.mk "unk0" CType.int [] (some 0x30),
   Member.mk "money" CType.int [] (some 0x34),
   Member.mk "corporateRating" CType.int [] (some 0x38),
   Member.mk "criminalRating" CType.int [] (some 0x3c),
   Member.mk "spawnTimer" CType.int [] (some 0x40),
   Member.mk "playTime" CType.int [] (some 0x44),
   Member.mk "unk1" CType.padding [0x60 - 0x44 - 4] none,
   Member.mk "banTime" CType.int [] (some 0x60),
   Member.mk "unk2" CType.padding [112 - 104] none]

/-- The data members of `struct Vector` (structs.h:106). -/
def Vector : List Member :=
  [Member.mk "x" CType.float [] none,
   Member.mk "y" CType.float [] none,
   Member.mk "z" CType.float [] none]

/-- The data members of `struct RotMatrix` (structs.h:126). -/
def RotMatrix : List Member :=
  [Member.mk "x1" CType.float [] none,
   Member.mk "y1" CType.float [] none,
   Member.mk "z1" CType.float [] none,
   Member.mk "x2" CType.float [] none,
   Member.mk "y2" CType.float [] none,
   Member.mk "z2" CType.float [] none,
   Member.mk "x3" CType.float [] none,
   Member.mk "y3" CType.float [] none,
   Member.mk "z3" CType.float [] none]

/-- The data members of `struct Action` (structs.h:174), documented as 84 bytes. -/
def Action : List Member :=
  [Member.mk "type" CType.int [] none,
   Member.mk "a" CType.int [] none,
   Member.mk "b" CType.int [] none,
   Member.mk "c" CType.int [] none,
   Member.mk "d" CType.int [] none,
   Member.mk "text" CType.char [64] none]

/-- The data members of `struct MenuButton` (structs.h:186), documented as 72 bytes. -/
def MenuButton : List Member :=
  [Member.mk "id" CType.int [] none,
   Member.mk "text" CType.char [64] none,
   Member.mk "unk" CType.int [] none]

/-- The data members of `struct Player` (structs.h:199), documented as 14388 bytes. -/
def Player : List Member :=
  [Member.mk "active" CType.int [] none,
   Member.mk "name" CType.char [32] (some 0x4),
   Member.mk "unk0" CType.int [] (some 0x24),
   Member.mk "unk1" CType.int [] (some 0x28),
   Member.mk "subRosaID" CType.unsignedInt [] (some 0x2c),
   Member.mk "phoneNumber" CType.unsignedInt [] (some 0x30),
   Member.mk "isAdmin" CType.int [] (some 0x34),
   Member.mk "adminAttempts" CType.unsignedInt [] (some 0x38),
   Member.mk "accountID" CType.unsignedInt [] (some 0x3c),
   Member.mk "unk2" CType.padding [0x48 - 0x3C - 4] none,
   Member.mk "isReady" CType.int [] (some 0x48),
   Member.mk "money" CType.int [] (some 0x4c),
   Member.mk "unk2a" CType.int [] (some 0x50),
   Member.mk "unk2b" CType.int [] (some 0x54),
   Member.mk "corporateRating" CType.int [] (some 0x58),
   Member.mk "criminalRating" CType.int [] (some 0x5c),
   Member.mk "unk3" CType.padding [0x84 - 0x5c - 4] none,
   Member.mk "team" CType.unsignedInt [] (some 0x84),
   Member.mk "teamSwitchTimer" CType.unsignedInt [] (some 0x88),
   Member.mk "stocks" CType.int [] (some 0x8c),
   Member.mk "unk4" CType.int [2] none,
   Member.mk "spawnTimer" CType.int [] (some 0x98),
   Member.mk "humanID" CType.int [] (some 0x9c),
   Member.mk "unk5" CType.padding [0x164 - 0x9c - 4] none,
   Member.mk "menuTab" CType.int [] (some 0x164),
   Member.mk "unk5_1" CType.padding [0x1b4 - 0x164 - 4] none,
   Member.mk "numActions" CType.int [] (some 0x1b4),
   Member.mk "lastNumActions" CType.int [] (some 0x1b8),
   Member.mk "unk5_2" CType.padding [0x1c8 - 0x1b8 - 4] none,
   Member.mk "actions" (structType "Action" Action) [64] (some 0x1c8),
   Member.mk "unk6" CType.padding [0x1b14 - (0x1c8 + (sizeof Action * 64))] none,
   Member.mk "numMenuButtons" CType.int [] (some 0x1b14),
   Member.mk "menuButtons" (structType "MenuButton" MenuButton) [32] (some 0x1b18),
   Member.mk "unk6_1" CType.padding [0x2d18 - (0x1b18 + (sizeof MenuButton * 32))] none,
   Member.mk "isBot" CType.int [] (some 0x2d18),
   Member.mk "isZombie" CType.int [] (some 0x2d1c),
   Member.mk "unk7a" CType.padding [0x2d38 - 0x2d1c - 4] none,
   Member.mk "botHasDestination" CType.int [] (some 0x2d38),
   Member.mk "botDestination" (structType "Vector" Vector) [] (some 0x2d3c),
   Member.mk "unk7" CType.padding [0x37ac - 0x2d3c - 12] none,
   Member.mk "gender" CType.int [] (some 0x37ac),
   Member.mk "skinColor" CType.int [] (some 0x37b0),
   Member.mk "hairColor" CType.int [] (some 0x37b4),
   Member.mk "hair" CType.int [] (some 0x37b8),
   Member.mk "eyeColor" CType.int [] (some 0x37bc),
   Member.mk "model" CType.int [] (some 0x37c0),
   Member.mk "suitColor" CType.int [] (some 0x37c4),
   Member.mk "tieColor" CType.int [] (some 0x37c8),
   Member.mk "unk10" CType.int [] (some 0x37cc),
   Member.mk "head" CType.int [] (some 0x37d0),
   Member.mk "necklace" CType.int [] (some 0x37d4),
   Member.mk "unk11" CType.padding [0x3834 - 0x37d4 - 4] none]

/-- The data members of `struct Bone` (structs.h:291), documented as 312 bytes. -/
def Bone : List Member :=
  [Member.mk "bodyID" CType.int [] none,
   Member.mk "pos" (structType "Vector" Vector) [] none,
   Member.mk "pos2" (structType "Vector" Vector) [] none,
   Member.mk "vel" (structType "Vector" Vector) [] none,
   Member.mk "vel2" (structType "Vector" Vector) [] none,
   Member.mk "rot" (structType "RotMatrix" RotMatrix) [] none,
   Member.mk "unk" CType.padding [312 - 88] none]

/-- The data members of `struct InventorySlot` (structs.h:304), documented as 40 bytes. -/
def InventorySlot : List Member :=
  [Member.mk "count" CType.int [] none,
   Member.mk "primaryItemID" CType.int [] none,
   Member.mk "secondaryItemID" CType.int [] none,
   Member.mk "unk01" CType.padding [0x1c] none]

/-- The data members of `struct Human` (structs.h:316), documented as 28664 bytes. -/
def Human : List Member :=
  [Member.mk "active" CType.int [] none,
   Member.mk "physicsSim" CType.int [] (some 0x4),
   Member.mk "playerID" CType.int [] (some 0x8),
   Member.mk "accountID" CType.int [] (some 0xc),
   Member.mk "unk1" CType.int [] (some 0x10),
   Member.mk "unk2" CType.int [] (some 0x14),
   Member.mk "unk3" CType.int [] (some 0x18),
   Member.mk "stamina" CType.int [] (some 0x1c),
   Member.mk "maxStamina" CType.int [] (some 0x20),
   Member.mk "unk4" CType.int [] (some 0x24),
   Member.mk "vehicleID" CType.int [] (some 0x28),
   Member.mk "vehicleSeat" CType.int [] (some 0x2c),
   Member.mk "lastVehicleID" CType.int [] (some 0x30),
   Member.mk "lastVehicleCooldown" CType.int [] (some 0x34),
   Member.mk "despawnTime" CType.unsignedInt [] (some 0x38),
   Member.mk "oldHealth" CType.int [] (some 0x3c),
   Member.mk "isImmortal" CType.int [] (some 0x40),
   Member.mk "unk10" CType.int [] (some 0x44),
   Member.mk "unk11" CType.int [] (some 0x48),
   Member.mk "unk12" CType.int [] (some 0x4c),
   Member.mk "spawnProtection" CType.unsignedInt [] (some 0x50),
   Member.mk "isOnGround" CType.int [] (some 0x54),
   Member.mk "movementState" CType.int [] (some 0x58),
   Member.mk "unk13" CType.int [] (some 0x5c),
   Member.mk "zoomLevel" CType.int [] (some 0x60),
   Member.mk "unk14" CType.int [] (some 0x64),
   Member.mk "unk15" CType.int [] (some 0x68),
   Member.mk "unk16" CType.int [] (some 0x6c),
   Member.mk "unk17" CType.int [] (some 0x70),
   Member.mk "unk18" CType.int [] (some 0x74),
   Member.mk "damage" CType.int [] (some 0x78),
   Member.mk "isStanding" CType.int [] (some 0x7c),
   Member.mk "pos" (structType "Vector" Vector) [] (some 0x80),
   Member.mk "pos2" (structType "Vector" Vector) [] (some 0x8c),
   Member.mk "viewYaw" CType.float [] (some 0x98),
   Member.mk "viewPitch" CType.float [] (some 0x9c),
   Member.mk "unk19" CType.padding [0x12c - 0x9c - 4] none,
   Member.mk "strafeInput" CType.float [] (some 0x12c),
   Member.mk "unk20" CType.float [] (some 0x130),
   Member.mk "walkInput" CType.float [] (some 0x134),
   Member.mk "unk21" CType.padding [0x214 - 0x134 - 4] none,
   Member.mk "inputFlags" CType.unsignedInt [] (some 0x214),
   Member.mk "lastInputFlags" CType.unsignedInt [] (some 0x218),
   Member.mk "unk22" CType.padding [0x220 - 0x218 - 4] none,
   Member.mk "bones" (structType "Bone" Bone) [16] (some 0x220),
   Member.mk "unk23" CType.padding [0x6ad0 - (0x220 + (sizeof Bone * 16))] none,
   Member.mk "inventorySlots" (structType "InventorySlot" InventorySlot) [6] (some 0x6ad0),
   Member.mk "unk25" CType.padding [0x6d50 - (0x6ad0 + (sizeof InventorySlot * 6))] none,
   Member.mk "health" CType.int [] (some 0x6d50),
   Member.mk "bloodLevel" CType.int [] (some 0x6d54),
   Member.mk "isBleeding" CType.int [] (some 0x6d58),
   Member.mk "chestHP" CType.int [] (some 0x6d5c),
   Member.mk "unk26" CType.int [] (some 0x6d60),
   Member.mk "headHP" CType.int [] (some 0x6d64),
   Member.mk "unk27" CType.int [] (some 0x6d68),
   Member.mk "leftArmHP" CType.int [] (some 0x6d6c),
   Member.mk "unk28" CType.int [] (some 0x6d70),
   Member.mk "rightArmHP" CType.int [] (some 0x6d74),
   Member.mk "unk29" CType.int [] (some 0x6d78),
   Member.mk "leftLegHP" CType.int [] (some 0x6d7c),
   Member.mk "unk30" CType.int [] (some 0x6d80),
   Member.mk "rightLegHP" CType.int [] (some 0x6d84),
   Member.mk "unk30_1" CType.padding [0x6ddc - 0x6d84 - 4] none,
   Member.mk "progressBar" CType.int [] (some 0x6ddc),
   Member.mk "inventoryAnimationFlags" CType.int [] (some 0x6de0),
   Member.mk "inventoryAnimationProgress" CType.float [] (some 0x6de4),
   Member.mk "inventoryAnimationDuration" CType.int [] (some 0x6de8),
   Member.mk "inventoryAnimationHand" CType.int [] (some 0x6dec),
   Member.mk "inventoryAnimationSlot" CType.int [] (some 0x6df0),
   Member.mk "inventoryAnimationCounterFinished" CType.int [] (some 0x6df4),
   Member.mk "inventoryAnimationCounter" CType.int [] (some 0x6df8),
   Member.mk "unk31" CType.padding [0x6f80 - 0x6df8 - 4] none,
   Member.mk "gender" CType.int [] (some 0x6f80),
   Member.mk "head" CType.int [] (some 0x6f84),
   Member.mk "skinColor" CType.int [] (some 0x6f88),
   Member.mk "hairColor" CType.int [] (some 0x6f8c),
   Member.mk "hair" CType.int [] (some 0x6f90),
   Member.mk "eyeColor" CType.int [] (some 0x6f94),
   Member.mk "model" CType.int [] (some 0x6f98),
   Member.mk "suitColor" CType.int [] (some 0x6f9c),
   Member.mk "tieColor" CType.int [] (some 0x6fa0),
   Member.mk "unk32" CType.int [] (some 0x6fa4),
   Member.mk "necklace" CType.int [] (some 0x6fa8),
   Member.mk "lastUpdatedWantedGroup" CType.int [] (some 0x6fac),
   Member.mk "unk33" CType.padding [0x6FF8 - 0x6fac - 4] none]

/-- The data members of `struct ItemType` (structs.h:466), documented as 5072 bytes. -/
def ItemType : List Member :=
  [Member.mk "unk0" CType.int [] none,
   Member.mk "price" CType.int [] (some 0x4),
   Member.mk "mass" CType.float [] (some 0x8),
   Member.mk "unk1" CType.int [] (some 0xc),
   Member.mk "isGun" CType.int [] (some 0x10),
   Member.mk "messedUpAiming" CType.int [] (some 0x14),
   Member.mk "fireRate" CType.int [] (some 0x18),
   Member.mk "bulletType" CType.int [] (some 0x1c),
   Member.mk "unk2" CType.int [] (some 0x20),
   Member.mk "magazineAmmo" CType.int [] (some 0x24),
   Member.mk "bulletVelocity" CType.float [] (some 0x28),
   Member.mk "bulletSpread" CType.float [] (some 0x2c),
   Member.mk "name" CType.char [64] (some 0x30),
   Member.mk "unk3" CType.padding [0x7c - 0x30 - 64] none,
   Member.mk "numHands" CType.int [] (some 0x7c),
   Member.mk "rightHandPos" (structType "Vector" Vector) [] (some 0x80),
   Member.mk "leftHandPos" (structType "Vector" Vector) [] (some 0x8c),
   Member.mk "unk4" CType.padding [0xb0 - 0x8c - 12] none,
   Member.mk "primaryGripStiffness" CType.float [] (some 0xb0),
   Member.mk "unk5" CType.padding [0xbc - 0xb0 - 4] none,
   Member.mk "primaryGripRotation" CType.float [] (some 0xbc),
   Member.mk "secondaryGripStiffness" CType.float [] (some 0xc0),
   Member.mk "unk6" CType.padding [0xcc - 0xc0 - 4] none,
   Member.mk "secondaryGripRotation" CType.float [] (some 0xcc),
   Member.mk "unk7" CType.padding [0x104 - 0xcc - 4] none,
   Member.mk "boundsCenter" (structType "Vector" Vector) [] (some 0x104),
   Member.mk "unk8" CType.padding [0x11c - 0x104 - 12] none,
   Member.mk "canMountTo" CType.int [(maxNumberOfItemTypes : Int)] (some 0x11c),
   Member.mk "unk9" CType.padding [0x1394 - 0x11c - (4 * (maxNumberOfItemTypes : Int))] none,
   Member.mk "gunHoldingPos" (structType "Vector" Vector) [] (some 0x1394),
   Member.mk "unk10" CType.padding [0x13D0 - 0x1394 - 12] none]

/-- The data members of `struct Item` (structs.h:516), documented as 7040 bytes. -/
def Item : List Member :=
  [Member.mk "active" CType.int [] none,
   Member.mk "physicsSim" CType.int [] (some 0x4),
   Member.mk "physicsSettled" CType.int [] (some 0x8),
   Member.mk "physicsSettledTimer" CType.int [] (some 0xc),
   Member.mk "isStatic" CType.int [] (some 0x10),
   Member.mk "type" CType.int [] (some 0x14),
   Member.mk "unk2" CType.int [] (some 0x18),
   Member.mk "despawnTime" CType.int [] (some 0x1c),
   Member.mk "grenadePrimerID" CType.int [] (some 0x20),
   Member.mk "parentHumanID" CType.int [] (some 0x24),
   Member.mk "parentItemID" CType.int [] (some 0x28),
   Member.mk "parentSlot" CType.int [] (some 0x2c),
   Member.mk "unk5" CType.padding [0x58 - 0x2c - 4] none,
   Member.mk "bodyID" CType.int [] (some 0x58),
   Member.mk "pos" (structType "Vector" Vector) [] (some 0x5c),
   Member.mk "pos2" (structType "Vector" Vector) [] (some 0x68),
   Member.mk "vel" (structType "Vector" Vector) [] (some 0x74),
   Member.mk "vel2" (structType "Vector" Vector) [] (some 0x80),
   Member.mk "vel3" (structType "Vector" Vector) [] (some 0x8c),
   Member.mk "vel4" (structType "Vector" Vector) [] (some 0x98),
   Member.mk "rot" (structType "RotMatrix" RotMatrix) [] (some 0xa4),
   Member.mk "unk6" CType.padding [0x144 - 0xa4 - 36] none,
   Member.mk "bullets" CType.int [] (some 0x144),
   Member.mk "unk7_1" CType.padding [0x15C - 0x144 - 4] none,
   Member.mk "connectedPhoneID" CType.int [] (some 0x15c),
   Member.mk "phoneNumber" CType.int [] (some 0x160),
   Member.mk "unk7_2" CType.int [] (some 0x164),
   Member.mk "displayPhoneNumber" CType.int [] (some 0x168),
   Member.mk "enteredPhoneNumber" CType.int [] (some 0x16c),
   Member.mk "unk7" CType.padding [0x278 - 0x16C - 4] none,
   Member.mk "phoneTexture" CType.int [] (some 0x278),
   Member.mk "unk0" CType.int [] (some 0x27c),
   Member.mk "vehicleID" CType.int [] (some 0x280),
   Member.mk "unk8" CType.padding [0x368 - 0x280 - 4] none,
   Member.mk "computerCurrentLine" CType.unsignedInt [] (some 0x368),
   Member.mk "computerTopLine" CType.unsignedInt [] (some 0x36c),
   Member.mk "computerCursor" CType.int [] (some 0x370),
   Member.mk "computerLines" CType.char [32, 64] (some 0x374),
   Member.mk "unk9" CType.padding [0xb74 - 0x374 - (64 * 32)] none,
   Member.mk "computerLineColors" CType.unsignedChar [32, 64] (some 0xb74),
   Member.mk "unk10" CType.padding [0x1658 - 0xb74 - (64 * 32)] none,
   Member.mk "computerTeam" CType.int [] (some 0x1658),
   Member.mk "unk11" CType.padding [0x1B80 - 0x1658 - 4] none]

/-- The data members of `struct VehicleType` (structs.h:602), documented as 99776 bytes. -/
def VehicleType : List Member :=
  [Member.mk "usesExternalModel" CType.int [] none,
   Member.mk "unk0" CType.int [] (some 0x4),
   Member.mk "controllableState" CType.int [] (some 0x8),
   Member.mk "unk1" CType.padding [0x14 - 0x08 - 4] none,
   Member.mk "name" CType.char [32] (some 0x14),
   Member.mk "price" CType.int [] (some 0x34),
   Member.mk "mass" CType.float [] (some 0x38),
   Member.mk "unk2" CType.padding [0x185C0 - 0x38 - 4] none]

/-- The data members of `struct Vehicle` (structs.h:623), documented as 20840 bytes. -/
def Vehicle : List Member :=
  [Member.mk "active" CType.int [] none,
   Member.mk "type" CType.unsignedInt [] (some 0x4),
   Member.mk "controllableState" CType.int [] (some 0x8),
   Member.mk "health" CType.int [] (some 0xc),
   Member.mk "unk1" CType.int [] (some 0x10),
   Member.mk "lastDriverPlayerID" CType.int [] (some 0x14),
   Member.mk "color" CType.unsignedInt [] (some 0x18),
   Member.mk "despawnTime" CType.short [] (some 0x1c),
   Member.mk "spawnedState" CType.short [] (some 0x1e),
   Member.mk "isLocked" CType.int [] (some 0x20),
   Member.mk "unk3" CType.int [] (some 0x24),
   Member.mk "bodyID" CType.int [] (some 0x28),
   Member.mk "pos" (structType "Vector" Vector) [] (some 0x2c),
   Member.mk "pos2" (structType "Vector" Vector) [] (some 0x38),
   Member.mk "rot" (structType "RotMatrix" RotMatrix) [] (some 0x44),
   Member.mk "unk4" CType.int [] (some 0x68),
   Member.mk "vel" (structType "Vector" Vector) [] (some 0x6c),
   Member.mk "unk5" CType.padding [0x27fc - 0x6c - 12] none,
   Member.mk "windowStates" CType.int [8] (some 0x27fc),
   Member.mk "unk6" CType.padding [0x3600 - 0x27fc - (4 * 8)] none,
   Member.mk "gearX" CType.float [] (some 0x3600),
   Member.mk "steerControl" CType.float [] (some 0x3604),
   Member.mk "gearY" CType.float [] (some 0x3608),
   Member.mk "gasControl" CType.float [] (some 0x360c),
   Member.mk "unk7" CType.padding [0x3930 - 0x360c - 4] none,
   Member.mk "engineRPM" CType.int [] (some 0x3930),
   Member.mk "unk8" CType.padding [0x4fa8 - 0x3930 - 4] none,
   Member.mk "bladeBodyID" CType.int [] (some 0x4fa8),
   Member.mk "unk9" CType.padding [0x5168 - 0x4fa8 - 4] none]

/-- The data members of `struct Bullet` (structs.h:678), documented as 92 bytes. -/
def Bullet : List Member :=
  [Member.mk "type" CType.unsignedInt [] none,
   Member.mk "time" CType.int [] (some 0x4),
   Member.mk "playerID" CType.int [] (some 0x8),
   Member.mk "unk0" CType.float [] (some 0xc),
   Member.mk "unk1" CType.float [] (some 0x10),
   Member.mk "lastPos" (structType "Vector" Vector) [] (some 0x14),
   Member.mk "pos" (structType "Vector" Vector) [] (some 0x20),
   Member.mk "vel" (structType "Vector" Vector) [] (some 0x2c),
   Member.mk "unk2" CType.padding [92 - 56] none]

/-- The data members of `struct RigidBody` (structs.h:694), documented as 188 bytes. -/
def RigidBody : List Member :=
  [Member.mk "active" CType.int [] none,
   Member.mk "type" CType.int [] (some 0x4),
   Member.mk "settled" CType.int [] (some 0x8),
   Member.mk "unk0" CType.int [] (some 0xc),
   Member.mk "unk01" CType.int [] (some 0x10),
   Member.mk "mass" CType.float [] (some 0x14),
   Member.mk "pos" (structType "Vector" Vector) [] (some 0x18),
   Member.mk "vel" (structType "Vector" Vector) [] (some 0x24),
   Member.mk "startVel" (structType "Vector" Vector) [] (some 0x30),
   Member.mk "rot" (structType "RotMatrix" RotMatrix) [] (some 0x3c),
   Member.mk "rotVel" (structType "RotMatrix" RotMatrix) [] (some 0x60),
   Member.mk "unk3" CType.padding [0xBC - 0x60 - sizeof RotMatrix] none]

/-- The data members of `struct Bond` (structs.h:731), documented as 244 bytes. -/
def Bond : List Member :=
  [Member.mk "active" CType.int [] none,
   Member.mk "type" CType.int [] (some 0x4),
   Member.mk "unk0" CType.int [] (some 0x8),
   Member.mk "despawnTime" CType.int [] (some 0xc),
   Member.mk "unk1" CType.padding [0x2c - 0x0c - 4] none,
   Member.mk "globalPos" (structType "Vector" Vector) [] (some 0x2c),
   Member.mk "localPos" (structType "Vector" Vector) [] (some 0x38),
   Member.mk "otherLocalPos" (structType "Vector" Vector) [] (some 0x44),
   Member.mk "unk2" CType.padding [0x98 - 0x44 - 12] none,
   Member.mk "bodyID" CType.int [] (some 0x98),
   Member.mk "otherBodyID" CType.int [] (some 0x9c),
   Member.mk "unk3" CType.padding [0xF4 - 0x9c - 4] none]

/-- The data members of `struct StreetLane` (structs.h:762), documented as 28 bytes. -/
def StreetLane : List Member :=
  [Member.mk "direction" CType.int [] none,
   Member.mk "posA" (structType "Vector" Vector) [] none,
   Member.mk "posB" (structType "Vector" Vector) [] none]

/-- The data members of `struct Street` (structs.h:771), documented as 1584 bytes. -/
def Street : List Member :=
  [Member.mk "name" CType.char [32] none,
   Member.mk "unk0" CType.int [] (some 0x20),
   Member.mk "intersectionA" CType.int [] (some 0x24),
   Member.mk "intersectionB" CType.int [] (some 0x28),
   Member.mk "unk1" CType.int [3] (some 0x2c),
   Member.mk "numLanes" CType.int [] (some 0x38),
   Member.mk "lanes" (structType "StreetLane" StreetLane) [16] (some 0x3c),
   Member.mk "unk2" CType.float [6] (some 0x1fc),
   Member.mk "trafficCuboidA" (structType "Vector" Vector) [] (some 0x214),
   Member.mk "trafficCuboidB" (structType "Vector" Vector) [] (some 0x220),
   Member.mk "numTraffic" CType.int [] (some 0x22c),
   Member.mk "unk3" CType.padding [0x630 - 0x22c - 4] none]

/-- The data members of `struct StreetIntersection` (structs.h:797), documented as 136 bytes. -/
def StreetIntersection : List Member :=
  [Member.mk "unk0" CType.int [3] none,
   Member.mk "pos" (structType "Vector" Vector) [] (some 0xc),
   Member.mk "streetEast" CType.int [] (some 0x18),
   Member.mk "streetSouth" CType.int [] (some 0x2c),
   Member.mk "streetWest" CType.int [] (some 0x20),
   Member.mk "streetNorth" CType.int [] (some 0x24),
   Member.mk "unk1" CType.padding [0x44 - 0x24 - 4] none,
   Member.mk "lightsState" CType.int [] (some 0x44),
   Member.mk "lightsTimer" CType.int [] (some 0x48),
   Member.mk "lightsTimerMax" CType.int [] (some 0x4c),
   Member.mk "lightEast" CType.int [] (some 0x50),
   Member.mk "lightSouth" CType.int [] (some 0x54),
   Member.mk "lightWest" CType.int [] (some 0x58),
   Member.mk "lightNorth" CType.int [] (some 0x5c),
   Member.mk "unk2" CType.padding [0x88 - 0x5c - 4] none]

/-- The data members of `struct ShopCar` (structs.h:824), documented as 12 bytes. -/
def ShopCar : List Member :=
  [Member.mk "type" CType.int [] none,
   Member.mk "price" CType.int [] none,
   Member.mk "color" CType.int [] none]

/-- The data members of `struct Building` (structs.h:835), documented as 56076 bytes. -/
def Building : List Member :=
  [Member.mk "type" CType.int [] (some 0x0),
   Member.mk "unk0" CType.int [3] (some 0x4),
   Member.mk "pos" (structType "Vector" Vector) [] (some 0x10),
   Member.mk "spawnRot" (structType "RotMatrix" RotMatrix) [] (some 0x1c),
   Member.mk "interiorCuboidA" (structType "Vector" Vector) [] (some 0x40),
   Member.mk "interiorCuboidB" (structType "Vector" Vector) [] (some 0x4c),
   Member.mk "unk1" CType.padding [0xC9F4 - 0x4c - 12] none,
   Member.mk "numShopCars" CType.int [] (some 0xc9f4),
   Member.mk "shopCars" (structType "ShopCar" ShopCar) [16] (some 0xc9f8),
   Member.mk "shopCarSales" CType.int [] (some 0xcab8),
   Member.mk "unk2" CType.padding [0xDB0C - 0xCAB8 - 4] none]

/-- A struct declaration with the size its header comment documents, in decimal
    and in hexadecimal (`// 40 bytes (28)`). -/
structure Documented where
  name : String
  members : List Member
  bytes : Nat
  hexBytes : Nat
deriving DecidableEq, Repr

/-- The raw structures of structs.h that carry a documented byte size. -/
def documentedStructs : List Documented :=
  [⟨"EarShot", EarShot, 40, 0x28⟩,
   ⟨"Connection", Connection, 188896, 0x2E1E0⟩,
   ⟨"Account", Account, 112, 0x70⟩,
   ⟨"Action", Action, 84, 0x54⟩,
   ⟨"MenuButton", MenuButton, 72, 0x48⟩,
   ⟨"Player", Player, 14388, 0x3834⟩,
   ⟨"Bone", Bone, 312, 0x138⟩,
   ⟨"InventorySlot", InventorySlot, 40, 0x28⟩,
   ⟨"Human", Human, 28664, 0x6FF8⟩,
   ⟨"ItemType", ItemType, 5072, 0x13D0⟩,
   ⟨"Item", Item, 7040, 0x1B80⟩,
   ⟨"VehicleType", VehicleType, 99776, 0x185C0⟩,
   ⟨"Vehicle", Vehicle, 20840, 0x5168⟩,
   ⟨"Bullet", Bullet, 92, 0x5C⟩,
   ⟨"RigidBody", RigidBody, 188, 0xBC⟩,
   ⟨"Bond", Bond, 244, 0xF4⟩,
   ⟨"StreetLane", StreetLane, 28, 0x1C⟩,
   ⟨"Street", Street, 1584, 0x630⟩,
   ⟨"StreetIntersection", StreetIntersection, 136, 0x88⟩,
   ⟨"ShopCar", ShopCar, 12, 0xC⟩,
   ⟨"Building", Building, 56076, 0xDB0C⟩]

/-- The structs backed by a host entity array. -/
def hostArrayStructs : List (String × List Member) :=
  [("Connection", Connection), ("Account", Account), ("Player", Player), ("Human", Human),
   ("ItemType", ItemType), ("Item", Item), ("VehicleType", VehicleType), ("Vehicle", Vehicle),
   ("Bullet", Bullet), ("RigidBody", RigidBody), ("Bond", Bond)]

/-- The world-geometry structs. -/
def worldStructs : List (String × List Member) :=
  [("StreetLane", StreetLane), ("Street", Street), ("StreetIntersection", StreetIntersection),
   ("ShopCar", ShopCar), ("Building", Building)]

/-- The fixed-capacity entity arrays that `locateMemory` locates: the pointer
    global, the capacity (structs.h:8-16) and the element type. -/
def entityArrays : List (Slot × Nat × List Member) :=
  [(Slot.accounts, maxNumberOfAccounts, Account),
   (Slot.players, maxNumberOfPlayers, Player),
   (Slot.humans, maxNumberOfHumans, Human),
   (Slot.itemTypes, maxNumberOfItemTypes, ItemType),
   (Slot.items, maxNumberOfItems, Item),
   (Slot.vehicleTypes, maxNumberOfVehicleTypes, VehicleType),
   (Slot.vehicles, maxNumberOfVehicles, Vehicle),
   (Slot.bodies, maxNumberOfRigidBodies, RigidBody),
   (Slot.bonds, maxNumberOfBonds, Bond)]

/-- The data entries of the Memory Map Table: every entry that is not a function. -/
def dataEntries : List (Slot × Nat) :=
  dataTableHead ++ (Slot.gravity, gravityOffset) :: dataTableTail

/-- The offsets an entity array spans: from its own offset, `capacity * sizeof`
    bytes; empty when the array is not in the table. -/
def arraySpan (a : Slot × Nat × List Member) : Nat × Nat :=
  match dataEntries.lookup a.1 with
  | some offset => (offset, offset + a.2.1 * structSize a.2.2)
  | none => (0, 0)

/-- Whether the spans of two arrays have no offset in common. -/
def spansDisjoint (a b : Slot × Nat × List Member) : Bool :=
  decide ((arraySpan a).2 ≤ (arraySpan b).1) || decide ((arraySpan b).2 ≤ (arraySpan a).1)

/-- The data entries whose offset falls inside the span of an entity array other
    than their own, with that array. -/
def intruders : List (Slot × Slot) :=
  dataEntries.flatMap fun e =>
    (entityArrays.filter fun a =>
      a.1 != e.1 && decide ((arraySpan a).1 ≤ e.2) && decide (e.2 < (arraySpan a).2)).map
      fun a => (e.1, a.1)

/-! ## The fixed-buffer string setters (structs.h) -/

/-- The setters `void setName(const char* newName)` of `Player`, `VehicleType`
    and `ItemType`, and `void setText(const char* newText)` of `MenuButton`. -/
inductive StringSetter where
  | Player_setName | VehicleType_setName | ItemType_setName | MenuButton_setText
deriving DecidableEq, Repr

/-- The struct the setter is a member of. -/
def StringSetter.struct : StringSetter → List Member
  | .Player_setName => Player
  | .VehicleType_setName => VehicleType
  | .ItemType_setName => ItemType
  | .MenuButton_setText => MenuButton

/-- The char array the setter copies into. -/
def StringSetter.member : StringSetter → String
  | .Player_setName => "name"
  | .VehicleType_setName => "name"
  | .ItemType_setName => "name"
  | .MenuButton_setText => "text"

/-- The value of `sizeof(name)` (of `sizeof(text)`): the size of the char array. -/
def StringSetter.bufferSize (k : StringSetter) : Nat :=
  ((k.struct.find? (fun m => m.name == k.member)).map Member.size).getD 0

/-- Offset of the char array inside the struct. -/
def StringSetter.bufferOffset (k : StringSetter) : Nat :=
  (offsetOf k.struct k.member).getD 0

/-- The address of the char array of the struct at `this`. -/
def StringSetter.buffer (k : StringSetter) (this : Nat) : Nat :=
  (this + k.bufferOffset) % WORD

/-- The C string that a `const char*` designates when the bytes from it on are
    `s`: the bytes before the first NUL. -/
def cstring (s : List Nat) : List Nat :=
  s.takeWhile (fun c => c != 0)

/-- The `n` bytes that `std::strncpy(dst, src, n)` stores: the characters of the
    source string, at most `n` of them, followed by NULs up to `n` bytes. -/
def strncpyBytes (src : List Nat) (n : Nat) : List Nat :=
  (cstring src).take n ++ List.replicate (n - ((cstring src).take n).length) 0

/-- C `std::strncpy(dst, src, n)` over host memory. -/
def strncpy (mem : Nat → Nat) (dst : Nat) (src : List Nat) (n : Nat) : Nat → Nat :=
  writeBytes mem dst (strncpyBytes src n)

/-- The setters `setName` and `setText`:
    `std::strncpy(name, newName, sizeof(name) - 1);`. -/
def setName (k : StringSetter) (this : Nat) (newName : List Nat) (mem : Nat → Nat) :
    Nat → Nat :=
  strncpy mem (k.buffer this) newName (k.bufferSize - 1)

/-- The C string read through a `char*`: the bytes from `address` up to the first
    NUL, and at most `limit` bytes. -/
def readCString (mem : Nat → Nat) (address : Nat) : Nat → List Nat
  | 0 => []
  | limit + 1 =>
      if mem address = 0 then []
      else mem address :: readCString mem ((address + 1) % WORD) limit

/-- The getters `char* getName() { return name; }` and `getText`, read as a C
    string inside the bounds of the char array. -/
def getName (k : StringSetter) (mem : Nat → Nat) (this : Nat) : List Nat :=
  readCString mem (k.buffer this) k.bufferSize

/-- Whether the `n` bytes from `address` on contain a NUL. -/
def terminated (mem : Nat → Nat) (address n : Nat) : Bool :=
  (List.range n).any fun i => mem ((address + i) % WORD) == 0

/-- A sample memory: the byte at `0x1006` is NUL and every other byte is `'A'`. -/
def sampleNameMemory : Nat → Nat :=
  fun x => if x = 0x1006 then 0 else 65

/-! ## Handles and get-by-index -/

/-- The errors of the object-model boundary that the specification names. -/
inductive ScriptError where
  | InvalidHandle | InvalidArgument
deriving DecidableEq, Repr

/-- The entity kinds whose table gets an `__index` handler
    `Lua::<kind>::getByIndex` in `luaInit` (rosaserver.cpp:821-984); the table
    `bullets` has none. -/
inductive IndexedKind where
  | accounts | players | humans | itemTypes | items | vehicleTypes | vehicles
  | rigidBodies | bonds | streets | intersections | buildings
deriving DecidableEq, Repr

/-- The global name of the table of the kind. -/
def IndexedKind.tableName : IndexedKind → String
  | .accounts => "accounts"
  | .players => "players"
  | .humans => "humans"
  | .itemTypes => "itemTypes"
  | .items => "items"
  | .vehicleTypes => "vehicleTypes"
  | .vehicles => "vehicles"
  | .rigidBodies => "rigidBodies"
  | .bonds => "bonds"
  | .streets => "streets"
  | .intersections => "intersections"
  | .buildings => "buildings"

/-- The element type of the host array of the kind (rosaserver.cpp:1119-1131). -/
def IndexedKind.struct : IndexedKind → List Member
  | .accounts => Account
  | .players => Player
  | .humans => Human
  | .itemTypes => ItemType
  | .items => Item
  | .vehicleTypes => VehicleType
  | .vehicles => Vehicle
  | .rigidBodies => RigidBody
  | .bonds => Bond
  | .streets => Street
  | .intersections => StreetIntersection
  | .buildings => Building

/-- The capacity of the host array of the kind (structs.h:8-16). The streets,
    intersections and buildings have no capacity constant in the sources; their
    bound is the parameter `bound`. -/
def IndexedKind.capacity (bound : IndexedKind → Nat) : IndexedKind → Nat
  | .accounts => maxNumberOfAccounts
  | .players => maxNumberOfPlayers
  | .humans => maxNumberOfHumans
  | .itemTypes => maxNumberOfItemTypes
  | .items => maxNumberOfItems
  | .vehicleTypes => maxNumberOfVehicleTypes
  | .vehicles => maxNumberOfVehicles
  | .rigidBodies => maxNumberOfRigidBodies
  | .bonds => maxNumberOfBonds
  | .streets => bound .streets
  | .intersections => bound .intersections
  | .buildings => bound .buildings

/-- Whether the slot at `slotBase` is active: the test of the member `active`
    against zero for the structs that have one; the other structs have no
    liveness flag. -/
def slotActive (k : IndexedKind) (mem : Nat → Nat) (slotBase : Nat) : Bool :=
  match offsetOf k.struct "active" with
  | some offset => read32 mem ((slotBase + offset) % WORD) != 0
  | none => true

/-- Modelled from the spec: the bodies of `Lua::accounts::getByIndex` and its
    siblings are not in the source files. A handle is "an index into an Entity
    Slot array, checked against `0 ≤ index < capacity` and against the slot's
    `active` flag before any access", and `get(index)` "for `index` outside
    `[0, capacity)` or for an inactive slot must fail with `InvalidHandle`";
    otherwise it returns the handle, here the address of the slot. -/
def getByIndex (k : IndexedKind) (bound : IndexedKind → Nat) (mem : Nat → Nat)
    (arrayBase : Nat) (index : Int) : Except ScriptError Nat :=
  if 0 ≤ index ∧ index < (k.capacity bound : Int) then
    if slotActive k mem (slotAddress arrayBase index.toNat k.struct) then
      Except.ok (slotAddress arrayBase index.toNat k.struct)
    else Except.error ScriptError.InvalidHandle
  else Except.error ScriptError.InvalidHandle

/-- Modelled from the spec: "Field access on a handle is a direct typed read/write
    into the underlying host memory at `slotBase + fieldOffset`"; without a
    handle there is nothing to read through. -/
def readField (mem : Nat → Nat) (handle : Except ScriptError Nat) (fieldOffset : Nat) :
    Except ScriptError Nat :=
  match handle with
  | Except.ok slotBase => Except.ok (read32 mem ((slotBase + fieldOffset) % WORD))
  | Except.error e => Except.error e

/-! ## Lemmas on the memory map -/

theorem assign_engine (base : Nat) (p : Process) (e : Slot × Nat) (s : Slot) :
    (assign base p e).engine s = if s = e.1 then some ((base + e.2) % WORD) else p.engine s := rfl

theorem assignAll_nil (base : Nat) (p : Process) : assignAll base [] p = p := rfl

theorem assignAll_cons (base : Nat) (e : Slot × Nat) (l : List (Slot × Nat)) (p : Process) :
    assignAll base (e :: l) p = assignAll base l (assign base p e) := rfl

theorem assignAll_append (base : Nat) (l₁ l₂ : List (Slot × Nat)) (p : Process) :
    assignAll base (l₁ ++ l₂) p = assignAll base l₂ (assignAll base l₁ p) := by
  simp [assignAll, List.foldl_append]

/-- Assignments change nothing but the pointer globals. -/
theorem assignAll_frame (base : Nat) (l : List (Slot × Nat)) (p : Process) :
    (assignAll base l p).mprotects = p.mprotects ∧ (assignAll base l p).installs = p.installs
    ∧ (assignAll base l p).mem = p.mem ∧ (assignAll base l p).prot = p.prot
    ∧ (assignAll base l p).log = p.log ∧ (assignAll base l p).baseAddress = p.baseAddress
    ∧ (assignAll base l p).originalGravity = p.originalGravity
    ∧ (assignAll base l p).getPaths = p.getPaths := by
  induction l generalizing p with
  | nil => simp [assignAll_nil]
  | cons e l ih =>
    rw [assignAll_cons]
    have h := ih (assign base p e)
    simpa [assign] using h

/-- A slot that a run of assignments does not name keeps its value. -/
theorem assignAll_engine_of_not_mem (base : Nat) (l : List (Slot × Nat)) (p : Process)
    (s : Slot) (hs : s ∉ l.map Prod.fst) : (assignAll base l p).engine s = p.engine s := by
  induction l generalizing p with
  | nil => rfl
  | cons e l ih =>
    rw [assignAll_cons]
    simp only [List.map_cons, List.mem_cons, not_or] at hs
    rw [ih _ hs.2, assign_engine, if_neg hs.1]

/-- A slot named once in a run of assignments ends up at `base + offset`. -/
theorem assignAll_engine_of_mem (base : Nat) (l : List (Slot × Nat)) (p : Process)
    (hnd : (l.map Prod.fst).Nodup) (e : Slot × Nat) (he : e ∈ l) :
    (assignAll base l p).engine e.1 = some ((base + e.2) % WORD) := by
  induction l generalizing p with
  | nil => cases he
  | cons a l ih =>
    rw [assignAll_cons]
    simp only [List.map_cons, List.nodup_cons] at hnd
    rcases List.mem_cons.mp he with h | h
    · subst h
      rw [assignAll_engine_of_not_mem _ _ _ _ hnd.1, assign_engine, if_pos rfl]
    · exact ih _ hnd.2 h

/-- The pointer globals after a run of assignments depend only on the pointer
    globals before it. -/
theorem assignAll_engine_congr (base : Nat) (l : List (Slot × Nat)) (p q : Process)
    (h : p.engine = q.engine) : (assignAll base l p).engine = (assignAll base l q).engine := by
  induction l generalizing p q with
  | nil => exact h
  | cons e l ih =>
    rw [assignAll_cons, assignAll_cons]
    apply ih
    funext s
    simp [assign, h]

set_option maxRecDepth 100000 in
/-- No slot is assigned twice by `locateMemory`. -/
theorem memoryMapTable_keys_nodup : (memoryMapTable.map Prod.fst).Nodup := by
  decide


/-! ## Lemmas on `pryMemory` and `locateMemory` -/

theorem pryMemory_of_granted (env : Env) (address numPages : Nat) (p : Process)
    (h : env.mprotectErr p.mprotects (pryRequest env.pageSize address numPages) = none) :
    pryMemory env address numPages p =
      .returned (Console_log (pryLogLine env (pryPage env.pageSize address))
        { p with prot := applyMprotect env.pageSize (pryRequest env.pageSize address numPages) p.prot,
                 mprotects := p.mprotects ++ [pryRequest env.pageSize address numPages] }) := by
  simp only [pryMemory, h]

theorem pryMemory_of_refused (env : Env) (address numPages : Nat) (p : Process) (text : String)
    (h : env.mprotectErr p.mprotects (pryRequest env.pageSize address numPages) = some text) :
    pryMemory env address numPages p =
      .thrown (.runtime_error text)
        { p with prot := applyMprotect env.pageSize
                   (refusedPart env.pageSize
                     (env.mprotectDone p.mprotects (pryRequest env.pageSize address numPages))
                     (pryRequest env.pageSize address numPages)) p.prot,
                 mprotects := p.mprotects ++ [pryRequest env.pageSize address numPages] } := by
  simp only [pryMemory, h]

/-- A request that names no byte changes no protection. -/
theorem applyMprotect_of_len_zero (P : Nat) (c : MprotectCall) (prot : Nat → Nat)
    (h : c.len = 0) : applyMprotect P c prot = prot := by
  funext x
  simp [applyMprotect, MprotectCall.touches, h]

/-- A refused request for one page had changed no page. -/
theorem refusedPart_one (P done address : Nat) :
    (refusedPart P done (pryRequest P address 1)).len = 0 := by
  have hlen : (pryRequest P address 1).len ≤ P := by
    show (P * 1) % WORD ≤ P
    rw [Nat.mul_one]
    exact Nat.mod_le P WORD
  show P * min done (((pryRequest P address 1).len + P - 1) / P - 1) = 0
  rcases Nat.eq_zero_or_pos P with h0 | hpos
  · rw [h0, Nat.zero_mul]
  · have hdiv : ((pryRequest P address 1).len + P - 1) / P < 2 :=
      (Nat.div_lt_iff_lt_mul hpos).mpr (by omega)
    have hmin : min done (((pryRequest P address 1).len + P - 1) / P - 1) = 0 := by omega
    rw [hmin, Nat.mul_zero]

theorem assign_frame (base : Nat) (p : Process) (e : Slot × Nat) :
    (assign base p e).mprotects = p.mprotects ∧ (assign base p e).installs = p.installs
    ∧ (assign base p e).baseAddress = p.baseAddress := ⟨rfl, rfl, rfl⟩

/-- The state in which `locateMemory` calls `pryMemory`. -/
theorem locateMemory_before_pry (base : Nat) (p : Process) :
    ((assign base (assignAll base dataTableHead p) (Slot.gravity, gravityOffset)).engine
        Slot.gravity).getD 0 = (base + gravityOffset) % WORD
    ∧ (assign base (assignAll base dataTableHead p) (Slot.gravity, gravityOffset)).mprotects
        = p.mprotects
    ∧ (assign base (assignAll base dataTableHead p) (Slot.gravity, gravityOffset)).installs
        = p.installs
    ∧ (assign base (assignAll base dataTableHead p) (Slot.gravity, gravityOffset)).baseAddress
        = p.baseAddress := by
  refine ⟨?_, ?_, ?_, ?_⟩
  · rw [assign_engine, if_pos rfl, Option.getD_some]
  · rw [(assign_frame _ _ _).1]
    exact (assignAll_frame base dataTableHead p).1
  · rw [(assign_frame _ _ _).2.1]
    exact (assignAll_frame base dataTableHead p).2.1
  · rw [(assign_frame _ _ _).2.2]
    exact (assignAll_frame base dataTableHead p).2.2.2.2.2.1

theorem locateMemory_eq (env : Env) (base : Nat) (p : Process) :
    locateMemory env base p =
      (pryMemory env ((base + gravityOffset) % WORD) 1
        (assign base (assignAll base dataTableHead p) (Slot.gravity, gravityOffset))).andThen
        (fun q => .returned (locateMemoryTail base q)) := by
  unfold locateMemory
  simp only []
  rw [(locateMemory_before_pry base p).1]
  rfl

/-- What a granted `pryMemory` leaves behind. -/
theorem pryMemory_granted_state (env : Env) (address numPages : Nat) (p : Process)
    (h : env.mprotectErr p.mprotects (pryRequest env.pageSize address numPages) = none) :
    ∃ q, pryMemory env address numPages p = .returned q
      ∧ q.engine = p.engine ∧ q.installs = p.installs ∧ q.baseAddress = p.baseAddress
      ∧ q.mem = p.mem
      ∧ q.prot = applyMprotect env.pageSize (pryRequest env.pageSize address numPages) p.prot
      ∧ q.mprotects = p.mprotects ++ [pryRequest env.pageSize address numPages]
      ∧ q.log = p.log ++ [pryLogLine env (pryPage env.pageSize address)] :=
  ⟨_, pryMemory_of_granted env address numPages p h, rfl, rfl, rfl, rfl, rfl, rfl, rfl⟩

/-- What a refused `pryMemory` leaves behind. -/
theorem pryMemory_refused_state (env : Env) (address numPages : Nat) (p : Process)
    (text : String)
    (h : env.mprotectErr p.mprotects (pryRequest env.pageSize address numPages) = some text) :
    ∃ q, pryMemory env address numPages p = .thrown (.runtime_error text) q
      ∧ q.engine = p.engine ∧ q.installs = p.installs ∧ q.baseAddress = p.baseAddress
      ∧ q.mem = p.mem
      ∧ q.prot = applyMprotect env.pageSize
          (refusedPart env.pageSize
            (env.mprotectDone p.mprotects (pryRequest env.pageSize address numPages))
            (pryRequest env.pageSize address numPages)) p.prot
      ∧ q.mprotects = p.mprotects ++ [pryRequest env.pageSize address numPages]
      ∧ q.log = p.log :=
  ⟨_, pryMemory_of_refused env address numPages p text h, rfl, rfl, rfl, rfl, rfl, rfl, rfl⟩

/-- What a refused `pryMemory` of one page leaves behind: no protection changed. -/
theorem pryMemory_refused_state_one (env : Env) (address : Nat) (p : Process)
    (text : String)
    (h : env.mprotectErr p.mprotects (pryRequest env.pageSize address 1) = some text) :
    ∃ q, pryMemory env address 1 p = .thrown (.runtime_error text) q
      ∧ q.engine = p.engine ∧ q.installs = p.installs ∧ q.baseAddress = p.baseAddress
      ∧ q.mem = p.mem ∧ q.prot = p.prot
      ∧ q.mprotects = p.mprotects ++ [pryRequest env.pageSize address 1]
      ∧ q.log = p.log := by
  obtain ⟨q, hq, h1, h2, h3, h4, h5, h6, h7⟩ := pryMemory_refused_state env address 1 p text h
  refine ⟨q, hq, h1, h2, h3, h4, ?_, h6, h7⟩
  rw [h5, applyMprotect_of_len_zero _ _ _ (refusedPart_one _ _ _)]

theorem locateMemoryTail_frame (base : Nat) (p : Process) :
    (locateMemoryTail base p).engine = (assignAll base (dataTableTail ++ functionTable) p).engine
    ∧ (locateMemoryTail base p).installs = p.installs
    ∧ (locateMemoryTail base p).baseAddress = p.baseAddress := by
  unfold locateMemoryTail
  refine ⟨?_, ?_, ?_⟩
  · rw [assignAll_append]
    apply assignAll_engine_congr
    apply assignAll_engine_congr
    rfl
  · rw [(assignAll_frame _ _ _).2.1, (assignAll_frame _ _ _).2.1]
  · rw [(assignAll_frame _ _ _).2.2.2.2.2.1, (assignAll_frame _ _ _).2.2.2.2.2.1]

/-- When the protection change on the gravity page is granted, `locateMemory`
    returns, the pointer globals are those of the whole table, and no hook
    request has been made meanwhile. -/
theorem locateMemory_of_granted (env : Env) (base : Nat) (p : Process)
    (h : env.mprotectErr p.mprotects
          (pryRequest env.pageSize ((base + gravityOffset) % WORD) 1) = none) :
    ∃ q, locateMemory env base p = .returned q
      ∧ q.engine = (assignAll base memoryMapTable p).engine
      ∧ q.installs = p.installs ∧ q.baseAddress = p.baseAddress := by
  obtain ⟨-, hm, hi, hb⟩ := locateMemory_before_pry base p
  obtain ⟨q, hq, he, hqi, hqb, -⟩ := pryMemory_granted_state env ((base + gravityOffset) % WORD) 1
    (assign base (assignAll base dataTableHead p) (Slot.gravity, gravityOffset))
    (by rw [hm]; exact h)
  rw [locateMemory_eq, hq]
  obtain ⟨te, ti, tb⟩ := locateMemoryTail_frame base q
  refine ⟨locateMemoryTail base q, rfl, ?_, ?_, ?_⟩
  · rw [te]
    unfold memoryMapTable
    rw [assignAll_append base dataTableHead, assignAll_cons]
    exact assignAll_engine_congr _ _ _ _ he
  · rw [ti, hqi, hi]
  · rw [tb, hqb, hb]

/-- When the protection change is refused, `locateMemory` throws and no hook
    request has been made meanwhile. -/
theorem locateMemory_of_refused (env : Env) (base : Nat) (p : Process) (text : String)
    (h : env.mprotectErr p.mprotects
          (pryRequest env.pageSize ((base + gravityOffset) % WORD) 1) = some text) :
    ∃ q, locateMemory env base p = .thrown (.runtime_error text) q
      ∧ q.installs = p.installs := by
  obtain ⟨-, hm, hi, -⟩ := locateMemory_before_pry base p
  obtain ⟨q, hq, -, hqi, -⟩ := pryMemory_refused_state env ((base + gravityOffset) % WORD) 1
    (assign base (assignAll base dataTableHead p) (Slot.gravity, gravityOffset)) text
    (by rw [hm]; exact h)
  rw [locateMemory_eq, hq]
  exact ⟨q, rfl, by rw [hqi, hi]⟩

theorem gravity_mem_memoryMapTable : (Slot.gravity, 0xC72AC) ∈ memoryMapTable := by
  decide

/-! ## C1 -/

/-- C1, as stated, fails: when the operating system refuses the protection change
    on the gravity page, `locateMemory` throws and the entries assigned after
    the gravity constant, such as `Engine::connections`, are not set. -/
theorem locateMemory_refused_counterexample :
    (Slot.connections, 0x43ACE0) ∈ memoryMapTable
    ∧ (locateMemory refusingEnv 0x400000 sampleProcess).isReturned = false
    ∧ (locateMemory refusingEnv 0x400000 sampleProcess).state.engine Slot.connections
        ≠ some (0x400000 + 0x43ACE0) := by
  refine ⟨by decide, by rfl, ?_⟩
  have h : (locateMemory refusingEnv 0x400000 sampleProcess).state.engine Slot.connections
      = none := by rfl
  rw [h]
  exact fun h => Option.noConfusion h

/-- C1 (amended): for all bases `B₁`, `B₂` for which the protection change on the gravity
    page is granted, `locateMemory` returns with every Memory Map Table entry set to
    the base plus the entry's offset in 64-bit arithmetic (exactly `B + offset`
    when that is below `2^64`); `Engine::gravity` is `B + 0xC72AC`; and every
    entry for `B₂` is the same entry for `B₁` plus `B₂ - B₁` modulo `2^64`. -/
theorem locateMemory_populates_table (env₁ env₂ : Env) (p₁ p₂ : Process) (B₁ B₂ : Nat)
    (h₁ : env₁.mprotectErr p₁.mprotects
            (pryRequest env₁.pageSize ((B₁ + gravityOffset) % WORD) 1) = none)
    (h₂ : env₂.mprotectErr p₂.mprotects
            (pryRequest env₂.pageSize ((B₂ + gravityOffset) % WORD) 1) = none) :
    ∃ q₁ q₂, locateMemory env₁ B₁ p₁ = .returned q₁ ∧ locateMemory env₂ B₂ p₂ = .returned q₂
      ∧ (∀ e ∈ memoryMapTable, q₁.engine e.1 = some ((B₁ + e.2) % WORD)
            ∧ (B₁ + e.2 < WORD → q₁.engine e.1 = some (B₁ + e.2)))
      ∧ q₁.engine Slot.gravity = some ((B₁ + 0xC72AC) % WORD)
      ∧ (∀ e ∈ memoryMapTable, ∃ v₁ v₂ : Nat, q₁.engine e.1 = some v₁ ∧ q₂.engine e.1 = some v₂
            ∧ (v₂ : Int) = ((v₁ : Int) + ((B₂ : Int) - (B₁ : Int))) % (WORD : Int)) := by
  obtain ⟨q₁, hq₁, he₁, -, -⟩ := locateMemory_of_granted env₁ B₁ p₁ h₁
  obtain ⟨q₂, hq₂, he₂, -, -⟩ := locateMemory_of_granted env₂ B₂ p₂ h₂
  have key₁ : ∀ e ∈ memoryMapTable, q₁.engine e.1 = some ((B₁ + e.2) % WORD) := by
    intro e he
    rw [he₁]
    exact assignAll_engine_of_mem B₁ memoryMapTable p₁ memoryMapTable_keys_nodup e he
  have key₂ : ∀ e ∈ memoryMapTable, q₂.engine e.1 = some ((B₂ + e.2) % WORD) := by
    intro e he
    rw [he₂]
    exact assignAll_engine_of_mem B₂ memoryMapTable p₂ memoryMapTable_keys_nodup e he
  refine ⟨q₁, q₂, hq₁, hq₂, ?_, ?_, ?_⟩
  · intro e he
    refine ⟨key₁ e he, fun hlt => ?_⟩
    rw [key₁ e he, Nat.mod_eq_of_lt hlt]
  · exact key₁ _ gravity_mem_memoryMapTable
  · intro e he
    refine ⟨_, _, key₁ e he, key₂ e he, ?_⟩
    simp only [WORD]
    omega

/-- Witness for C1: two granted runs, at bases `0x400000` and `0x55d0c0a00000`. -/
theorem locateMemory_populates_table_witness :
    ∃ q₁ q₂, locateMemory (grantingEnv none) 0x400000 sampleProcess = .returned q₁
      ∧ locateMemory (grantingEnv none) 0x55d0c0a00000 sampleProcess = .returned q₂
      ∧ (∀ e ∈ memoryMapTable, q₁.engine e.1 = some ((0x400000 + e.2) % WORD)
            ∧ (0x400000 + e.2 < WORD → q₁.engine e.1 = some (0x400000 + e.2)))
      ∧ q₁.engine Slot.gravity = some ((0x400000 + 0xC72AC) % WORD)
      ∧ (∀ e ∈ memoryMapTable, ∃ v₁ v₂ : Nat, q₁.engine e.1 = some v₁ ∧ q₂.engine e.1 = some v₂
            ∧ (v₂ : Int) = ((v₁ : Int) + (((0x55d0c0a00000 : Nat) : Int) - ((0x400000 : Nat) : Int)))
                % (WORD : Int)) :=
  locateMemory_populates_table (grantingEnv none) (grantingEnv none) sampleProcess sampleProcess
    0x400000 0x55d0c0a00000 rfl rfl

/-! ## Lemmas on `installHook` and `installHooks` -/

theorem installHook_of_success (env : Env) (name : String) (hook : HookObject)
    (source : Option Nat) (destination : Interceptor) (flags : HookFlags) (p : Process)
    (h : env.Install p.installs ⟨name, hook, source, destination, flags⟩ = true) :
    installHook env name hook source destination flags p =
      .returned { p with installs := p.installs ++ [(⟨name, hook, source, destination, flags⟩, true)] } := by
  simp only [installHook, h, if_true]

theorem installHook_of_failure (env : Env) (name : String) (hook : HookObject)
    (source : Option Nat) (destination : Interceptor) (flags : HookFlags) (p : Process)
    (h : env.Install p.installs ⟨name, hook, source, destination, flags⟩ = false) :
    installHook env name hook source destination flags p =
      .thrown (.runtime_error (installFailure env name))
        { p with installs := p.installs ++ [(⟨name, hook, source, destination, flags⟩, false)] } := by
  simp [installHook, h]

/-- A run of `INSTALL` lines either installs every hook of the run, or stops at
    the first hook `names[k]` whose install reports failure, throwing the error
    that names it; the trace then ends with that request. Nothing but the
    trace of install calls changes. -/
theorem installSeq_spec (env : Env) (names : List Slot) (p : Process) :
    (∃ q, installSeq env names p = .returned q ∧ q.engine = p.engine
        ∧ q.baseAddress = p.baseAddress
        ∧ q.installs = p.installs ++ granted p.engine names)
    ∨ (∃ q k s, installSeq env names p
          = .thrown (.runtime_error (installFailure env (s.cname ++ "Hook"))) q
        ∧ names.get? k = some s
        ∧ env.Install (p.installs ++ granted p.engine (names.take k)) (requestOf p.engine s)
            = false
        ∧ q.engine = p.engine ∧ q.baseAddress = p.baseAddress
        ∧ q.installs = p.installs ++ granted p.engine (names.take k)
            ++ [(requestOf p.engine s, false)]) := by
  induction names generalizing p with
  | nil => exact Or.inl ⟨p, rfl, rfl, rfl, by simp [granted]⟩
  | cons a rest ih =>
    cases hI : env.Install p.installs (requestOf p.engine a) with
    | false =>
      refine Or.inr ⟨{ p with installs := p.installs ++ [(requestOf p.engine a, false)] },
        0, a, ?_, rfl, ?_, ?_, ?_, ?_⟩
      · simp only [installSeq, INSTALL]
        rw [installHook_of_failure env _ _ _ _ _ p hI]
        rfl
      · simpa [granted] using hI
      · rfl
      · rfl
      · simp [granted, requestOf]
    | true =>
      have hstep : INSTALL env a p =
          .returned { p with installs := p.installs ++ [(requestOf p.engine a, true)] } := by
        simp only [INSTALL]
        rw [installHook_of_success env _ _ _ _ _ p hI]
        rfl
      have hseq : installSeq env (a :: rest) p
          = installSeq env rest { p with installs := p.installs ++ [(requestOf p.engine a, true)] } := by
        simp only [installSeq, hstep, Result.andThen]
      rcases ih { p with installs := p.installs ++ [(requestOf p.engine a, true)] } with
        ⟨q, hq, he, hb, hi⟩ | ⟨q, k, s, hq, hk, hfail, he, hb, hi⟩
      · refine Or.inl ⟨q, by rw [hseq, hq], he, hb, ?_⟩
        rw [hi]
        simp [granted]
      · refine Or.inr ⟨q, k + 1, s, by rw [hseq, hq], by simpa using hk, ?_, he, hb, ?_⟩
        · simpa [granted] using hfail
        · rw [hi]
          simp [granted]

/-! ## C2 -/

/-- C2 (code defect): `installHooks` issues the install of `subRosaPutsHook` on
    `Engine::subRosaPuts` twice (rosaserver.cpp:1254 and 1255). With base
    `0x400000` and every request granted, the trace holds 51 requests, the first
    two are the same request, and the (hook, target) pairs are not distinct. -/
theorem installHooks_installs_subRosaPuts_twice :
    (installHooks (grantingEnv none) locatedSample).state.installs.length = 51
    ∧ (installHooks (grantingEnv none) locatedSample).state.installs.take 2
        = [(requestOf (fun _ => some (0x400000 + 0x1CF0)) Slot.subRosaPuts, true),
           (requestOf (fun _ => some (0x400000 + 0x1CF0)) Slot.subRosaPuts, true)]
    ∧ ¬ ((installHooks (grantingEnv none) locatedSample).state.installs.map
          (fun r => (r.1.hook, r.1.source))).Nodup := by
  refine ⟨by rfl, by rfl, ?_⟩
  decide

/-! ## C4 -/

/-- C4: `installHook` throws the runtime error naming the hook exactly when the
    underlying `Install` reports failure, and returns otherwise; `installHooks`
    either installs every hook of its sequence, or stops at the first hook
    (the `k`-th line) whose install fails, throwing that hook's error; the
    trace then holds the installs of the `k` lines before it and the failed
    request, so nothing after it was installed. -/
theorem installHook_throws_iff_install_fails (env : Env) (p : Process) :
    (∀ name hook source destination flags,
        (env.Install p.installs ⟨name, hook, source, destination, flags⟩ = false ↔
          ∃ q, installHook env name hook source destination flags p
            = .thrown (.runtime_error (env.RS_PREFIX ++ "Hook " ++ name ++ " failed to install")) q)
        ∧ (env.Install p.installs ⟨name, hook, source, destination, flags⟩ = true ↔
          ∃ q, installHook env name hook source destination flags p = .returned q))
    ∧ ((∃ q, installHooks env p = .returned q
          ∧ q.installs = p.installs ++ granted p.engine hookSequence)
      ∨ (∃ q k s, installHooks env p
            = .thrown (.runtime_error
                (env.RS_PREFIX ++ "Hook " ++ (s.cname ++ "Hook") ++ " failed to install")) q
          ∧ hookSequence.get? k = some s
          ∧ env.Install (p.installs ++ granted p.engine (hookSequence.take k))
              (requestOf p.engine s) = false
          ∧ q.installs = p.installs ++ granted p.engine (hookSequence.take k)
              ++ [(requestOf p.engine s, false)])) := by
  constructor
  · intro name hook source destination flags
    cases h : env.Install p.installs ⟨name, hook, source, destination, flags⟩ with
    | false =>
      rw [installHook_of_failure env _ _ _ _ _ p h]
      exact ⟨⟨fun _ => ⟨_, rfl⟩, fun _ => rfl⟩, ⟨fun h' => (by cases h'), fun ⟨_, h'⟩ => (by cases h')⟩⟩
    | true =>
      rw [installHook_of_success env _ _ _ _ _ p h]
      exact ⟨⟨fun h' => (by cases h'), fun ⟨_, h'⟩ => (by cases h')⟩, ⟨fun _ => ⟨_, rfl⟩, fun _ => rfl⟩⟩
  · rcases installSeq_spec env hookSequence p with
      ⟨q, hq, -, -, hi⟩ | ⟨q, k, s, hq, hk, hfail, -, -, hi⟩
    · exact Or.inl ⟨q, hq, hi⟩
    · exact Or.inr ⟨q, k, s, hq, hk, hfail, hi⟩

/-! ## Lemmas on `entry` and `hookedGetPaths` -/

theorem hookedGetPaths_eq (env : Env) (p : Process) :
    hookedGetPaths env p
      = (locateMemory env (beforeLocate env p).base (beforeLocate env p)).andThen
          (afterLocate env) := rfl

theorem getcwd_frame (env : Env) (buf size : Nat) (p : Process) :
    (getcwd env buf size p).installs = p.installs
    ∧ (getcwd env buf size p).baseAddress = p.baseAddress
    ∧ (getcwd env buf size p).mprotects = p.mprotects
    ∧ (getcwd env buf size p).engine = p.engine := by
  unfold getcwd
  split <;> exact ⟨rfl, rfl, rfl, rfl⟩

theorem Console_log_frame (text : String) (p : Process) :
    (Console_log text p).installs = p.installs
    ∧ (Console_log text p).baseAddress = p.baseAddress
    ∧ (Console_log text p).mprotects = p.mprotects
    ∧ (Console_log text p).engine = p.engine := ⟨rfl, rfl, rfl, rfl⟩

theorem getPathsNormally_frame (env : Env) (p : Process) :
    (getPathsNormally env p).installs = p.installs
    ∧ (getPathsNormally env p).baseAddress = p.baseAddress
    ∧ (getPathsNormally env p).mprotects = p.mprotects
    ∧ (getPathsNormally env p).engine = p.engine := by
  unfold getPathsNormally
  simp only []
  obtain ⟨a1, a2, a3, a4⟩ := getcwd_frame env ((p.base + 0x59DF0300) % WORD) 0x200 p
  obtain ⟨b1, b2, b3, b4⟩ := getcwd_frame env ((p.base + 0x59DF0500) % WORD) 0x200
    (getcwd env ((p.base + 0x59DF0300) % WORD) 0x200 p)
  rw [b1, b2, b3, b4, a1, a2, a3, a4]
  exact ⟨rfl, rfl, rfl, rfl⟩

theorem beforeLocate_frame (env : Env) (p : Process) :
    (beforeLocate env p).installs = p.installs
    ∧ (beforeLocate env p).baseAddress = p.baseAddress
    ∧ (beforeLocate env p).mprotects = p.mprotects
    ∧ (beforeLocate env p).engine = p.engine := by
  unfold beforeLocate printBaseAddress
  simp only []
  obtain ⟨a1, a2, a3, a4⟩ := getPathsNormally_frame env p
  simp only [Console_log_frame, a1, a2, a3, a4, and_self]

theorem attachSignalHandler_installs (env : Env) (p : Process) :
    (attachSignalHandler env p).state.installs = p.installs := by
  unfold attachSignalHandler
  split <;> rfl

/-- Every request in the trace after a run of `INSTALL` lines was there before
    or is the request of one of the lines. -/
theorem installSeq_mem (env : Env) (names : List Slot) (p : Process)
    (r : InstallRequest × Bool) (hr : r ∈ (installSeq env names p).state.installs) :
    r ∈ p.installs ∨ ∃ s ∈ names, r.1 = requestOf p.engine s := by
  rcases installSeq_spec env names p with
    ⟨q, hq, -, -, hi⟩ | ⟨q, k, s, hq, hk, -, -, -, hi⟩
  · rw [hq] at hr
    simp only [Result.state, hi, List.mem_append, granted, List.mem_map] at hr
    rcases hr with h | ⟨s, hs, rfl⟩
    · exact Or.inl h
    · exact Or.inr ⟨s, hs, rfl⟩
  · rw [hq] at hr
    simp only [Result.state, hi, List.mem_append, granted, List.mem_map, List.mem_singleton] at hr
    rcases hr with (h | ⟨t, ht, rfl⟩) | rfl
    · exact Or.inl h
    · exact Or.inr ⟨t, List.mem_of_mem_take ht, rfl⟩
    · exact Or.inr ⟨s, List.get?_mem hk, rfl⟩

theorem afterInstall_installs (env : Env) (p : Process) :
    (afterInstall env p).state.installs = p.installs := by
  unfold afterInstall
  exact attachSignalHandler_installs env _

theorem afterLocate_installs (env : Env) (p : Process) :
    (afterLocate env p).state.installs = (installSeq env hookSequence
      (Console_log (env.RS_PREFIX ++ "Installing hooks...\n") p)).state.installs := by
  unfold afterLocate installHooks
  simp only []
  cases installSeq env hookSequence
      (Console_log (env.RS_PREFIX ++ "Installing hooks...\n") p) with
  | returned q => exact afterInstall_installs env q
  | thrown e q => rfl

theorem afterLocate_mem (env : Env) (p : Process)
    (r : InstallRequest × Bool) (hr : r ∈ (afterLocate env p).state.installs) :
    r ∈ p.installs ∨ ∃ s ∈ hookSequence, r.1 = requestOf p.engine s := by
  rw [afterLocate_installs] at hr
  exact installSeq_mem env hookSequence
    (Console_log (env.RS_PREFIX ++ "Installing hooks...\n") p) r hr

/-- What `entry` does, by the outcome of `getBaseAddress`. -/
theorem entry_eq (env : Env) (p : Process) :
    entry env p = match getBaseAddress env.maps with
      | .error e => .thrown e p
      | .ok b => installHook env "getPathsHook" .getPathsHook (some ((b + getPathsOffset) % WORD))
          .hookedGetPaths .HookFlag64BitOffset
          { p with baseAddress := some b, getPaths := some ((b + getPathsOffset) % WORD) } := by
  unfold entry
  cases getBaseAddress env.maps <;> rfl

/-! ## Lemmas on the startup sequence -/

set_option maxRecDepth 100000 in
/-- Every name `installHooks` installs is an entry of the function table. -/
theorem hookSequence_subset_functionTable :
    ∀ s ∈ hookSequence, s ∈ functionTable.map Prod.fst := by
  decide

set_option maxRecDepth 100000 in
/-- Two hook objects with the same target offset are the same hook object. -/
theorem hookTargets_injective :
    ∀ x ∈ hookTargets, ∀ y ∈ hookTargets, x.2 = y.2 → x.1 = y.1 := by
  decide

set_option maxRecDepth 100000 in
theorem hookTargets_lt_WORD : ∀ x ∈ hookTargets, x.2 < WORD := by
  decide

theorem functionTable_subset_memoryMapTable (e : Slot × Nat) (he : e ∈ functionTable) :
    e ∈ memoryMapTable := by
  unfold memoryMapTable
  simp only [List.mem_append, List.mem_cons]
  exact Or.inr (Or.inr (Or.inr he))

/-- Adding the same base to two offsets below `2^64` gives different words. -/
theorem add_mod_WORD_cancel (b o₁ o₂ : Nat) (h₁ : o₁ < WORD) (h₂ : o₂ < WORD)
    (h : (b + o₁) % WORD = (b + o₂) % WORD) : o₁ = o₂ := by
  unfold WORD at *
  omega

/-- The request of an `INSTALL` line once the table is populated for base `b`. -/
theorem requestOf_located (b : Nat) (p : Process) (s : Slot) (hs : s ∈ hookSequence) :
    ∃ off, (s, off) ∈ functionTable ∧ (HookObject.ofSlot s, off) ∈ hookTargets
      ∧ requestOf (assignAll b memoryMapTable p).engine s = hookRequest b (.ofSlot s) off := by
  obtain ⟨e, he, rfl⟩ := List.mem_map.mp (hookSequence_subset_functionTable s hs)
  refine ⟨e.2, he, ?_, ?_⟩
  · unfold hookTargets
    refine List.mem_cons_of_mem _ (List.mem_map.mpr ⟨e, ?_, rfl⟩)
    exact List.mem_filter.mpr ⟨he, decide_eq_true hs⟩
  · have hv := assignAll_engine_of_mem b memoryMapTable p memoryMapTable_keys_nodup e
      (functionTable_subset_memoryMapTable e he)
    unfold requestOf hookRequest
    rw [hv]
    rfl

/-- Every request made by `hookedGetPaths` is the request of a hook target for
    the base the process resolved. -/
theorem hookedGetPaths_mem (env : Env) (p : Process) (b : Nat) (hb : p.baseAddress = some b)
    (r : InstallRequest × Bool) (hr : r ∈ (hookedGetPaths env p).state.installs) :
    r ∈ p.installs ∨ ∃ h off, (h, off) ∈ hookTargets ∧ r.1 = hookRequest b h off := by
  obtain ⟨f1, f2, f3, -⟩ := beforeLocate_frame env p
  have hbase : (beforeLocate env p).base = b := by
    unfold Process.base
    rw [f2, hb]
    rfl
  rw [hookedGetPaths_eq, hbase] at hr
  cases hm : env.mprotectErr (beforeLocate env p).mprotects
      (pryRequest env.pageSize ((b + gravityOffset) % WORD) 1) with
  | some text =>
    obtain ⟨q, hq, hi⟩ := locateMemory_of_refused env b (beforeLocate env p) text hm
    rw [hq] at hr
    simp only [Result.andThen, Result.state] at hr
    rw [hi, f1] at hr
    exact Or.inl hr
  | none =>
    obtain ⟨q, hq, he, hi, -⟩ := locateMemory_of_granted env b (beforeLocate env p) hm
    rw [hq] at hr
    simp only [Result.andThen] at hr
    rcases afterLocate_mem env q r hr with h | ⟨s, hs, hreq⟩
    · rw [hi, f1] at h
      exact Or.inl h
    · obtain ⟨off, -, hmem, hform⟩ := requestOf_located b (beforeLocate env p) s hs
      rw [he, hform] at hreq
      exact Or.inr ⟨_, off, hmem, hreq⟩

/-- The trace of `entry`, by the outcome of `getBaseAddress`. -/
theorem entry_cases (env : Env) (p : Process) :
    (∃ e, getBaseAddress env.maps = .error e ∧ entry env p = .thrown e p)
    ∨ (∃ b q, getBaseAddress env.maps = .ok b
        ∧ q.baseAddress = some b ∧ q.getPaths = some ((b + getPathsOffset) % WORD)
        ∧ ((entry env p = .returned q ∧ env.Install p.installs (bootstrapRequest b) = true
            ∧ q.installs = p.installs ++ [(bootstrapRequest b, true)])
          ∨ (entry env p = .thrown (.runtime_error (installFailure env "getPathsHook")) q
            ∧ env.Install p.installs (bootstrapRequest b) = false
            ∧ q.installs = p.installs ++ [(bootstrapRequest b, false)]))) := by
  rw [entry_eq]
  cases hb : getBaseAddress env.maps with
  | error e => exact Or.inl ⟨e, rfl, rfl⟩
  | ok b =>
    right
    simp only []
    cases hI : env.Install p.installs (bootstrapRequest b) with
    | true =>
      refine ⟨b, _, rfl, ?_, ?_, Or.inl ⟨installHook_of_success env _ _ _ _ _ _ hI, hI, rfl⟩⟩ <;> rfl
    | false =>
      refine ⟨b, _, rfl, ?_, ?_, Or.inr ⟨installHook_of_failure env _ _ _ _ _ _ hI, hI, rfl⟩⟩ <;> rfl

/-- Every request of the startup sequence is the request of a hook target for
    the base that `getBaseAddress` returned. -/
theorem startup_mem (env : Env) (p : Process)
    (r : InstallRequest × Bool) (hr : r ∈ (startup env p).state.installs) :
    r ∈ p.installs ∨ ∃ b h off, getBaseAddress env.maps = .ok b ∧ (h, off) ∈ hookTargets
      ∧ r.1 = hookRequest b h off := by
  have hboot : (HookObject.getPathsHook, getPathsOffset) ∈ hookTargets :=
    List.mem_cons_self _ _
  unfold startup at hr
  rcases entry_cases env p with ⟨e, -, he⟩ | ⟨b, q, hb, hqb, -, ⟨hq, -, hi⟩ | ⟨hq, -, hi⟩⟩
  · rw [he] at hr
    exact Or.inl hr
  · rw [hq] at hr
    simp only [Result.andThen] at hr
    rcases hookedGetPaths_mem env q b hqb r hr with h | ⟨h, off, hmem, hform⟩
    · rw [hi, List.mem_append, List.mem_singleton] at h
      rcases h with h | rfl
      · exact Or.inl h
      · exact Or.inr ⟨b, _, _, hb, hboot, rfl⟩
    · exact Or.inr ⟨b, h, off, hb, hmem, hform⟩
  · rw [hq] at hr
    simp only [Result.andThen, Result.state] at hr
    rw [hi, List.mem_append, List.mem_singleton] at hr
    rcases hr with h | rfl
    · exact Or.inl h
    · exact Or.inr ⟨b, _, _, hb, hboot, rfl⟩

theorem beforeLocate_base (env : Env) (p : Process) : (beforeLocate env p).base = p.base := by
  unfold Process.base
  rw [(beforeLocate_frame env p).2.1]

/-! ## C3 -/

/-- C3: the hook objects installed by `entry` and `installHooks` (the bootstrap
    hook at offset `0xC5B00` included) have pairwise distinct target offsets
    for distinct hook names; every install request of the startup sequence is
    the request of one of them at the resolved base; hence two requests under
    different names never have the same host target, and requests with the
    same host target carry the same interceptor. -/
theorem hook_targets_pairwise_distinct (env : Env) (mem prot : Nat → Nat) :
    (HookObject.getPathsHook, 0xC5B00) ∈ hookTargets
    ∧ (∀ x ∈ hookTargets, ∀ y ∈ hookTargets, x.1.hookName ≠ y.1.hookName → x.2 ≠ y.2)
    ∧ (∀ r ∈ (startup env (Process.fresh mem prot)).state.installs,
        ∃ b h off, getBaseAddress env.maps = .ok b ∧ (h, off) ∈ hookTargets
          ∧ r.1 = hookRequest b h off)
    ∧ (∀ r₁ ∈ (startup env (Process.fresh mem prot)).state.installs,
        ∀ r₂ ∈ (startup env (Process.fresh mem prot)).state.installs,
          (r₁.1.name ≠ r₂.1.name → r₁.1.source ≠ r₂.1.source)
          ∧ (r₁.1.source = r₂.1.source → r₁.1.destination = r₂.1.destination)) := by
  have form : ∀ r ∈ (startup env (Process.fresh mem prot)).state.installs,
      ∃ b h off, getBaseAddress env.maps = .ok b ∧ (h, off) ∈ hookTargets
        ∧ r.1 = hookRequest b h off := by
    intro r hr
    rcases startup_mem env (Process.fresh mem prot) r hr with h | h
    · cases h
    · exact h
  have same : ∀ r₁ ∈ (startup env (Process.fresh mem prot)).state.installs,
      ∀ r₂ ∈ (startup env (Process.fresh mem prot)).state.installs,
      r₁.1.source = r₂.1.source → r₁.1.hook = r₂.1.hook := by
    intro r₁ h₁ r₂ h₂ hsrc
    obtain ⟨b₁, x₁, o₁, hb₁, hm₁, hf₁⟩ := form r₁ h₁
    obtain ⟨b₂, x₂, o₂, hb₂, hm₂, hf₂⟩ := form r₂ h₂
    have hb : b₁ = b₂ := by
      rw [hb₁] at hb₂
      exact Except.ok.inj hb₂
    subst hb
    rw [hf₁, hf₂] at hsrc ⊢
    simp only [hookRequest, Option.some.injEq] at hsrc ⊢
    have ho : o₁ = o₂ := add_mod_WORD_cancel b₁ o₁ o₂ (hookTargets_lt_WORD _ hm₁)
      (hookTargets_lt_WORD _ hm₂) hsrc
    subst ho
    exact hookTargets_injective _ hm₁ _ hm₂ rfl
  have byHook : ∀ r ∈ (startup env (Process.fresh mem prot)).state.installs,
      r.1.name = r.1.hook.hookName ∧ r.1.destination = r.1.hook.interceptor := by
    intro r hr
    obtain ⟨b, x, o, -, -, hf⟩ := form r hr
    rw [hf]
    exact ⟨rfl, rfl⟩
  refine ⟨List.mem_cons_self _ _, ?_, form, ?_⟩
  · intro x hx y hy hne hoff
    exact hne (by rw [hookTargets_injective x hx y hy hoff])
  · intro r₁ h₁ r₂ h₂
    constructor
    · intro hne hsrc
      apply hne
      rw [(byHook r₁ h₁).1, (byHook r₂ h₂).1, same r₁ h₁ r₂ h₂ hsrc]
    · intro hsrc
      rw [(byHook r₁ h₁).2, (byHook r₂ h₂).2, same r₁ h₁ r₂ h₂ hsrc]

/-- Witness for C3: in a granted startup at base `0x400000` the bootstrap request
    and the request of `lineIntersectHumanHook` are both made, under different
    names, and their host targets differ. -/
theorem hook_targets_pairwise_distinct_witness :
    (hookRequest 0x400000 .getPathsHook 0xC5B00, true)
        ∈ (startup (grantingEnv sampleMaps) sampleProcess).state.installs
    ∧ (hookRequest 0x400000 (.ofSlot Slot.lineIntersectHuman) 0x23AB0, true)
        ∈ (startup (grantingEnv sampleMaps) sampleProcess).state.installs
    ∧ (hookRequest 0x400000 .getPathsHook 0xC5B00).source
        ≠ (hookRequest 0x400000 (.ofSlot Slot.lineIntersectHuman) 0x23AB0).source :=
  ⟨by decide, by decide,
   ((hook_targets_pairwise_distinct (grantingEnv sampleMaps) (fun _ => 7)
      (fun _ => PROT_READ ||| PROT_EXEC)).2.2.2
      (hookRequest 0x400000 .getPathsHook 0xC5B00, true) (by decide)
      (hookRequest 0x400000 (.ofSlot Slot.lineIntersectHuman) 0x23AB0, true) (by decide)).1
      (by decide)⟩

/-! ## C5 -/

/-- C5: in the startup sequence every address is defined before it is used.
    `entry` issues no install request unless `getBaseAddress` returned a base `b`,
    and then its only request targets `b + 0xC5B00`; in `hookedGetPaths`, when
    `locateMemory` throws nothing is installed, and when it returns no request
    has been made yet, every table entry is populated and only then does the
    rest run; every name in `installHooks` is a function-table entry; and every
    request of the whole sequence has a populated target `b + offset`. -/
theorem startup_defines_before_use (env : Env) (mem prot : Nat → Nat) (p : Process) :
    (entry env (Process.fresh mem prot)).state.installs
        = (match getBaseAddress env.maps with
            | .error _ => []
            | .ok b => [(bootstrapRequest b, env.Install [] (bootstrapRequest b))])
    ∧ (match locateMemory env (beforeLocate env p).base (beforeLocate env p) with
        | .thrown e q => hookedGetPaths env p = .thrown e q ∧ q.installs = p.installs
        | .returned q => hookedGetPaths env p = afterLocate env q ∧ q.installs = p.installs
            ∧ ∀ e ∈ memoryMapTable, q.engine e.1 = some ((p.base + e.2) % WORD))
    ∧ (∀ s ∈ hookSequence, s ∈ functionTable.map Prod.fst)
    ∧ (∀ r ∈ (startup env (Process.fresh mem prot)).state.installs,
        ∃ b h off, getBaseAddress env.maps = .ok b ∧ (h, off) ∈ hookTargets
          ∧ r.1.source = some ((b + off) % WORD)) := by
  refine ⟨?_, ?_, hookSequence_subset_functionTable, ?_⟩
  · rcases entry_cases env (Process.fresh mem prot) with
      ⟨e, hb, he⟩ | ⟨b, q, hb, -, -, ⟨hq, hI, hi⟩ | ⟨hq, hI, hi⟩⟩
    · rw [hb, he]
      rfl
    · rw [hb, hq]
      simp only [Result.state]
      rw [hi]
      have hI' : env.Install [] (bootstrapRequest b) = true := hI
      rw [hI']
      rfl
    · rw [hb, hq]
      simp only [Result.state]
      rw [hi]
      have hI' : env.Install [] (bootstrapRequest b) = false := hI
      rw [hI']
      rfl
  · obtain ⟨f1, -, -, -⟩ := beforeLocate_frame env p
    rw [hookedGetPaths_eq, beforeLocate_base]
    cases hm : env.mprotectErr (beforeLocate env p).mprotects
        (pryRequest env.pageSize ((p.base + gravityOffset) % WORD) 1) with
    | some text =>
      obtain ⟨q, hq, hi⟩ := locateMemory_of_refused env p.base (beforeLocate env p) text hm
      rw [hq]
      exact ⟨rfl, by rw [hi, f1]⟩
    | none =>
      obtain ⟨q, hq, he, hi, -⟩ := locateMemory_of_granted env p.base (beforeLocate env p) hm
      rw [hq]
      refine ⟨rfl, by rw [hi, f1], ?_⟩
      intro e hmem
      rw [he]
      exact assignAll_engine_of_mem _ _ _ memoryMapTable_keys_nodup e hmem
  · intro r hr
    rcases startup_mem env (Process.fresh mem prot) r hr with h | ⟨b, h, off, hb, hmem, hf⟩
    · cases h
    · exact ⟨b, h, off, hb, hmem, by rw [hf]; rfl⟩

/-- Witness for C5: in a granted startup at base `0x400000` the last request of
    `installHooks` is made and its target is populated from the resolved base. -/
theorem startup_defines_before_use_witness :
    (hookRequest 0x400000 (.ofSlot Slot.lineIntersectHuman) 0x23AB0, true)
        ∈ (startup (grantingEnv sampleMaps) sampleProcess).state.installs
    ∧ ∃ b h off, getBaseAddress (grantingEnv sampleMaps).maps = .ok b ∧ (h, off) ∈ hookTargets
        ∧ (hookRequest 0x400000 (.ofSlot Slot.lineIntersectHuman) 0x23AB0).source
            = some ((b + off) % WORD) :=
  ⟨by decide,
   (startup_defines_before_use (grantingEnv sampleMaps) (fun _ => 7)
      (fun _ => PROT_READ ||| PROT_EXEC) sampleProcess).2.2.2
      (hookRequest 0x400000 (.ofSlot Slot.lineIntersectHuman) 0x23AB0, true) (by decide)⟩

/-! ## Lemmas on `getBaseAddress` -/

/-- What a hexadecimal digit is not. -/
theorem isHexDigit_ne (c : Char) (hc : isHexDigit c = true) :
    c ≠ '\n' ∧ c ≠ '-' ∧ c ≠ '+' ∧ c ≠ 'x' ∧ c ≠ 'X' ∧ isspace c = false := by
  refine ⟨?_, ?_, ?_, ?_, ?_, ?_⟩
  · rintro rfl; revert hc; decide
  · rintro rfl; revert hc; decide
  · rintro rfl; revert hc; decide
  · rintro rfl; revert hc; decide
  · rintro rfl; revert hc; decide
  · cases hs : isspace c with
    | false => rfl
    | true =>
      simp only [isspace, Bool.or_eq_true, beq_iff_eq] at hs
      rcases hs with ((((rfl | rfl) | rfl) | rfl) | rfl) | rfl <;> revert hc <;> decide

/-- The call `line.substr(0, line.find("-"))` keeps what precedes the first `-`. -/
theorem substr0_find (line : List Char) :
    substr0 line (find line) = line.takeWhile (fun c => c != '-') := by
  have key : ∀ l : List Char, l.take (l.indexOf '-') = l.takeWhile (fun c => c != '-') := by
    intro l
    induction l with
    | nil => rfl
    | cons c t ih =>
      by_cases hc : c = '-'
      · subst hc
        rw [List.indexOf_cons_self]
        rfl
      · rw [List.indexOf_cons_ne _ hc, List.take_succ_cons, ih,
          List.takeWhile_cons_of_pos (by simpa using hc)]
  unfold find substr0
  split
  · rename_i h
    split at h
    · cases h
    · rename_i hlt
      rw [← key line, List.take_of_length_le (by omega)]
  · rename_i k h
    split at h
    · cases h
      exact key line
    · cases h

/-- Parsing a non-empty run of hexadecimal digits. -/
theorem strtoul16_hex (h : List Char) (hne : h ≠ []) (hhex : ∀ c ∈ h, isHexDigit c = true) :
    strtoul16 h
      = if WORD ≤ hexValue h then some (WORD - 1, true) else some (hexValue h, false) := by
  obtain ⟨c, t, rfl⟩ := List.exists_cons_of_ne_nil hne
  have hc := isHexDigit_ne c (hhex c (List.mem_cons_self _ _))
  have hdrop : (c :: t).dropWhile isspace = c :: t :=
    List.dropWhile_cons_of_neg (by simp [hc.2.2.2.2.2])
  have hsign : takeSign (c :: t) = (false, c :: t) := by
    simp [takeSign, hc.2.1, hc.2.2.1]
  have hskip : skipHexPrefix (c :: t) = c :: t := by
    unfold skipHexPrefix
    split
    · rename_i c' x d rest heq
      have hx := isHexDigit_ne x (hhex x (by rw [heq]; simp))
      rw [if_neg]
      rintro ⟨-, hx' | hx', -⟩
      · exact hx.2.2.2.1 hx'
      · exact hx.2.2.2.2.1 hx'
    · rfl
  have htake : (c :: t).takeWhile isHexDigit = c :: t :=
    List.takeWhile_eq_self_iff.mpr hhex
  unfold strtoul16
  simp only [hdrop, hsign, hskip, htake]
  simp

/-! ## C6 -/

/-- C6: when `/proc/self/maps` starts with a non-empty run `h` of hexadecimal
    digits whose value fits a 64-bit word, followed by `-`, `getBaseAddress`
    returns the numeric value of `h`, whatever follows the `-` (the rest of the
    first line and every later line). -/
theorem getBaseAddress_of_hex_line (h rest : List Char) (hne : h ≠ [])
    (hhex : ∀ c ∈ h, isHexDigit c = true) (hfit : hexValue h < WORD) :
    getBaseAddress (some (h ++ '-' :: rest)) = .ok (hexValue h)
    ∧ ∀ rest₂, getBaseAddress (some (h ++ '-' :: rest₂))
        = getBaseAddress (some (h ++ '-' :: rest)) := by
  have main : ∀ r, getBaseAddress (some (h ++ '-' :: r)) = .ok (hexValue h) := by
    intro r
    have hline : getline (some (h ++ '-' :: r))
        = h ++ ('-' :: r).takeWhile (fun c => c != '\n') := by
      unfold getline
      simp only []
      rw [List.takeWhile_append_of_pos]
      intro c hc
      simpa using (isHexDigit_ne c (hhex c hc)).1
    have htrunc : (h ++ ('-' :: r).takeWhile (fun c => c != '\n')).takeWhile
        (fun c => c != '-') = h := by
      rw [List.takeWhile_append_of_pos]
      · rw [List.takeWhile_cons_of_pos (by decide), List.takeWhile_cons_of_neg (by decide),
          List.append_nil]
      · intro c hc
        simpa using (isHexDigit_ne c (hhex c hc)).2.1
    unfold getBaseAddress
    simp only []
    rw [substr0_find, hline, htrunc]
    unfold stoul16
    rw [strtoul16_hex h hne hhex, if_neg (Nat.not_le.mpr hfit)]
  exact ⟨main rest, fun r₂ => by rw [main r₂, main rest]⟩

/-- Witness for C6: a first line as the kernel writes it. -/
theorem getBaseAddress_of_hex_line_witness :
    hexValue ['5', '5', 'd', '0', 'c', '0', 'a', '0', '0', '0', '0', '0'] = 94355073269760
    ∧ getBaseAddress (some (['5', '5', 'd', '0', 'c', '0', 'a', '0', '0', '0', '0', '0']
        ++ '-' :: ['5', '5', 'd', '1', ' ', 'r', '-', 'x', 'p', '\n', '7', 'f', '-', '8']))
      = .ok (hexValue ['5', '5', 'd', '0', 'c', '0', 'a', '0', '0', '0', '0', '0']) :=
  ⟨by decide,
   (getBaseAddress_of_hex_line ['5', '5', 'd', '0', 'c', '0', 'a', '0', '0', '0', '0', '0']
      ['5', '5', 'd', '1', ' ', 'r', '-', 'x', 'p', '\n', '7', 'f', '-', '8']
      (by decide) (by decide) (by decide)).1⟩

/-- Dropping leading white space commutes with cutting at the first `-`. -/
theorem dropWhile_isspace_takeWhile (l : List Char) :
    (l.takeWhile (fun c => c != '-')).dropWhile isspace
      = (l.dropWhile isspace).takeWhile (fun c => c != '-') := by
  induction l with
  | nil => rfl
  | cons c t ih =>
    by_cases hs : isspace c = true
    · have hc : (c != '-') = true := by
        simp only [isspace, Bool.or_eq_true, beq_iff_eq] at hs
        rcases hs with ((((rfl | rfl) | rfl) | rfl) | rfl) | rfl <;> decide
      rw [List.takeWhile_cons_of_pos (p := fun c => c != '-') hc, List.dropWhile_cons_of_pos hs,
        List.dropWhile_cons_of_pos hs, ih]
    · rw [List.dropWhile_cons_of_neg hs]
      by_cases hc : (c != '-') = true
      · rw [List.takeWhile_cons_of_pos (p := fun c => c != '-') hc, List.dropWhile_cons_of_neg hs]
      · rw [List.takeWhile_cons_of_neg (p := fun c => c != '-') hc]
        rfl

/-- A text that does not start with a hexadecimal digit has no digits to convert. -/
theorem no_digits_of_head (u : List Char)
    (hu : ∀ c, u.head? = some c → isHexDigit c = false) :
    (skipHexPrefix u).takeWhile isHexDigit = [] := by
  cases u with
  | nil => rfl
  | cons c rest =>
    have hc : isHexDigit c = false := hu c rfl
    have h0 : c ≠ '0' := by
      rintro rfl
      revert hc
      decide
    have hskip : skipHexPrefix (c :: rest) = c :: rest := by
      unfold skipHexPrefix
      split
      · rename_i c' x d r heq
        have : c' = c := by
          injection heq with h1 _
          exact h1.symm
        subst this
        rw [if_neg]
        rintro ⟨h, -⟩
        exact h0 h
      · rfl
    rw [hskip, List.takeWhile_cons_of_neg (by simp [hc])]

theorem head?_takeWhile (q : Char → Bool) (l : List Char) (c : Char)
    (h : (l.takeWhile q).head? = some c) : l.head? = some c := by
  cases l with
  | nil => cases h
  | cons a t =>
    by_cases ha : q a = true
    · rw [List.takeWhile_cons_of_pos ha] at h
      exact h
    · rw [List.takeWhile_cons_of_neg ha] at h
      cases h

/-- With no hexadecimal digit after the leading white space and an optional
    `+`, the text before the first `-` cannot be converted. -/
theorem strtoul16_none (line : List Char)
    (h : ∀ c, (afterBlanksAndPlus line).head? = some c → isHexDigit c = false) :
    strtoul16 (line.takeWhile (fun c => c != '-')) = none := by
  have hdigits : (skipHexPrefix (takeSign
      ((line.takeWhile (fun c => c != '-')).dropWhile isspace)).2).takeWhile isHexDigit = [] := by
    rw [dropWhile_isspace_takeWhile]
    unfold afterBlanksAndPlus at h
    cases hM : line.dropWhile isspace with
    | nil => rfl
    | cons c t =>
      rw [hM] at h
      simp only [] at h
      by_cases hminus : c = '-'
      · subst hminus
        rfl
      · rw [List.takeWhile_cons_of_pos (p := fun c => c != '-') (by simpa using hminus)]
        by_cases hplus : c = '+'
        · subst hplus
          rw [if_pos rfl] at h
          have hs : takeSign ('+' :: t.takeWhile (fun c => c != '-'))
              = (false, t.takeWhile (fun c => c != '-')) := by
            simp [takeSign]
          rw [hs]
          exact no_digits_of_head _ (fun c hc => h c (head?_takeWhile _ _ _ hc))
        · rw [if_neg hplus] at h
          have hs : takeSign (c :: t.takeWhile (fun c => c != '-'))
              = (false, c :: t.takeWhile (fun c => c != '-')) := by
            simp [takeSign, hminus, hplus]
          rw [hs]
          exact no_digits_of_head _ (fun d hd => h d hd)
  unfold strtoul16
  simp only []
  rw [if_pos hdigits]

/-! ## C7 -/

/-- C7, as stated, fails: the first line ` 1-2` begins with a blank, not with a
    hexadecimal number, yet `getBaseAddress` returns the address 1, because
    `std::stoul` skips leading white space. -/
theorem getBaseAddress_blank_counterexample :
    (getline (some [' ', '1', '-', '2'])).head? = some ' '
    ∧ isHexDigit ' ' = false
    ∧ getBaseAddress (some [' ', '1', '-', '2']) = .ok 1 := by
  refine ⟨by rfl, by decide, by rfl⟩

/-- C7 (amended): if the first line, after its leading white space and one
    optional `+` sign, does not begin with a hexadecimal digit (in particular
    when the description is empty or unreadable), `getBaseAddress` throws
    `std::invalid_argument` and returns no address. -/
theorem getBaseAddress_throws_without_hex (maps : Option (List Char))
    (h : ∀ c, (afterBlanksAndPlus (getline maps)).head? = some c → isHexDigit c = false) :
    getBaseAddress maps = .error (.invalid_argument "stoul")
    ∧ ∀ v, getBaseAddress maps ≠ .ok v := by
  have main : getBaseAddress maps = .error (.invalid_argument "stoul") := by
    unfold getBaseAddress
    simp only []
    rw [substr0_find]
    unfold stoul16
    rw [strtoul16_none _ h]
  refine ⟨main, fun v hv => ?_⟩
  rw [main] at hv
  cases hv

/-- Witness for C7: an unreadable description, an empty one, and a first line
    that starts with the permission column. -/
theorem getBaseAddress_throws_without_hex_witness :
    (getBaseAddress none = .error (.invalid_argument "stoul")
      ∧ ∀ v, getBaseAddress none ≠ .ok v)
    ∧ (getBaseAddress (some []) = .error (.invalid_argument "stoul")
      ∧ ∀ v, getBaseAddress (some []) ≠ .ok v)
    ∧ (getBaseAddress (some ['r', '-', 'x', 'p', '\n', '1', '-', '2'])
        = .error (.invalid_argument "stoul")
      ∧ ∀ v, getBaseAddress (some ['r', '-', 'x', 'p', '\n', '1', '-', '2']) ≠ .ok v) :=
  ⟨getBaseAddress_throws_without_hex none (by decide),
   getBaseAddress_throws_without_hex (some []) (by decide),
   getBaseAddress_throws_without_hex (some ['r', '-', 'x', 'p', '\n', '1', '-', '2'])
     (by intro c hc; cases hc; decide)⟩

/-! ## Lemmas on pages -/

/-- The page start is the page number times the page size. -/
theorem pryPage_eq_mul (P a : Nat) : pryPage P a = P * (a / P) := by
  unfold pryPage
  have h := Nat.div_add_mod a P
  omega

/-- The pages touched by a request for `n ≥ 1` whole pages from a page start
    are the addresses of the byte range it names. -/
theorem touches_iff_range (P k n x : Nat) (hP : 0 < P) (hn : 1 ≤ n) (prot : Nat) :
    (MprotectCall.touches P ⟨P * k, P * n, prot⟩ x = true)
      ↔ (P * k ≤ x ∧ x < P * k + P * n) := by
  have hlen : 0 < P * n := Nat.mul_pos hP hn
  have hfirst : P * k / P = k := Nat.mul_div_cancel_left k hP
  have hlast : (P * k + P * n - 1) / P = k + n - 1 := by
    have h := Nat.mul_sub_div 0 P (k + n) (by
      have : 0 < P * (k + n) := Nat.mul_pos hP (by omega)
      exact this)
    rw [Nat.mul_add] at h
    simpa using h
  simp only [MprotectCall.touches, Bool.and_eq_true, decide_eq_true_eq, hfirst, hlast]
  constructor
  · rintro ⟨⟨-, h1⟩, h2⟩
    have a1 : k * P ≤ x := (Nat.le_div_iff_mul_le hP).mp h1
    have a2 : x < (k + n) * P := (Nat.div_lt_iff_lt_mul hP).mp (by omega)
    rw [Nat.mul_comm] at a1 a2
    rw [Nat.mul_add] at a2
    exact ⟨a1, a2⟩
  · rintro ⟨h1, h2⟩
    refine ⟨⟨hlen, (Nat.le_div_iff_mul_le hP).mpr (by rw [Nat.mul_comm]; exact h1)⟩, ?_⟩
    have a2 : x / P < k + n := (Nat.div_lt_iff_lt_mul hP).mpr (by
      rw [Nat.mul_comm, Nat.mul_add]; exact h2)
    omega

/-- Applying the same granted request twice is applying it once. -/
theorem applyMprotect_idem (P : Nat) (c : MprotectCall) (prot : Nat → Nat) :
    applyMprotect P c (applyMprotect P c prot) = applyMprotect P c prot := by
  funext x
  unfold applyMprotect
  split <;> rfl

/-- A refused request for two pages whose first page is mapped and whose second
    is not: `pryMemory` throws and logs nothing, but the first page has become
    readable and writable; the second page is as it was. -/
theorem pryMemory_refused_after_first_page :
    (pryMemory holeEnv 0x4C72AC 2 sampleProcess).isReturned = false
    ∧ (pryMemory holeEnv 0x4C72AC 2 sampleProcess).state.log = []
    ∧ (pryMemory holeEnv 0x4C72AC 2 sampleProcess).state.prot 0x4C7000
        = PROT_WRITE ||| PROT_READ
    ∧ (pryMemory holeEnv 0x4C72AC 2 sampleProcess).state.prot 0x4C8000
        = PROT_READ ||| PROT_EXEC := by
  refine ⟨by rfl, by rfl, by decide, by decide⟩

/-- How `pryMemory` ends, by the answer of the operating system. -/
theorem pryMemory_cases (env : Env) (a n : Nat) (p : Process) :
    (env.mprotectErr p.mprotects (pryRequest env.pageSize a n) = none
      ∧ ∃ q, pryMemory env a n p = .returned q
        ∧ q.prot = applyMprotect env.pageSize (pryRequest env.pageSize a n) p.prot
        ∧ q.mprotects = p.mprotects ++ [pryRequest env.pageSize a n]
        ∧ q.log = p.log ++ [pryLogLine env (pryPage env.pageSize a)])
    ∨ (∃ text, env.mprotectErr p.mprotects (pryRequest env.pageSize a n) = some text
      ∧ ∃ q, pryMemory env a n p = .thrown (.runtime_error text) q
        ∧ q.prot = applyMprotect env.pageSize
            (refusedPart env.pageSize
              (env.mprotectDone p.mprotects (pryRequest env.pageSize a n))
              (pryRequest env.pageSize a n)) p.prot
        ∧ q.mprotects = p.mprotects ++ [pryRequest env.pageSize a n]
        ∧ q.log = p.log) := by
  cases h : env.mprotectErr p.mprotects (pryRequest env.pageSize a n) with
  | none =>
    obtain ⟨q, hq, -, -, -, -, h1, h2, h3⟩ := pryMemory_granted_state env a n p h
    exact Or.inl ⟨rfl, q, hq, h1, h2, h3⟩
  | some text =>
    obtain ⟨q, hq, -, -, -, -, h1, h2, h3⟩ := pryMemory_refused_state env a n p text h
    exact Or.inr ⟨text, rfl, q, hq, h1, h2, h3⟩

/-! ## C8 -/

/-- C8, as stated, fails: the byte length is computed in `size_t`. With
    4096-byte pages and `2^52` pages the product wraps to 0, so the request
    names no byte, the pry succeeds, and the byte at the address is still not
    writable. -/
theorem pryMemory_overflow_counterexample :
    0 < (grantingEnv none).pageSize ∧ 1 ≤ 4503599627370496
    ∧ (pryRequest (grantingEnv none).pageSize 0x1000 4503599627370496).len
        ≠ (grantingEnv none).pageSize * 4503599627370496
    ∧ (pryRequest (grantingEnv none).pageSize 0x1000 4503599627370496).len = 0
    ∧ (pryMemory (grantingEnv none) 0x1000 4503599627370496 sampleProcess).isReturned = true
    ∧ writable (pryMemory (grantingEnv none) 0x1000 4503599627370496 sampleProcess).state.prot
        0x1000 = false := by
  refine ⟨by decide, by decide, by decide, by decide, by rfl, by rfl⟩

/-- C8 (amended): for every address `a`, page size `P > 0` and page count `n ≥ 1`
    whose byte length `P * n` fits a 64-bit word, `pryMemory` computes
    `page = a - a mod P`, a multiple of `P` with `page ≤ a < page + P`, and
    requests read+write protection on exactly `[page, page + P * n)`; after a pry
    that returned, the byte at `a` and every byte of that range is writable. -/
theorem pryMemory_requests_page_range (env : Env) (a n : Nat) (p : Process)
    (hP : 0 < env.pageSize) (hn : 1 ≤ n) (hfit : env.pageSize * n < WORD) :
    pryPage env.pageSize a = a - a % env.pageSize
    ∧ env.pageSize ∣ pryPage env.pageSize a
    ∧ pryPage env.pageSize a ≤ a ∧ a < pryPage env.pageSize a + env.pageSize
    ∧ (pryMemory env a n p).state.mprotects
        = p.mprotects ++ [⟨pryPage env.pageSize a, env.pageSize * n, PROT_WRITE ||| PROT_READ⟩]
    ∧ (∀ x, (pryRequest env.pageSize a n).touches env.pageSize x = true
        ↔ (pryPage env.pageSize a ≤ x ∧ x < pryPage env.pageSize a + env.pageSize * n))
    ∧ (∀ q, pryMemory env a n p = .returned q →
        writable q.prot a = true
        ∧ ∀ x, pryPage env.pageSize a ≤ x → x < pryPage env.pageSize a + env.pageSize * n →
            writable q.prot x = true) := by
  have hreq : pryRequest env.pageSize a n
      = ⟨env.pageSize * (a / env.pageSize), env.pageSize * n, PROT_WRITE ||| PROT_READ⟩ := by
    unfold pryRequest
    rw [pryPage_eq_mul, Nat.mod_eq_of_lt hfit]
  have hmod := Nat.mod_lt a hP
  have hdiv := Nat.div_add_mod a env.pageSize
  have hle : pryPage env.pageSize a ≤ a := by rw [pryPage_eq_mul]; omega
  have hlt : a < pryPage env.pageSize a + env.pageSize := by rw [pryPage_eq_mul]; omega
  have htouch : ∀ x, (pryRequest env.pageSize a n).touches env.pageSize x = true
      ↔ (pryPage env.pageSize a ≤ x ∧ x < pryPage env.pageSize a + env.pageSize * n) := by
    intro x
    rw [hreq, pryPage_eq_mul]
    exact touches_iff_range env.pageSize (a / env.pageSize) n x hP hn _
  refine ⟨rfl, ?_, hle, hlt, ?_, htouch, ?_⟩
  · rw [pryPage_eq_mul]
    exact Dvd.intro _ rfl
  · rw [← pryPage_eq_mul] at hreq
    rcases pryMemory_cases env a n p with ⟨-, q, hq, -, hm, -⟩ | ⟨text, -, q, hq, -, hm, -⟩
    · rw [hq]
      simp only [Result.state]
      rw [hm, hreq]
    · rw [hq]
      simp only [Result.state]
      rw [hm, hreq]
  · intro q hq
    rcases pryMemory_cases env a n p with ⟨-, q', hq', hprot, -, -⟩ | ⟨text, -, q', hq', -, -, -⟩
    · rw [hq'] at hq
      cases hq
      have hw : ∀ x, pryPage env.pageSize a ≤ x →
          x < pryPage env.pageSize a + env.pageSize * n → writable q.prot x = true := by
        intro x h1 h2
        unfold writable
        rw [hprot]
        unfold applyMprotect
        rw [if_pos ((htouch x).mpr ⟨h1, h2⟩)]
        show ((PROT_WRITE ||| PROT_READ) / PROT_WRITE % 2 == 1) = true
        decide
      refine ⟨hw a hle ?_, hw⟩
      have : env.pageSize ≤ env.pageSize * n := Nat.le_mul_of_pos_right _ hn
      omega
    · rw [hq'] at hq
      cases hq

/-- Witness for C8: prying one 4096-byte page around the gravity constant of a
    host loaded at `0x400000`. -/
theorem pryMemory_requests_page_range_witness :
    pryPage (grantingEnv none).pageSize 0x4C72AC = 0x4C72AC - 0x4C72AC % (grantingEnv none).pageSize
    ∧ (grantingEnv none).pageSize ∣ pryPage (grantingEnv none).pageSize 0x4C72AC
    ∧ pryPage (grantingEnv none).pageSize 0x4C72AC ≤ 0x4C72AC
    ∧ 0x4C72AC < pryPage (grantingEnv none).pageSize 0x4C72AC + (grantingEnv none).pageSize
    ∧ (pryMemory (grantingEnv none) 0x4C72AC 1 sampleProcess).state.mprotects
        = sampleProcess.mprotects ++ [⟨pryPage (grantingEnv none).pageSize 0x4C72AC,
            (grantingEnv none).pageSize * 1, PROT_WRITE ||| PROT_READ⟩]
    ∧ (∀ x, (pryRequest (grantingEnv none).pageSize 0x4C72AC 1).touches
              (grantingEnv none).pageSize x = true
        ↔ (pryPage (grantingEnv none).pageSize 0x4C72AC ≤ x
            ∧ x < pryPage (grantingEnv none).pageSize 0x4C72AC + (grantingEnv none).pageSize * 1))
    ∧ (∀ q, pryMemory (grantingEnv none) 0x4C72AC 1 sampleProcess = .returned q →
        writable q.prot 0x4C72AC = true
        ∧ ∀ x, pryPage (grantingEnv none).pageSize 0x4C72AC ≤ x →
            x < pryPage (grantingEnv none).pageSize 0x4C72AC + (grantingEnv none).pageSize * 1 →
            writable q.prot x = true) :=
  pryMemory_requests_page_range (grantingEnv none) 0x4C72AC 1 sampleProcess
    (by decide) (by decide) (by decide)

/-! ## C9 -/

/-- C9: a second successful pry with the same page count at any address of the
    same page (the same address included) issues the same request as the first
    and leaves the page-protection state as the first left it. -/
theorem pryMemory_idempotent_per_page (env : Env) (a a₂ n : Nat) (p q₁ q₂ : Process)
    (hpage : a / env.pageSize = a₂ / env.pageSize)
    (h₁ : pryMemory env a n p = .returned q₁)
    (h₂ : pryMemory env a₂ n q₁ = .returned q₂) :
    pryRequest env.pageSize a₂ n = pryRequest env.pageSize a n
    ∧ q₂.mprotects = p.mprotects ++ [pryRequest env.pageSize a n, pryRequest env.pageSize a n]
    ∧ q₂.prot = q₁.prot := by
  have hreq : pryRequest env.pageSize a₂ n = pryRequest env.pageSize a n := by
    unfold pryRequest
    rw [pryPage_eq_mul, pryPage_eq_mul, hpage]
  rcases pryMemory_cases env a n p with ⟨-, r₁, hr₁, hp₁, hm₁, -⟩ | ⟨text, -, r₁, hr₁, -, -, -⟩
  · rw [hr₁] at h₁
    cases h₁
    rcases pryMemory_cases env a₂ n q₁ with
      ⟨-, r₂, hr₂, hp₂, hm₂, -⟩ | ⟨text, -, r₂, hr₂, -, -, -⟩
    · rw [hr₂] at h₂
      cases h₂
      refine ⟨hreq, ?_, ?_⟩
      · rw [hm₂, hm₁, hreq]
        simp
      · rw [hp₂, hreq, hp₁, applyMprotect_idem]
    · rw [hr₂] at h₂
      cases h₂
  · rw [hr₁] at h₁
    cases h₁

/-- Witness for C9: prying at the gravity constant, then at the start of its page. -/
theorem pryMemory_idempotent_per_page_witness :
    pryRequest (grantingEnv none).pageSize 0x4C7000 1
      = pryRequest (grantingEnv none).pageSize 0x4C72AC 1
    ∧ (pryMemory (grantingEnv none) 0x4C7000 1
        (pryMemory (grantingEnv none) 0x4C72AC 1 sampleProcess).state).state.mprotects
      = sampleProcess.mprotects ++ [pryRequest (grantingEnv none).pageSize 0x4C72AC 1,
          pryRequest (grantingEnv none).pageSize 0x4C72AC 1]
    ∧ (pryMemory (grantingEnv none) 0x4C7000 1
        (pryMemory (grantingEnv none) 0x4C72AC 1 sampleProcess).state).state.prot
      = (pryMemory (grantingEnv none) 0x4C72AC 1 sampleProcess).state.prot :=
  pryMemory_idempotent_per_page (grantingEnv none) 0x4C72AC 0x4C7000 1 sampleProcess
    (pryMemory (grantingEnv none) 0x4C72AC 1 sampleProcess).state
    (pryMemory (grantingEnv none) 0x4C7000 1
      (pryMemory (grantingEnv none) 0x4C72AC 1 sampleProcess).state).state
    (by decide) rfl rfl

/-! ## C10 -/

/-- C10: `pryMemory` throws a runtime error carrying the operating system's
    error text exactly when the protection change is refused, and returns
    exactly when it is granted; a refused pry logs nothing, a granted one logs
    the success line. -/
theorem pryMemory_throws_iff_refused (env : Env) (a n : Nat) (p : Process) :
    (∀ text, env.mprotectErr p.mprotects (pryRequest env.pageSize a n) = some text
        ↔ ∃ q, pryMemory env a n p = .thrown (.runtime_error text) q)
    ∧ (env.mprotectErr p.mprotects (pryRequest env.pageSize a n) = none
        ↔ (pryMemory env a n p).isReturned = true)
    ∧ (∀ e q, pryMemory env a n p = .thrown e q → q.log = p.log)
    ∧ (∀ q, pryMemory env a n p = .returned q →
        q.log = p.log ++ [env.RS_PREFIX ++ "Successfully pried open page at "
          ++ showbaseHex (a - a % env.pageSize) ++ "\n"]) := by
  rcases pryMemory_cases env a n p with
    ⟨hnone, q, hq, -, -, hlog⟩ | ⟨text, hsome, q, hq, -, -, hlog⟩
  · refine ⟨fun t => ⟨fun h => ?_, fun ⟨r, hr⟩ => ?_⟩, ⟨fun _ => ?_, fun _ => hnone⟩, ?_, ?_⟩
    · rw [hnone] at h
      cases h
    · rw [hq] at hr
      cases hr
    · rw [hq]
      rfl
    · intro e r hr
      rw [hq] at hr
      cases hr
    · intro r hr
      rw [hq] at hr
      cases hr
      exact hlog
  · refine ⟨fun t => ⟨fun h => ?_, fun ⟨r, hr⟩ => ?_⟩, ⟨fun h => ?_, fun h => ?_⟩, ?_, ?_⟩
    · rw [hsome] at h
      cases h
      exact ⟨q, hq⟩
    · rw [hq] at hr
      cases hr
      exact hsome
    · rw [hsome] at h
      cases h
    · rw [hq] at h
      cases h
    · intro e r hr
      rw [hq] at hr
      cases hr
      exact hlog
    · intro r hr
      rw [hq] at hr
      cases hr

/-! ## Lemmas on the gravity constant -/

theorem assign_frame_memory (base : Nat) (p : Process) (e : Slot × Nat) :
    (assign base p e).mem = p.mem ∧ (assign base p e).prot = p.prot
    ∧ (assign base p e).originalGravity = p.originalGravity := ⟨rfl, rfl, rfl⟩

/-- The memory side of the state in which `locateMemory` calls `pryMemory`. -/
theorem locateMemory_before_pry_memory (base : Nat) (p : Process) :
    (assign base (assignAll base dataTableHead p) (Slot.gravity, gravityOffset)).mem = p.mem
    ∧ (assign base (assignAll base dataTableHead p) (Slot.gravity, gravityOffset)).prot = p.prot
    ∧ (assign base (assignAll base dataTableHead p) (Slot.gravity, gravityOffset)).originalGravity
        = p.originalGravity := by
  refine ⟨?_, ?_, ?_⟩
  · rw [(assign_frame_memory _ _ _).1]
    exact (assignAll_frame base dataTableHead p).2.2.1
  · rw [(assign_frame_memory _ _ _).2.1]
    exact (assignAll_frame base dataTableHead p).2.2.2.1
  · rw [(assign_frame_memory _ _ _).2.2]
    exact (assignAll_frame base dataTableHead p).2.2.2.2.2.2.1

/-- The gravity record of a `pryMemory` call, granted or refused. -/
theorem pryMemory_originalGravity (env : Env) (address numPages : Nat) (p : Process) :
    (pryMemory env address numPages p).state.originalGravity = p.originalGravity
    ∧ (pryMemory env address numPages p).state.mem = p.mem
    ∧ (pryMemory env address numPages p).state.engine = p.engine := by
  cases h : env.mprotectErr p.mprotects (pryRequest env.pageSize address numPages) with
  | none =>
    rw [pryMemory_of_granted env address numPages p h]
    exact ⟨rfl, rfl, rfl⟩
  | some text =>
    rw [pryMemory_of_refused env address numPages p text h]
    exact ⟨rfl, rfl, rfl⟩

/-- What the statements after the pry do to memory, protection and the gravity record. -/
theorem locateMemoryTail_memory (base : Nat) (p : Process) :
    (locateMemoryTail base p).mem = p.mem
    ∧ (locateMemoryTail base p).prot = p.prot
    ∧ (locateMemoryTail base p).mprotects = p.mprotects
    ∧ (locateMemoryTail base p).originalGravity
        = some (read32 p.mem ((p.engine Slot.gravity).getD 0)) := by
  unfold locateMemoryTail
  refine ⟨?_, ?_, ?_, ?_⟩
  · rw [(assignAll_frame _ _ _).2.2.1, (assignAll_frame _ _ _).2.2.1]
  · rw [(assignAll_frame _ _ _).2.2.2.1, (assignAll_frame _ _ _).2.2.2.1]
  · rw [(assignAll_frame _ _ _).1, (assignAll_frame _ _ _).1]
  · rw [(assignAll_frame _ _ _).2.2.2.2.2.2.1, (assignAll_frame _ _ _).2.2.2.2.2.2.1]

/-- The gravity record, the memory and the protection requests of `locateMemory`. -/
theorem locateMemory_gravity_core (env : Env) (base : Nat) (p : Process) :
    (locateMemory env base p).state.mem = p.mem
    ∧ (locateMemory env base p).state.mprotects
        = p.mprotects ++ [pryRequest env.pageSize ((base + gravityOffset) % WORD) 1]
    ∧ (env.mprotectErr p.mprotects (pryRequest env.pageSize ((base + gravityOffset) % WORD) 1) = none →
        ∃ q, locateMemory env base p = .returned q
          ∧ q.originalGravity = some (read32 p.mem ((base + gravityOffset) % WORD))
          ∧ q.prot = applyMprotect env.pageSize
              (pryRequest env.pageSize ((base + gravityOffset) % WORD) 1) p.prot)
    ∧ (∀ text, env.mprotectErr p.mprotects
          (pryRequest env.pageSize ((base + gravityOffset) % WORD) 1) = some text →
        ∃ q, locateMemory env base p = .thrown (.runtime_error text) q
          ∧ q.originalGravity = p.originalGravity ∧ q.prot = p.prot) := by
  obtain ⟨hg, hm, -, -⟩ := locateMemory_before_pry base p
  obtain ⟨hmem, hprot, hog⟩ := locateMemory_before_pry_memory base p
  have granted : env.mprotectErr p.mprotects
      (pryRequest env.pageSize ((base + gravityOffset) % WORD) 1) = none →
      ∃ q, locateMemory env base p = .returned q
        ∧ q.originalGravity = some (read32 p.mem ((base + gravityOffset) % WORD))
        ∧ q.prot = applyMprotect env.pageSize
            (pryRequest env.pageSize ((base + gravityOffset) % WORD) 1) p.prot
        ∧ q.mem = p.mem
        ∧ q.mprotects = p.mprotects ++ [pryRequest env.pageSize ((base + gravityOffset) % WORD) 1] := by
    intro h
    obtain ⟨q, hq, he, -, -, hqm, hqp, hqr, -⟩ := pryMemory_granted_state env
      ((base + gravityOffset) % WORD) 1
      (assign base (assignAll base dataTableHead p) (Slot.gravity, gravityOffset))
      (by rw [hm]; exact h)
    obtain ⟨t1, t2, t3, t4⟩ := locateMemoryTail_memory base q
    refine ⟨locateMemoryTail base q, ?_, ?_, ?_, ?_, ?_⟩
    · rw [locateMemory_eq, hq]
      rfl
    · rw [t4, hqm, hmem, he, hg]
    · rw [t2, hqp, hprot]
    · rw [t1, hqm, hmem]
    · rw [t3, hqr, hm]
  have refused : ∀ text, env.mprotectErr p.mprotects
      (pryRequest env.pageSize ((base + gravityOffset) % WORD) 1) = some text →
      ∃ q, locateMemory env base p = .thrown (.runtime_error text) q
        ∧ q.originalGravity = p.originalGravity ∧ q.prot = p.prot
        ∧ q.mem = p.mem
        ∧ q.mprotects = p.mprotects ++ [pryRequest env.pageSize ((base + gravityOffset) % WORD) 1] := by
    intro text h
    obtain ⟨q, hq, -, -, -, hqm, hqp, hqr, -⟩ := pryMemory_refused_state_one env
      ((base + gravityOffset) % WORD)
      (assign base (assignAll base dataTableHead p) (Slot.gravity, gravityOffset)) text
      (by rw [hm]; exact h)
    have hqo := (pryMemory_originalGravity env ((base + gravityOffset) % WORD) 1
      (assign base (assignAll base dataTableHead p) (Slot.gravity, gravityOffset))).1
    rw [hq] at hqo
    refine ⟨q, ?_, ?_, ?_, ?_, ?_⟩
    · rw [locateMemory_eq, hq]
      rfl
    · exact hqo.trans hog
    · rw [hqp, hprot]
    · rw [hqm, hmem]
    · rw [hqr, hm]
  refine ⟨?_, ?_, fun h => ?_, fun text h => ?_⟩
  · cases h : env.mprotectErr p.mprotects
        (pryRequest env.pageSize ((base + gravityOffset) % WORD) 1) with
    | none =>
      obtain ⟨q, hq, -, -, h4, -⟩ := granted h
      rw [hq]
      exact h4
    | some text =>
      obtain ⟨q, hq, -, -, h4, -⟩ := refused text h
      rw [hq]
      exact h4
  · cases h : env.mprotectErr p.mprotects
        (pryRequest env.pageSize ((base + gravityOffset) % WORD) 1) with
    | none =>
      obtain ⟨q, hq, -, -, -, h5⟩ := granted h
      rw [hq]
      exact h5
    | some text =>
      obtain ⟨q, hq, -, -, -, h5⟩ := refused text h
      rw [hq]
      exact h5
  · obtain ⟨q, hq, h2, h3, -, -⟩ := granted h
    exact ⟨q, hq, h2, h3⟩
  · obtain ⟨q, hq, h2, h3, -, -⟩ := refused text h
    exact ⟨q, hq, h2, h3⟩


/-! ## C11 -/

/-- C11, as stated, fails: when the operating system refuses the protection
    change, `locateMemory` has requested the pry but throws before the read,
    and `Engine::originalGravity` records nothing. -/
theorem locateMemory_refused_records_nothing :
    (locateMemory refusingEnv 0x400000 sampleProcess).isReturned = false
    ∧ (locateMemory refusingEnv 0x400000 sampleProcess).state.mprotects
        = [pryRequest refusingEnv.pageSize (0x400000 + 0xC72AC) 1]
    ∧ (locateMemory refusingEnv 0x400000 sampleProcess).state.originalGravity = none := by
  refine ⟨by rfl, by rfl, by rfl⟩

/-- C11 (amended): `locateMemory` requests the pry of the page of the gravity constant
    at `base + 0xC72AC` before any read of it and never modifies host memory;
    when the protection change is granted it returns with
    `Engine::originalGravity` equal to the value stored at `base + 0xC72AC` at
    that moment, read with the page already pried; when it is refused it
    throws the error of `pryMemory` and records nothing. -/
theorem locateMemory_records_original_gravity (env : Env) (base : Nat) (p : Process) :
    (locateMemory env base p).state.mem = p.mem
    ∧ (locateMemory env base p).state.mprotects
        = p.mprotects ++ [pryRequest env.pageSize ((base + 0xC72AC) % WORD) 1]
    ∧ (env.mprotectErr p.mprotects (pryRequest env.pageSize ((base + 0xC72AC) % WORD) 1) = none →
        ∃ q, locateMemory env base p = .returned q
          ∧ q.originalGravity = some (read32 p.mem ((base + 0xC72AC) % WORD))
          ∧ q.prot = applyMprotect env.pageSize
              (pryRequest env.pageSize ((base + 0xC72AC) % WORD) 1) p.prot)
    ∧ (∀ text, env.mprotectErr p.mprotects
          (pryRequest env.pageSize ((base + 0xC72AC) % WORD) 1) = some text →
        ∃ q, locateMemory env base p = .thrown (.runtime_error text) q
          ∧ q.originalGravity = p.originalGravity ∧ q.prot = p.prot) :=
  locateMemory_gravity_core env base p

/-- Witness for C11: a granted run at base `0x400000` over memory holding 7 in
    every byte records the pattern `0x07070707`. -/
theorem locateMemory_records_original_gravity_witness :
    read32 sampleProcess.mem ((0x400000 + 0xC72AC) % WORD) = 0x07070707
    ∧ ∃ q, locateMemory (grantingEnv none) 0x400000 sampleProcess = .returned q
        ∧ q.originalGravity = some (read32 sampleProcess.mem ((0x400000 + 0xC72AC) % WORD))
        ∧ q.prot = applyMprotect (grantingEnv none).pageSize
            (pryRequest (grantingEnv none).pageSize ((0x400000 + 0xC72AC) % WORD) 1)
            sampleProcess.prot :=
  ⟨by decide,
   (locateMemory_records_original_gravity (grantingEnv none) 0x400000 sampleProcess).2.2.1 rfl⟩

/-! ## Lemmas on the teardown of `luaInit` -/

theorem forLoop_succ (n : Nat) (body : Nat → Runtime → Runtime) (s : Runtime) :
    forLoop (n + 1) body s = body n (forLoop n body s) := by
  unfold forLoop
  rw [List.range_succ, List.foldl_append]
  rfl

/-- What one clearing iteration does. -/
theorem clearEntry_spec (k : DataKind) (i : Nat) (s : Runtime) :
    (clearEntry k i s).dataTables
        = (fun k₂ i₂ => if k₂ = k ∧ i₂ = i then none else s.dataTables k₂ i₂)
    ∧ (clearEntry k i s).events
        = s.events ++ ((s.dataTables k i).map (Event.deleteTable k i)).toList
    ∧ (clearEntry k i s).host = s.host ∧ (clearEntry k i s).lua = s.lua
    ∧ (clearEntry k i s).server = s.server ∧ (clearEntry k i s).hookEnabled = s.hookEnabled
    ∧ (clearEntry k i s).nextObject = s.nextObject := by
  unfold clearEntry
  cases h : s.dataTables k i with
  | none =>
    refine ⟨?_, by simp, rfl, rfl, rfl, rfl, rfl⟩
    funext k₂ i₂
    by_cases hc : k₂ = k ∧ i₂ = i
    · rw [if_pos hc, hc.1, hc.2, h]
    · rw [if_neg hc]
  | some t => exact ⟨rfl, by simp, rfl, rfl, rfl, rfl, rfl⟩

/-- What a clearing loop over the first `n` entries of a kind does. -/
theorem forLoop_clearEntry (k : DataKind) (n : Nat) (s : Runtime) :
    (forLoop n (clearEntry k) s).dataTables
        = (fun k₂ i₂ => if k₂ = k ∧ i₂ < n then none else s.dataTables k₂ i₂)
    ∧ (forLoop n (clearEntry k) s).events
        = s.events ++ (List.range n).filterMap
            (fun i => (s.dataTables k i).map (Event.deleteTable k i))
    ∧ (forLoop n (clearEntry k) s).host = s.host
    ∧ (forLoop n (clearEntry k) s).lua = s.lua
    ∧ (forLoop n (clearEntry k) s).server = s.server
    ∧ (forLoop n (clearEntry k) s).hookEnabled = s.hookEnabled
    ∧ (forLoop n (clearEntry k) s).nextObject = s.nextObject := by
  induction n with
  | zero =>
    refine ⟨?_, by simp [forLoop], rfl, rfl, rfl, rfl, rfl⟩
    funext k₂ i₂
    simp [forLoop]
  | succ n ih =>
    obtain ⟨h1, h2, h3, h4, h5, h6, h7⟩ := ih
    obtain ⟨c1, c2, c3, c4, c5, c6, c7⟩ := clearEntry_spec k n (forLoop n (clearEntry k) s)
    rw [forLoop_succ]
    refine ⟨?_, ?_, c3.trans h3, c4.trans h4, c5.trans h5, c6.trans h6, c7.trans h7⟩
    · rw [c1, h1]
      funext k₂ i₂
      by_cases hk : k₂ = k
      · subst hk
        by_cases hi : i₂ < n + 1
        · by_cases hn : i₂ = n
          · simp [hn]
          · have : i₂ < n := by omega
            simp [this, hi, hn]
        · have h' : ¬ i₂ < n := by omega
          have h'' : ¬ i₂ = n := by omega
          simp [hi, h', h'']
      · simp [hk]
    · rw [c2, h2, h1, List.range_succ, List.filterMap_append]
      simp only [lt_self_iff_false, and_false, if_false, List.append_assoc,
        List.append_cancel_left_eq]
      cases h : s.dataTables k n <;> simp [List.filterMap, h]

theorem Runtime.emit_dataTables (e : Event) (s : Runtime) :
    (s.emit e).dataTables = s.dataTables := by
  cases s; rfl

theorem Runtime.emit_events (e : Event) (s : Runtime) :
    (s.emit e).events = s.events ++ [e] := by
  cases s; rfl

theorem Runtime.emit_host (e : Event) (s : Runtime) : (s.emit e).host = s.host := by
  cases s; rfl

theorem Runtime.emit_lua (e : Event) (s : Runtime) : (s.emit e).lua = s.lua := by
  cases s; rfl

theorem Runtime.emit_server (e : Event) (s : Runtime) : (s.emit e).server = s.server := by
  cases s; rfl

theorem Runtime.emit_hookEnabled (e : Event) (s : Runtime) :
    (s.emit e).hookEnabled = s.hookEnabled := by
  cases s; rfl

theorem Runtime.emit_nextObject (e : Event) (s : Runtime) :
    (s.emit e).nextObject = s.nextObject := by
  cases s; rfl

theorem Runtime.log_dataTables (t : String) (s : Runtime) :
    (s.log t).dataTables = s.dataTables := by
  cases s; rfl

theorem Runtime.log_events (t : String) (s : Runtime) :
    (s.log t).events = s.events ++ [Event.log t] := by
  cases s; rfl

theorem Runtime.log_host (t : String) (s : Runtime) :
    (s.log t).host = Console_log t s.host := by
  cases s; rfl

theorem Runtime.log_lua (t : String) (s : Runtime) : (s.log t).lua = s.lua := by
  cases s; rfl

theorem Runtime.log_server (t : String) (s : Runtime) : (s.log t).server = s.server := by
  cases s; rfl

theorem Runtime.log_hookEnabled (t : String) (s : Runtime) :
    (s.log t).hookEnabled = s.hookEnabled := by
  cases s; rfl

theorem Runtime.log_nextObject (t : String) (s : Runtime) :
    (s.log t).nextObject = s.nextObject := by
  cases s; rfl

theorem forLoop_clearEntry_dataTables (k : DataKind) (n : Nat) (s : Runtime) :
    (forLoop n (clearEntry k) s).dataTables
      = (fun k₂ i₂ => if k₂ = k ∧ i₂ < n then none else s.dataTables k₂ i₂) :=
  (forLoop_clearEntry k n s).1

theorem forLoop_clearEntry_events (k : DataKind) (n : Nat) (s : Runtime) :
    (forLoop n (clearEntry k) s).events
      = s.events ++ (List.range n).filterMap
          (fun i => (s.dataTables k i).map (Event.deleteTable k i)) :=
  (forLoop_clearEntry k n s).2.1

theorem forLoop_clearEntry_host (k : DataKind) (n : Nat) (s : Runtime) :
    (forLoop n (clearEntry k) s).host = s.host := (forLoop_clearEntry k n s).2.2.1

theorem forLoop_clearEntry_lua (k : DataKind) (n : Nat) (s : Runtime) :
    (forLoop n (clearEntry k) s).lua = s.lua := (forLoop_clearEntry k n s).2.2.2.1

theorem forLoop_clearEntry_server (k : DataKind) (n : Nat) (s : Runtime) :
    (forLoop n (clearEntry k) s).server = s.server := (forLoop_clearEntry k n s).2.2.2.2.1

theorem forLoop_clearEntry_hookEnabled (k : DataKind) (n : Nat) (s : Runtime) :
    (forLoop n (clearEntry k) s).hookEnabled = s.hookEnabled :=
  (forLoop_clearEntry k n s).2.2.2.2.2.1

theorem forLoop_clearEntry_nextObject (k : DataKind) (n : Nat) (s : Runtime) :
    (forLoop n (clearEntry k) s).nextObject = s.nextObject :=
  (forLoop_clearEntry k n s).2.2.2.2.2.2

theorem teardown_dataTables (env : LuaEnv) (s : Runtime) :
    (teardown env s).dataTables = clearedTables s.dataTables := by
  simp only [teardown, Runtime.emit_dataTables, Runtime.log_dataTables,
    forLoop_clearEntry_dataTables]
  funext k i
  cases k <;> simp [clearedTables, DataKind.capacity]

theorem teardown_host (env : LuaEnv) (s : Runtime) :
    (teardown env s).host = Console_log (env.LUA_PREFIX ++ "Resetting state...\n") s.host := by
  simp only [teardown, Runtime.emit_host, Runtime.log_host, forLoop_clearEntry_host]

theorem teardown_lua (env : LuaEnv) (s : Runtime) : (teardown env s).lua = s.lua := by
  simp only [teardown, Runtime.emit_lua, Runtime.log_lua, forLoop_clearEntry_lua]

theorem teardown_server (env : LuaEnv) (s : Runtime) : (teardown env s).server = s.server := by
  simp only [teardown, Runtime.emit_server, Runtime.log_server, forLoop_clearEntry_server]

theorem teardown_hookEnabled (env : LuaEnv) (s : Runtime) :
    (teardown env s).hookEnabled = s.hookEnabled := by
  simp only [teardown, Runtime.emit_hookEnabled, Runtime.log_hookEnabled,
    forLoop_clearEntry_hookEnabled]

theorem teardown_nextObject (env : LuaEnv) (s : Runtime) :
    (teardown env s).nextObject = s.nextObject := by
  simp only [teardown, Runtime.emit_nextObject, Runtime.log_nextObject,
    forLoop_clearEntry_nextObject]

theorem teardown_events (env : LuaEnv) (s : Runtime) :
    (teardown env s).events
      = s.events ++ [Event.log (env.LUA_PREFIX ++ "Resetting state...\n"),
          Event.deleteServer s.server]
        ++ expectedDeletes s.dataTables ++ [Event.deleteLua s.lua] := by
  simp only [teardown, Runtime.emit_events, Runtime.log_events, forLoop_clearEntry_events,
    Runtime.emit_lua, Runtime.log_lua, forLoop_clearEntry_lua, Runtime.emit_server,
    Runtime.log_server, Runtime.emit_dataTables, Runtime.log_dataTables,
    forLoop_clearEntry_dataTables]
  simp [expectedDeletes, DataKind.all, List.flatMap, DataKind.capacity]

/-! ## Lemmas on the definition phase of `luaInit` -/

/-- One item of the definition phase appends its events and leaves the host,
    the interpreter pointer and the side-tables alone. -/
theorem runDefine_frame (s : Runtime) (d : Define) :
    (runDefine s d).host = s.host ∧ (runDefine s d).lua = s.lua
    ∧ (runDefine s d).dataTables = s.dataTables
    ∧ (runDefine s d).events = s.events ++ d.events s.nextObject := by
  cases d <;> simp only [runDefine] <;> (try split) <;> simp

theorem runDefine_noServer (s : Runtime) (d : Define) (h : d.isNewServer = false) :
    (runDefine s d).server = s.server ∧ (runDefine s d).nextObject = s.nextObject
    ∧ (runDefine s d).hookEnabled
        = if d.clearsHooks then (fun _ => false) else s.hookEnabled := by
  cases d <;> simp only [runDefine] <;> (try split) <;>
    (simp_all [Define.isNewServer, Define.clearsHooks]; try rfl)

theorem runDefine_newServer (s : Runtime) :
    (runDefine s Define.newServer).server = some s.nextObject
    ∧ (runDefine s Define.newServer).nextObject = s.nextObject + 1
    ∧ (runDefine s Define.newServer).hookEnabled = s.hookEnabled := by
  simp [runDefine]

/-- A run of items without `server = new Server();`. -/
theorem foldl_runDefine_noServer (ds : List Define)
    (h : ds.all (fun d => !d.isNewServer) = true) (s : Runtime) :
    (ds.foldl runDefine s).host = s.host ∧ (ds.foldl runDefine s).lua = s.lua
    ∧ (ds.foldl runDefine s).dataTables = s.dataTables
    ∧ (ds.foldl runDefine s).events = s.events ++ definesEvents s.nextObject ds
    ∧ (ds.foldl runDefine s).server = s.server
    ∧ (ds.foldl runDefine s).nextObject = s.nextObject
    ∧ (ds.foldl runDefine s).hookEnabled
        = if ds.any Define.clearsHooks then (fun _ => false) else s.hookEnabled := by
  induction ds generalizing s with
  | nil => simp [definesEvents]
  | cons d ds ih =>
    simp only [List.all_cons, Bool.and_eq_true, Bool.not_eq_true'] at h
    obtain ⟨f1, f2, f3, f4⟩ := runDefine_frame s d
    obtain ⟨n1, n2, n3⟩ := runDefine_noServer s d h.1
    obtain ⟨i1, i2, i3, i4, i5, i6, i7⟩ := ih h.2 (runDefine s d)
    rw [List.foldl_cons]
    refine ⟨i1.trans f1, i2.trans f2, i3.trans f3, ?_, i5.trans n1, i6.trans n2, ?_⟩
    · rw [i4, f4, n2, definesEvents, h.1]
      simp
    · rw [i7, n3, List.any_cons]
      cases hd : d.clearsHooks <;> cases hds : ds.any Define.clearsHooks <;> simp

theorem definesEvents_append_noServer (n : Nat) (a b : List Define)
    (h : a.all (fun d => !d.isNewServer) = true) :
    definesEvents n (a ++ b) = definesEvents n a ++ definesEvents n b := by
  induction a with
  | nil => simp [definesEvents]
  | cons d a ih =>
    simp only [List.all_cons, Bool.and_eq_true, Bool.not_eq_true'] at h
    simp [definesEvents, h.1, ih h.2]

/-- The items of `luaInit` after `server = new Server();`. -/
theorem luaInitDefines_split :
    luaInitDefines = definesServer ++ Define.newServer ::
      (definesObjects1 ++ definesObjects2 ++ definesObjects3 ++ definesApi
        ++ definesEntityTables ++ definesMemory) := rfl

theorem definesServer_noServer :
    definesServer.all (fun d => !d.isNewServer) = true := by decide

theorem definesRest_noServer :
    (definesObjects1 ++ definesObjects2 ++ definesObjects3 ++ definesApi
      ++ definesEntityTables ++ definesMemory).all (fun d => !d.isNewServer) = true := by
  simp only [List.all_append, Bool.and_eq_true]
  refine ⟨⟨⟨⟨⟨?_, ?_⟩, ?_⟩, ?_⟩, ?_⟩, ?_⟩ <;> decide

theorem definesApi_clearsHooks : definesApi.any Define.clearsHooks = true := by decide

theorem definesEvents_luaInitDefines (n : Nat) :
    definesEvents n luaInitDefines
      = definesEvents n definesServer ++ Event.newServer n ::
          definesEvents (n + 1) (definesObjects1 ++ definesObjects2 ++ definesObjects3
            ++ definesApi ++ definesEntityTables ++ definesMemory) := by
  rw [luaInitDefines_split, definesEvents_append_noServer n _ _ definesServer_noServer]
  simp [definesEvents, Define.events, Define.isNewServer]

/-- What the definition phase of `luaInit` does. -/
theorem defines_spec (s : Runtime) :
    (luaInitDefines.foldl runDefine s).host = s.host
    ∧ (luaInitDefines.foldl runDefine s).lua = s.lua
    ∧ (luaInitDefines.foldl runDefine s).dataTables = s.dataTables
    ∧ (luaInitDefines.foldl runDefine s).events
        = s.events ++ definesEvents s.nextObject luaInitDefines
    ∧ (luaInitDefines.foldl runDefine s).server = some s.nextObject
    ∧ (luaInitDefines.foldl runDefine s).nextObject = s.nextObject + 1
    ∧ (luaInitDefines.foldl runDefine s).hookEnabled = (fun _ => false) := by
  rw [definesEvents_luaInitDefines, luaInitDefines_split, List.foldl_append, List.foldl_cons]
  obtain ⟨a1, a2, a3, a4, a5, a6, a7⟩ :=
    foldl_runDefine_noServer definesServer definesServer_noServer s
  obtain ⟨f1, f2, f3, f4⟩ := runDefine_frame (definesServer.foldl runDefine s) Define.newServer
  obtain ⟨n1, n2, n3⟩ := runDefine_newServer (definesServer.foldl runDefine s)
  obtain ⟨c1, c2, c3, c4, c5, c6, c7⟩ := foldl_runDefine_noServer _ definesRest_noServer
    (runDefine (definesServer.foldl runDefine s) Define.newServer)
  refine ⟨c1.trans (f1.trans a1), c2.trans (f2.trans a2), c3.trans (f3.trans a3), ?_,
    ?_, ?_, ?_⟩
  · rw [c4, f4, a4, n2, a6]
    simp [Define.events]
  · rw [c5, n1, a6]
  · rw [c6, n2, a6]
  · rw [c7]
    simp [List.any_append, definesApi_clearsHooks]

/-- What the bootstrap phase does when the script was loaded. -/
theorem runBootstrap_spec (env : LuaEnv) (s : Runtime) (w : ScriptWorld × Bool)
    (hw : w = env.bootstrap (ScriptWorld.mk s.host.mem s.dataTables s.hookEnabled)) :
    (runBootstrap env s).host
        = { s.host with
            mem := w.1.mem,
            log := s.host.log ++ (if w.2 then [env.LUA_PREFIX ++ "No problems!\n"] else []) }
    ∧ (runBootstrap env s).lua = s.lua
    ∧ (runBootstrap env s).dataTables = w.1.dataTables
    ∧ (runBootstrap env s).events
        = s.events ++ ([Event.runScript, Event.noLuaCallError w.2]
            ++ (if w.2 then [Event.log (env.LUA_PREFIX ++ "No problems!\n")] else []))
    ∧ (runBootstrap env s).server = s.server
    ∧ (runBootstrap env s).nextObject = s.nextObject
    ∧ (runBootstrap env s).hookEnabled = w.1.hookEnabled := by
  subst hw
  unfold runBootstrap
  cases h : (env.bootstrap (ScriptWorld.mk s.host.mem s.dataTables s.hookEnabled)).2 <;>
    simp [h, Runtime.emit, Runtime.log, Console_log]

/-- What `luaInit` does after the `if (redo)`/`else`. -/
theorem rebuild_spec (env : LuaEnv) (s : Runtime) (w : ScriptWorld × Bool)
    (hw : w = env.bootstrap (ScriptWorld.mk s.host.mem s.dataTables (fun _ => false))) :
    (rebuild env s).host
        = { s.host with
            mem := if env.loadFails then s.host.mem else w.1.mem,
            log := s.host.log ++ ([env.LUA_PREFIX ++ "Defining...\n",
                env.LUA_PREFIX ++ "Running " ++ env.LUA_ENTRY_FILE ++ "...\n"]
              ++ (if !env.loadFails && w.2 then [env.LUA_PREFIX ++ "No problems!\n"] else [])) }
    ∧ (rebuild env s).lua = some s.nextObject
    ∧ (rebuild env s).dataTables = (if env.loadFails then s.dataTables else w.1.dataTables)
    ∧ (rebuild env s).events = s.events ++ rebuildEvents env s.nextObject w.2
    ∧ (rebuild env s).server = some (s.nextObject + 1)
    ∧ (rebuild env s).nextObject = s.nextObject + 2
    ∧ (rebuild env s).hookEnabled
        = (if env.loadFails then (fun _ => false) else w.1.hookEnabled) := by
  subst hw
  simp only [rebuild]
  cases hl : env.loadFails
  · simp only [Bool.false_eq_true, if_false]
    simp only [(runBootstrap_spec env _ _ rfl).1, (runBootstrap_spec env _ _ rfl).2.1,
      (runBootstrap_spec env _ _ rfl).2.2.1, (runBootstrap_spec env _ _ rfl).2.2.2.1,
      (runBootstrap_spec env _ _ rfl).2.2.2.2.1, (runBootstrap_spec env _ _ rfl).2.2.2.2.2.1,
      (runBootstrap_spec env _ _ rfl).2.2.2.2.2.2,
      Runtime.emit_host, Runtime.emit_lua, Runtime.emit_dataTables, Runtime.emit_events,
      Runtime.emit_server, Runtime.emit_nextObject, Runtime.emit_hookEnabled,
      Runtime.log_host, Runtime.log_lua, Runtime.log_dataTables, Runtime.log_events,
      Runtime.log_server, Runtime.log_nextObject, Runtime.log_hookEnabled,
      (defines_spec _).1, (defines_spec _).2.1, (defines_spec _).2.2.1,
      (defines_spec _).2.2.2.1, (defines_spec _).2.2.2.2.1, (defines_spec _).2.2.2.2.2.1,
      (defines_spec _).2.2.2.2.2.2]
    cases hk : (env.bootstrap (ScriptWorld.mk s.host.mem s.dataTables (fun _ => false))).2 <;>
      simp [Console_log, rebuildEvents, bootstrapEvents, hl, hk]
  · simp only [if_true]
    simp only [Runtime.emit_host, Runtime.emit_lua, Runtime.emit_dataTables, Runtime.emit_events,
      Runtime.emit_server, Runtime.emit_nextObject, Runtime.emit_hookEnabled,
      Runtime.log_host, Runtime.log_lua, Runtime.log_dataTables, Runtime.log_events,
      Runtime.log_server, Runtime.log_nextObject, Runtime.log_hookEnabled,
      (defines_spec _).1, (defines_spec _).2.1, (defines_spec _).2.2.1,
      (defines_spec _).2.2.2.1, (defines_spec _).2.2.2.2.1, (defines_spec _).2.2.2.2.2.1,
      (defines_spec _).2.2.2.2.2.2]
    simp [Console_log, rebuildEvents, bootstrapEvents, hl]

/-- What one call `luaInit(redo)` does to the runtime. -/
theorem luaInit_spec (env : LuaEnv) (redo : Bool) (s : Runtime) :
    (luaInit env redo s).host
        = { s.host with
            mem := (scriptEnd env redo s).mem,
            log := s.host.log ++ luaInitLog env redo s }
    ∧ (luaInit env redo s).lua = some s.nextObject
    ∧ (luaInit env redo s).dataTables = (scriptEnd env redo s).dataTables
    ∧ (luaInit env redo s).events = s.events ++ luaInitEvents env redo s
    ∧ (luaInit env redo s).server = some (s.nextObject + 1)
    ∧ (luaInit env redo s).nextObject = s.nextObject + 2
    ∧ (luaInit env redo s).hookEnabled = (scriptEnd env redo s).hookEnabled := by
  simp only [luaInit]
  cases redo
  · simp only [Bool.false_eq_true, if_false]
    simp only [Runtime.emit_host, Runtime.emit_lua, Runtime.emit_dataTables, Runtime.emit_events,
      Runtime.emit_server, Runtime.emit_nextObject, Runtime.emit_hookEnabled,
      (rebuild_spec env _ _ rfl).1, (rebuild_spec env _ _ rfl).2.1,
      (rebuild_spec env _ _ rfl).2.2.1, (rebuild_spec env _ _ rfl).2.2.2.1,
      (rebuild_spec env _ _ rfl).2.2.2.2.1, (rebuild_spec env _ _ rfl).2.2.2.2.2.1,
      (rebuild_spec env _ _ rfl).2.2.2.2.2.2,
      Runtime.log_host, Runtime.log_lua, Runtime.log_dataTables, Runtime.log_events,
      Runtime.log_server, Runtime.log_nextObject, Runtime.log_hookEnabled]
    cases hl : env.loadFails <;>
      simp [Console_log, scriptEnd, scriptStart, luaInitLog, luaInitEvents, prefixEvents, hl]
  · simp only [if_true]
    simp only [Runtime.emit_host, Runtime.emit_lua, Runtime.emit_dataTables, Runtime.emit_events,
      Runtime.emit_server, Runtime.emit_nextObject, Runtime.emit_hookEnabled,
      (rebuild_spec env _ _ rfl).1, (rebuild_spec env _ _ rfl).2.1,
      (rebuild_spec env _ _ rfl).2.2.1, (rebuild_spec env _ _ rfl).2.2.2.1,
      (rebuild_spec env _ _ rfl).2.2.2.2.1, (rebuild_spec env _ _ rfl).2.2.2.2.2.1,
      (rebuild_spec env _ _ rfl).2.2.2.2.2.2,
      teardown_host, teardown_lua, teardown_dataTables, teardown_events, teardown_server,
      teardown_nextObject, teardown_hookEnabled]
    cases hl : env.loadFails <;>
      simp [Console_log, scriptEnd, scriptStart, luaInitLog, luaInitEvents, prefixEvents, hl]

/-! ## Lemmas on the trace of `luaInit` -/

theorem Define.events_isBinding (n : Nat) (d : Define) (h : d.isNewServer = false) :
    ∀ e ∈ d.events n, e.isBinding = true := by
  cases d with
  | usertype type luaName constructors members =>
    intro e he
    simp only [Define.events, List.mem_cons, List.mem_map] at he
    rcases he with rfl | ⟨m, _, rfl⟩ <;> rfl
  | newServer => simp [Define.isNewServer] at h
  | global name value =>
    intro e he
    simp only [Define.events, List.mem_singleton] at he
    subst he
    rfl
  | table var name body =>
    intro e he
    simp only [Define.events, List.mem_cons, List.mem_map] at he
    rcases he with rfl | rfl | ⟨st, _, rfl⟩
    · rfl
    · rfl
    · cases st <;> rfl

/-- Items other than `server = new Server();` only bind names. -/
theorem definesEvents_isBinding (ds : List Define)
    (h : ds.all (fun d => !d.isNewServer) = true) (n : Nat) :
    ∀ e ∈ definesEvents n ds, e.isBinding = true := by
  induction ds generalizing n with
  | nil => simp [definesEvents]
  | cons d ds ih =>
    simp only [List.all_cons, Bool.and_eq_true, Bool.not_eq_true'] at h
    intro e he
    simp only [definesEvents, List.mem_append] at he
    rcases he with he | he
    · exact Define.events_isBinding n d h.1 e he
    · exact ih h.2 _ e he

/-- Every event of the definition phase of `luaInit` binds a name or is the
    construction of the Server object numbered `n`. -/
theorem definesEvents_luaInitDefines_mem (n : Nat) :
    ∀ e ∈ definesEvents n luaInitDefines, e.isBinding = true ∨ e = Event.newServer n := by
  intro e he
  rw [definesEvents_luaInitDefines, List.mem_append, List.mem_cons] at he
  rcases he with he | rfl | he
  · exact Or.inl (definesEvents_isBinding _ definesServer_noServer n e he)
  · exact Or.inr rfl
  · exact Or.inl (definesEvents_isBinding _ definesRest_noServer (n + 1) e he)

theorem expectedDeletes_mem (tables : DataKind → Nat → Option Nat) :
    ∀ e ∈ expectedDeletes tables, ∃ k i t, e = Event.deleteTable k i t
      ∧ i < k.capacity ∧ tables k i = some t := by
  intro e he
  simp only [expectedDeletes, List.mem_flatMap, List.mem_filterMap, List.mem_range,
    Option.map_eq_some'] at he
  obtain ⟨k, _, i, hi, t, ht, rfl⟩ := he
  exact ⟨k, i, t, rfl, hi, ht⟩

theorem mem_expectedDeletes (tables : DataKind → Nat → Option Nat) (k : DataKind) (i t : Nat)
    (hi : i < k.capacity) (ht : tables k i = some t) :
    Event.deleteTable k i t ∈ expectedDeletes tables := by
  simp only [expectedDeletes, List.mem_flatMap, List.mem_filterMap, List.mem_range,
    Option.map_eq_some']
  exact ⟨k, by cases k <;> simp [DataKind.all], i, hi, t, ht, rfl⟩

theorem bootstrapEvents_mem (env : LuaEnv) (ok : Bool) :
    ∀ e ∈ bootstrapEvents env ok, (∃ t, e = Event.log t) ∨ (∃ f, e = Event.loadFile f)
      ∨ (∃ b, e = Event.noLuaCallError b) ∨ e = Event.runScript := by
  cases hl : env.loadFails <;> cases ok <;> simp [bootstrapEvents, hl]

/-- How often one clearing loop destroys a given table. -/
theorem count_loop_deletes (tables : DataKind → Nat → Option Nat) (k₂ k : DataKind)
    (i t n : Nat) :
    (((List.range n).filterMap fun j => (tables k₂ j).map (Event.deleteTable k₂ j)).count
        (Event.deleteTable k i t))
      = if k₂ = k ∧ i < n ∧ tables k i = some t then 1 else 0 := by
  induction n with
  | zero => simp
  | succ n ih =>
    rw [List.range_succ, List.filterMap_append, List.count_append, ih]
    by_cases hk : k₂ = k
    · subst hk
      by_cases hi : i = n
      · subst hi
        cases h : tables k₂ i with
        | none => simp [h]
        | some x =>
          by_cases hx : x = t
          · subst hx
            simp [h]
          · have hx' : ¬ t = x := fun e => hx e.symm
            simp [h, hx, hx']
      · have h1 : (i < n + 1) = (i < n) := by
          apply propext
          omega
        have hi' : ¬ n = i := fun e => hi e.symm
        cases h : tables k₂ n <;> simp [h, h1, hi, hi', List.count_cons]
    · cases h : tables k₂ n <;> simp [h, hk, List.count_cons]

/-- A reset destroys each non-null side-table entry below the capacity once, and
    no other table. -/
theorem count_expectedDeletes (tables : DataKind → Nat → Option Nat) (k : DataKind)
    (i t : Nat) :
    (expectedDeletes tables).count (Event.deleteTable k i t)
      = if i < k.capacity ∧ tables k i = some t then 1 else 0 := by
  simp only [expectedDeletes, DataKind.all, List.flatMap_cons, List.flatMap_nil,
    List.count_append, count_loop_deletes, List.count_nil]
  cases k <;> simp

theorem count_definesEvents_deleteTable (n : Nat) (k : DataKind) (i t : Nat) :
    (definesEvents n luaInitDefines).count (Event.deleteTable k i t) = 0 := by
  apply List.count_eq_zero_of_not_mem
  intro h
  rcases definesEvents_luaInitDefines_mem n _ h with h | h
  · simp [Event.isBinding] at h
  · simp at h

theorem count_bootstrapEvents_deleteTable (env : LuaEnv) (ok : Bool) (k : DataKind)
    (i t : Nat) :
    (bootstrapEvents env ok).count (Event.deleteTable k i t) = 0 := by
  apply List.count_eq_zero_of_not_mem
  intro h
  rcases bootstrapEvents_mem env ok _ h with ⟨_, h⟩ | ⟨_, h⟩ | ⟨_, h⟩ | h <;> simp at h

theorem count_luaInitEvents_deleteTable (env : LuaEnv) (s : Runtime) (k : DataKind)
    (i t : Nat) :
    (luaInitEvents env true s).count (Event.deleteTable k i t)
      = if i < k.capacity ∧ s.dataTables k i = some t then 1 else 0 := by
  simp only [luaInitEvents, prefixEvents, rebuildEvents, if_true, List.count_append,
    count_expectedDeletes, count_definesEvents_deleteTable, count_bootstrapEvents_deleteTable]
  simp [List.count_cons]

/-! ## C12: a reset empties the side-tables -/

/-- C12, counterexample: after `luaInit(true)` whose bootstrap script reads
    `players[0].data`, the players side-table is not empty at index 0, which is
    below the capacity. -/
theorem luaInit_reset_refills_counterexample :
    ¬ (∀ k i, i < DataKind.capacity k →
        (luaInit touchingEnv true sampleRuntime).dataTables k i = none) := by
  intro h
  have h0 := h DataKind.players 0 (by decide)
  rw [(luaInit_spec touchingEnv true sampleRuntime).2.2.1] at h0
  simp [scriptEnd, scriptStart, touchingEnv, getDataTable, clearedTables,
    DataKind.capacity, maxNumberOfPlayers] at h0

/-- C12 (amended): when the teardown of `luaInit(true)` is complete, every
    side-table entry below the capacity of its kind is null, whatever the tables
    held before; during the call each entry that was non-null is destroyed exactly
    once and no other table is destroyed; the bootstrap script of the new
    interpreter starts from all-null side-tables, and the side-tables at the end
    of the call are what that script left (all null if it could not be loaded). -/
theorem luaInit_reset_clears_side_tables (env : LuaEnv) (s : Runtime) :
    luaInit env true s
        = (rebuild env (teardown env (s.emit Event.lock))).emit Event.unlock
    ∧ (∀ k i, i < DataKind.capacity k →
        (teardown env (s.emit Event.lock)).dataTables k i = none)
    ∧ (luaInit env true s).events = s.events ++ luaInitEvents env true s
    ∧ (∀ k i t, (luaInitEvents env true s).count (Event.deleteTable k i t)
        = if i < DataKind.capacity k ∧ s.dataTables k i = some t then 1 else 0)
    ∧ (∀ k i, i < DataKind.capacity k → (scriptStart true s).dataTables k i = none)
    ∧ (luaInit env true s).dataTables
        = (if env.loadFails then (scriptStart true s).dataTables
           else (env.bootstrap (scriptStart true s)).1.dataTables) := by
  refine ⟨by simp only [luaInit, if_true], ?_, (luaInit_spec env true s).2.2.2.1,
    count_luaInitEvents_deleteTable env s, ?_, ?_⟩
  · intro k i hi
    rw [teardown_dataTables, Runtime.emit_dataTables]
    simp [clearedTables, hi]
  · intro k i hi
    simp [scriptStart, clearedTables, hi]
  · rw [(luaInit_spec env true s).2.2.1]
    unfold scriptEnd
    cases env.loadFails <;> simp

/-! ## Lemmas on the objects live along a trace -/

/-- A binding event destroys no side-table and neither constructs nor destroys an
    interpreter or a Server object. -/
theorem Event.isBinding_neutral (e : Event) (h : e.isBinding = true) :
    e.deletedTable? = none ∧ ∀ c, e.created? c = none ∧ e.destroyed? c = none := by
  cases e <;> simp_all [Event.isBinding, Event.deletedTable?, Event.created?, Event.destroyed?]

theorem liveAfter_append (c : ObjClass) (live : List Nat) (a b : List Event) :
    liveAfter c live (a ++ b) = (liveAfter c live a).bind (fun l => liveAfter c l b) := by
  induction a generalizing live with
  | nil => simp [liveAfter]
  | cons e a ih =>
    simp only [List.cons_append, liveAfter]
    cases e.created? c with
    | some id =>
      by_cases hl : live = []
      · simp [hl, ih]
      · simp [hl]
    | none =>
      cases e.destroyed? c with
      | some id => simp [ih]
      | none => simp [ih]

/-- Events that neither construct nor destroy an object of class `c` leave the
    live objects as they are. -/
theorem liveAfter_neutral (c : ObjClass) (live : List Nat) (es : List Event)
    (h : ∀ e ∈ es, e.created? c = none ∧ e.destroyed? c = none) :
    liveAfter c live es = some live := by
  induction es with
  | nil => simp [liveAfter]
  | cons e es ih =>
    have he := h e (List.mem_cons_self e es)
    simp only [liveAfter, he.1, he.2]
    exact ih (fun x hx => h x (List.mem_cons_of_mem e hx))

theorem expectedDeletes_neutral (tables : DataKind → Nat → Option Nat) (c : ObjClass) :
    ∀ e ∈ expectedDeletes tables, e.created? c = none ∧ e.destroyed? c = none := by
  intro e he
  obtain ⟨k, i, t, rfl, _, _⟩ := expectedDeletes_mem tables e he
  simp [Event.created?, Event.destroyed?]

theorem bootstrapEvents_neutral (env : LuaEnv) (ok : Bool) (c : ObjClass) :
    ∀ e ∈ bootstrapEvents env ok, e.created? c = none ∧ e.destroyed? c = none := by
  intro e he
  rcases bootstrapEvents_mem env ok e he with ⟨_, rfl⟩ | ⟨_, rfl⟩ | ⟨_, rfl⟩ | rfl <;>
    simp [Event.created?, Event.destroyed?]

theorem definesEvents_neutral (ds : List Define)
    (h : ds.all (fun d => !d.isNewServer) = true) (n : Nat) (c : ObjClass) :
    ∀ e ∈ definesEvents n ds, e.created? c = none ∧ e.destroyed? c = none := by
  intro e he
  exact (Event.isBinding_neutral e (definesEvents_isBinding ds h n e he)).2 c

theorem liveAfter_newServer (id : Nat) (rest : List Event) :
    liveAfter ObjClass.server [] (Event.newServer id :: rest)
      = liveAfter ObjClass.server [id] rest := by
  simp [liveAfter, Event.created?]

/-- The teardown leaves no interpreter live. -/
theorem liveAfter_prefix_interpreter (env : LuaEnv) (s : Runtime) :
    liveAfter ObjClass.interpreter s.lua.toList (prefixEvents env true s) = some [] := by
  simp only [prefixEvents, if_true]
  rw [liveAfter_append, liveAfter_append]
  rw [liveAfter_neutral ObjClass.interpreter _ [_, _] (by
    intro e he
    simp only [List.mem_cons, List.mem_singleton, List.not_mem_nil, or_false] at he
    rcases he with rfl | rfl
    · simp [Event.created?, Event.destroyed?]
    · cases s.server <;> simp [Event.created?, Event.destroyed?])]
  rw [Option.some_bind]
  rw [liveAfter_neutral ObjClass.interpreter _ _ (expectedDeletes_neutral _ _)]
  cases s.lua <;> simp [liveAfter, Event.created?, Event.destroyed?]

/-- The teardown leaves no Server object live. -/
theorem liveAfter_prefix_server (env : LuaEnv) (s : Runtime) :
    liveAfter ObjClass.server s.server.toList (prefixEvents env true s) = some [] := by
  simp only [prefixEvents, if_true]
  rw [liveAfter_append, liveAfter_append]
  have h1 : liveAfter ObjClass.server s.server.toList
      [Event.log (env.LUA_PREFIX ++ "Resetting state...\n"), Event.deleteServer s.server]
      = some [] := by
    cases s.server <;> simp [liveAfter, Event.created?, Event.destroyed?]
  rw [h1]
  rw [Option.some_bind]
  rw [liveAfter_neutral ObjClass.server _ _ (expectedDeletes_neutral _ _)]
  cases s.lua <;> simp [liveAfter, Event.created?, Event.destroyed?]

/-- The rebuild constructs one interpreter. -/
theorem liveAfter_rebuild_interpreter (env : LuaEnv) (n : Nat) (ok : Bool) :
    liveAfter ObjClass.interpreter [] (rebuildEvents env n ok) = some [n] := by
  simp only [rebuildEvents]
  rw [liveAfter_append, liveAfter_append]
  have h1 : liveAfter ObjClass.interpreter []
      [Event.newLua n, Event.log (env.LUA_PREFIX ++ "Defining...\n"),
        Event.defineThreadSafeAPIs] = some [n] := by
    simp [liveAfter, Event.created?, Event.destroyed?]
  rw [h1]
  rw [Option.some_bind]
  rw [liveAfter_neutral ObjClass.interpreter _ (definesEvents (n + 1) luaInitDefines) (by
    intro e he
    rcases definesEvents_luaInitDefines_mem (n + 1) e he with h | rfl
    · exact (Event.isBinding_neutral e h).2 _
    · simp [Event.created?, Event.destroyed?])]
  rw [Option.some_bind]
  exact liveAfter_neutral _ _ _ (bootstrapEvents_neutral env ok _)

/-- The rebuild constructs one Server object. -/
theorem liveAfter_rebuild_server (env : LuaEnv) (n : Nat) (ok : Bool) :
    liveAfter ObjClass.server [] (rebuildEvents env n ok) = some [n + 1] := by
  simp only [rebuildEvents]
  rw [liveAfter_append, liveAfter_append]
  have h1 : liveAfter ObjClass.server []
      [Event.newLua n, Event.log (env.LUA_PREFIX ++ "Defining...\n"),
        Event.defineThreadSafeAPIs] = some [] := by
    simp [liveAfter, Event.created?, Event.destroyed?]
  rw [h1]
  rw [Option.some_bind]
  rw [definesEvents_luaInitDefines, liveAfter_append,
    liveAfter_neutral ObjClass.server _ _
      (definesEvents_neutral _ definesServer_noServer (n + 1) _)]
  rw [Option.some_bind, liveAfter_newServer]
  rw [liveAfter_neutral ObjClass.server _ _
    (definesEvents_neutral _ definesRest_noServer (n + 1 + 1) _)]
  rw [Option.some_bind]
  exact liveAfter_neutral _ _ _ (bootstrapEvents_neutral env ok _)

theorem liveAfter_lock (c : ObjClass) (live : List Nat) :
    liveAfter c live [Event.lock] = some live := by
  simp [liveAfter, Event.created?, Event.destroyed?]

theorem liveAfter_unlock (c : ObjClass) (live : List Nat) :
    liveAfter c live [Event.unlock] = some live := by
  simp [liveAfter, Event.created?, Event.destroyed?]

theorem liveAfter_prefix_false (env : LuaEnv) (s : Runtime) (c : ObjClass) (live : List Nat) :
    liveAfter c live (prefixEvents env false s) = some live := by
  simp [prefixEvents, liveAfter, Event.created?, Event.destroyed?]

/-- Along a reset the live interpreter is destroyed and one is constructed. -/
theorem liveAfter_reset_interpreter (env : LuaEnv) (s : Runtime) :
    liveAfter ObjClass.interpreter s.lua.toList (luaInitEvents env true s)
      = some [s.nextObject] := by
  unfold luaInitEvents
  rw [liveAfter_append, liveAfter_append, liveAfter_append, liveAfter_lock, Option.some_bind,
    liveAfter_prefix_interpreter, Option.some_bind, liveAfter_rebuild_interpreter,
    Option.some_bind, liveAfter_unlock]

/-- Along a reset the live Server object is destroyed and one is constructed. -/
theorem liveAfter_reset_server (env : LuaEnv) (s : Runtime) :
    liveAfter ObjClass.server s.server.toList (luaInitEvents env true s)
      = some [s.nextObject + 1] := by
  unfold luaInitEvents
  rw [liveAfter_append, liveAfter_append, liveAfter_append, liveAfter_lock, Option.some_bind,
    liveAfter_prefix_server, Option.some_bind, liveAfter_rebuild_server,
    Option.some_bind, liveAfter_unlock]

/-- Along an initialization one interpreter and one Server object are constructed. -/
theorem liveAfter_boot (env : LuaEnv) (s : Runtime) :
    liveAfter ObjClass.interpreter [] (luaInitEvents env false s) = some [s.nextObject]
    ∧ liveAfter ObjClass.server [] (luaInitEvents env false s) = some [s.nextObject + 1] := by
  unfold luaInitEvents
  constructor
  · rw [liveAfter_append, liveAfter_append, liveAfter_append, liveAfter_lock, Option.some_bind,
      liveAfter_prefix_false, Option.some_bind, liveAfter_rebuild_interpreter,
      Option.some_bind, liveAfter_unlock]
  · rw [liveAfter_append, liveAfter_append, liveAfter_append, liveAfter_lock, Option.some_bind,
      liveAfter_prefix_false, Option.some_bind, liveAfter_rebuild_server,
      Option.some_bind, liveAfter_unlock]

/-- The invariant of the lifecycle is kept by any number of resets. -/
theorem resets_keep_one_live (resets : List LuaEnv) (s : Runtime) (n : Nat)
    (h1 : s.lua = some n) (h2 : s.server = some (n + 1)) (h3 : s.nextObject = n + 2)
    (h4 : liveAfter ObjClass.interpreter [] s.events = some [n])
    (h5 : liveAfter ObjClass.server [] s.events = some [n + 1]) :
    (resets.foldl (fun s env => luaInit env true s) s).lua = some (n + 2 * resets.length)
    ∧ (resets.foldl (fun s env => luaInit env true s) s).server
        = some (n + 2 * resets.length + 1)
    ∧ (resets.foldl (fun s env => luaInit env true s) s).nextObject
        = n + 2 * resets.length + 2
    ∧ liveAfter ObjClass.interpreter [] (resets.foldl (fun s env => luaInit env true s) s).events
        = some [n + 2 * resets.length]
    ∧ liveAfter ObjClass.server [] (resets.foldl (fun s env => luaInit env true s) s).events
        = some [n + 2 * resets.length + 1] := by
  induction resets generalizing s n with
  | nil => exact ⟨h1, h2, h3, h4, h5⟩
  | cons env resets ih =>
    obtain ⟨_, l2, _, l4, l5, l6, _⟩ := luaInit_spec env true s
    have k4 : liveAfter ObjClass.interpreter [] (luaInit env true s).events
        = some [n + 2] := by
      have := liveAfter_reset_interpreter env s
      rw [h1, h3] at this
      rw [l4, liveAfter_append, h4, Option.some_bind]
      exact this
    have k5 : liveAfter ObjClass.server [] (luaInit env true s).events
        = some [n + 2 + 1] := by
      have := liveAfter_reset_server env s
      rw [h2, h3] at this
      rw [l4, liveAfter_append, h5, Option.some_bind]
      exact this
    have := ih (luaInit env true s) (n + 2) (by rw [l2, h3]) (by rw [l5, h3])
      (by rw [l6, h3]) k4 k5
    rw [List.foldl_cons, List.length_cons]
    have e : n + 2 + 2 * resets.length = n + 2 * (resets.length + 1) := by omega
    rw [e] at this
    exact this

/-! ## C13: the order of destruction in a reset -/

theorem rebuildEvents_unlock (env : LuaEnv) (n : Nat) (ok : Bool) :
    rebuildEvents env n ok ++ [Event.unlock] = Event.newLua n :: afterConstruction env n ok := by
  simp [rebuildEvents, afterConstruction]

theorem afterConstruction_mem (env : LuaEnv) (n : Nat) (ok : Bool) :
    ∀ e ∈ afterConstruction env n ok,
      e.deletedTable? = none ∧ ∀ c, c ≠ ObjClass.server →
        e.created? c = none ∧ e.destroyed? c = none := by
  intro e he
  simp only [afterConstruction, List.mem_append, List.mem_cons, List.mem_singleton,
    List.not_mem_nil, or_false] at he
  rcases he with (((rfl | rfl) | he) | he) | rfl
  · simp [Event.deletedTable?, Event.created?, Event.destroyed?]
  · simp [Event.deletedTable?, Event.created?, Event.destroyed?]
  · rcases definesEvents_luaInitDefines_mem (n + 1) e he with h | rfl
    · exact ⟨(Event.isBinding_neutral e h).1, fun c _ => (Event.isBinding_neutral e h).2 c⟩
    · refine ⟨rfl, fun c hc => ?_⟩
      simp [Event.created?, Event.destroyed?, hc]
  · rcases bootstrapEvents_mem env ok e he with ⟨_, rfl⟩ | ⟨_, rfl⟩ | ⟨_, rfl⟩ | rfl <;>
      simp [Event.deletedTable?, Event.created?, Event.destroyed?]
  · simp [Event.deletedTable?, Event.created?, Event.destroyed?]

/-- C13: the events of `luaInit(true)` are, in this order: the lock, the log line
    and the destruction of the Server object; one destruction for every non-null
    side-table entry below the capacity of its kind, and nothing else; the
    destruction of the current interpreter; the construction of the new
    interpreter; then events that destroy no side-table entry and neither destroy
    nor construct an interpreter. -/
theorem luaInit_reset_destroys_in_order (env : LuaEnv) (s : Runtime) :
    (luaInit env true s).events
      = s.events ++ ([Event.lock, Event.log (env.LUA_PREFIX ++ "Resetting state...\n"),
            Event.deleteServer s.server]
          ++ expectedDeletes s.dataTables
          ++ [Event.deleteLua s.lua, Event.newLua s.nextObject]
          ++ afterConstruction env s.nextObject (env.bootstrap (scriptStart true s)).2)
    ∧ (∀ k i t, (i < DataKind.capacity k ∧ s.dataTables k i = some t)
        ↔ Event.deleteTable k i t ∈ expectedDeletes s.dataTables)
    ∧ (∀ e ∈ expectedDeletes s.dataTables, ∃ k i t, e = Event.deleteTable k i t)
    ∧ (∀ e ∈ afterConstruction env s.nextObject (env.bootstrap (scriptStart true s)).2,
        e.deletedTable? = none ∧ e.destroyed? ObjClass.interpreter = none
          ∧ e.created? ObjClass.interpreter = none) := by
  refine ⟨?_, ?_, ?_, ?_⟩
  · rw [(luaInit_spec env true s).2.2.2.1, luaInitEvents, List.append_assoc _ _ [Event.unlock],
      rebuildEvents_unlock]
    simp [prefixEvents]
  · intro k i t
    constructor
    · intro h
      exact mem_expectedDeletes _ k i t h.1 h.2
    · intro h
      obtain ⟨k₂, i₂, t₂, he, hi, ht⟩ := expectedDeletes_mem _ _ h
      cases he
      exact ⟨hi, ht⟩
  · intro e he
    obtain ⟨k, i, t, h, _, _⟩ := expectedDeletes_mem _ e he
    exact ⟨k, i, t, h⟩
  · intro e he
    obtain ⟨h1, h2⟩ := afterConstruction_mem env _ _ e he
    exact ⟨h1, (h2 ObjClass.interpreter (by decide)).2, (h2 ObjClass.interpreter (by decide)).1⟩

/-! ## C14: a reset rebuilds the runtime with the steps of an initialization -/

theorem steps_append (a b : List Event) : steps (a ++ b) = steps a ++ steps b := by
  simp [steps, List.filterMap_append]

theorem steps_Define_events (n : Nat) (d : Define) : steps (d.events n) = steps (d.events 0) := by
  cases d <;> simp [Define.events, steps, Event.step?]

/-- The steps of the definition phase do not depend on the object numbers. -/
theorem steps_definesEvents (n : Nat) (ds : List Define) :
    steps (definesEvents n ds) = steps (definesEvents 0 ds) := by
  induction ds generalizing n with
  | nil => rfl
  | cons d ds ih =>
    simp only [definesEvents, steps_append]
    rw [steps_Define_events n d, ih (if d.isNewServer = true then n + 1 else n),
      ih (if d.isNewServer = true then 0 + 1 else 0)]

set_option maxRecDepth 100000 in
/-- The definition phase of `luaInit` is 426 bindings, the call of
    `Lua::hook::clear`, and 160 more bindings. -/
theorem steps_luaInitDefines :
    steps (definesEvents 0 luaInitDefines)
      = List.replicate 426 Step.register ++ Step.clearHooks :: List.replicate 160 Step.register := by
  decide

theorem steps_bootstrapEvents (env : LuaEnv) (ok : Bool) :
    steps (bootstrapEvents env ok) = Step.load :: (if env.loadFails then [] else [Step.run]) := by
  cases hl : env.loadFails <;> cases ok <;> simp [bootstrapEvents, steps, Event.step?, hl]

theorem steps_rebuildEvents (env : LuaEnv) (n : Nat) (ok : Bool) :
    steps (rebuildEvents env n ok ++ [Event.unlock])
      = Step.construct :: (List.replicate 427 Step.register ++ Step.clearHooks ::
          (List.replicate 160 Step.register ++ Step.load ::
            (if env.loadFails then [] else [Step.run]))) := by
  have h1 : steps [Event.newLua n, Event.log (env.LUA_PREFIX ++ "Defining...\n"),
      Event.defineThreadSafeAPIs] = [Step.construct, Step.register] := by
    simp [steps, Event.step?]
  have h2 : steps [Event.unlock] = [] := by
    simp [steps, Event.step?]
  have h3 : List.replicate 427 Step.register
      = Step.register :: List.replicate 426 Step.register :=
    List.replicate_succ Step.register 426
  unfold rebuildEvents
  rw [steps_append, steps_append, steps_append, steps_definesEvents, steps_luaInitDefines,
    steps_bootstrapEvents, h1, h2, h3]
  simp only [List.append_assoc, List.cons_append, List.nil_append, List.append_nil]

theorem steps_prefixEvents (env : LuaEnv) (redo : Bool) (s : Runtime) :
    steps (Event.lock :: prefixEvents env redo s) = [] := by
  have h : ∀ es : List Event, (∀ e ∈ es, e.step? = none) → steps es = [] := by
    intro es hes
    simp only [steps, List.filterMap_eq_nil_iff]
    exact hes
  apply h
  intro e he
  cases redo
  · simp [prefixEvents] at he
    rcases he with rfl | rfl <;> rfl
  · simp only [prefixEvents, if_true, List.mem_cons, List.mem_append, List.mem_singleton,
      List.not_mem_nil, or_false] at he
    rcases he with rfl | ((rfl | rfl) | he) | rfl
    · rfl
    · rfl
    · rfl
    · obtain ⟨k, i, t, rfl, _, _⟩ := expectedDeletes_mem _ e he
      rfl
    · rfl

/-- C14: the events of `luaInit(true)` and of `luaInit(false)` in the same
    environment are a prefix without any step of the rebuild (the lock and the
    teardown, or the lock and a log line) followed by events with the same
    sequence of steps on both paths: construct the interpreter, 427 binding steps
    (thread-safe APIs, object model, hook-control API), `Lua::hook::clear`, 160
    more binding steps (the tables registered after the hook table), load the
    bootstrap script and, if it loaded, run it; the script starts with every hook
    binding cleared. -/
theorem luaInit_reset_same_steps (env : LuaEnv) (s₁ s₂ : Runtime) :
    (luaInit env true s₁).events
      = s₁.events ++ ((Event.lock :: prefixEvents env true s₁)
          ++ (rebuildEvents env s₁.nextObject (env.bootstrap (scriptStart true s₁)).2
              ++ [Event.unlock]))
    ∧ (luaInit env false s₂).events
      = s₂.events ++ ((Event.lock :: prefixEvents env false s₂)
          ++ (rebuildEvents env s₂.nextObject (env.bootstrap (scriptStart false s₂)).2
              ++ [Event.unlock]))
    ∧ steps (Event.lock :: prefixEvents env true s₁) = []
    ∧ steps (Event.lock :: prefixEvents env false s₂) = []
    ∧ steps (rebuildEvents env s₁.nextObject (env.bootstrap (scriptStart true s₁)).2
          ++ [Event.unlock])
      = steps (rebuildEvents env s₂.nextObject (env.bootstrap (scriptStart false s₂)).2
          ++ [Event.unlock])
    ∧ steps (rebuildEvents env s₂.nextObject (env.bootstrap (scriptStart false s₂)).2
          ++ [Event.unlock])
      = Step.construct :: (List.replicate 427 Step.register ++ Step.clearHooks ::
          (List.replicate 160 Step.register ++ Step.load ::
            (if env.loadFails then [] else [Step.run])))
    ∧ (scriptStart true s₁).hookEnabled = (fun _ => false)
    ∧ (scriptStart false s₂).hookEnabled = (fun _ => false) := by
  refine ⟨?_, ?_, steps_prefixEvents env true s₁, steps_prefixEvents env false s₂, ?_,
    steps_rebuildEvents env _ _, rfl, rfl⟩
  · rw [(luaInit_spec env true s₁).2.2.2.1, luaInitEvents]
    simp
  · rw [(luaInit_spec env false s₂).2.2.2.1, luaInitEvents]
    simp
  · rw [steps_rebuildEvents, steps_rebuildEvents]

/-! ## C15: one live interpreter and one live Server object -/

/-- C15: after one `luaInit(false)` from the Uninitialized state and any number of
    `luaInit(true)` calls, the pointers `lua` and `server` hold the objects
    constructed last, and the replay of the whole trace, which fails as soon as an
    interpreter (or a Server object) is constructed while another one is live,
    ends with exactly that interpreter (that Server object) live. -/
theorem lifecycle_one_live_instance (boot : LuaEnv) (resets : List LuaEnv) (host : Process) :
    (lifecycle boot resets host).lua = some (2 * resets.length)
    ∧ (lifecycle boot resets host).server = some (2 * resets.length + 1)
    ∧ liveAfter ObjClass.interpreter [] (lifecycle boot resets host).events
        = some [2 * resets.length]
    ∧ liveAfter ObjClass.server [] (lifecycle boot resets host).events
        = some [2 * resets.length + 1] := by
  obtain ⟨_, l2, _, l4, l5, l6, _⟩ := luaInit_spec boot false (Runtime.uninitialized host)
  have n0 : (Runtime.uninitialized host).nextObject = 0 := rfl
  have e0 : (Runtime.uninitialized host).events = [] := rfl
  obtain ⟨b1, b2⟩ := liveAfter_boot boot (Runtime.uninitialized host)
  rw [n0] at l2 l5 l6 b1 b2
  rw [e0, List.nil_append] at l4
  obtain ⟨r1, r2, _, r4, r5⟩ := resets_keep_one_live resets
    (luaInit boot false (Runtime.uninitialized host)) 0 l2 l5 l6
    (by rw [l4]; exact b1) (by rw [l4]; exact b2)
  simp only [Nat.zero_add] at r1 r2 r4 r5
  exact ⟨r1, r2, r4, r5⟩

/-! ## C16: `luaInit` writes no host memory -/

/-- C16: the bootstrap script of `luaInit(redo)` starts from host memory as it was
    before the call, and host memory after the call is what the script left: it
    is unchanged when the script could not be loaded, and every other statement of
    `luaInit` leaves every byte as it is. -/
theorem luaInit_writes_no_host_memory (env : LuaEnv) (redo : Bool) (s : Runtime) :
    (scriptStart redo s).mem = s.host.mem
    ∧ (luaInit env redo s).host.mem
        = (if env.loadFails then s.host.mem else (env.bootstrap (scriptStart redo s)).1.mem)
    ∧ (teardown env (s.emit Event.lock)).host.mem = s.host.mem
    ∧ (∀ t : Runtime, (luaInitDefines.foldl runDefine t).host.mem = t.host.mem) := by
  refine ⟨rfl, ?_, ?_, ?_⟩
  · rw [(luaInit_spec env redo s).1]
    unfold scriptEnd
    cases env.loadFails <;> simp [scriptStart]
  · rw [teardown_host, Runtime.emit_host]
    simp [Console_log]
  · intro t
    rw [(defines_spec t).1]

/-! ## C17: `luaInit` installs and removes no hook -/

/-- C17: a call `luaInit(redo)` leaves the record of installed hooks, the located
    host functions and the page protections as they were, and changes the host
    process only in memory (through the script) and in the console log; the
    script bindings of the hooks are all cleared when the bootstrap script starts,
    and after the call they are what the script set (all cleared if it could not
    be loaded). -/
theorem luaInit_keeps_installed_hooks (env : LuaEnv) (redo : Bool) (s : Runtime) :
    (luaInit env redo s).host.installs = s.host.installs
    ∧ (luaInit env redo s).host.engine = s.host.engine
    ∧ (luaInit env redo s).host.prot = s.host.prot
    ∧ (luaInit env redo s).host.mprotects = s.host.mprotects
    ∧ (luaInit env redo s).host
        = { s.host with mem := (luaInit env redo s).host.mem,
                        log := (luaInit env redo s).host.log }
    ∧ (scriptStart redo s).hookEnabled = (fun _ => false)
    ∧ (luaInit env redo s).hookEnabled
        = (if env.loadFails then (fun _ => false)
           else (env.bootstrap (scriptStart redo s)).1.hookEnabled) := by
  have h := (luaInit_spec env redo s).1
  refine ⟨by rw [h], by rw [h], by rw [h], by rw [h], by rw [h], rfl, ?_⟩
  rw [(luaInit_spec env redo s).2.2.2.2.2.2]
  unfold scriptEnd
  cases env.loadFails <;> simp [scriptStart]

/-! ## C18: the entity-kind tables -/

theorem tableBody_bullets :
    tableBody "bullets"
      = some [TableStmt.field "getCount" "Lua::bullets::getCount",
          TableStmt.field "getAll" "Lua::bullets::getAll",
          TableStmt.field "create" "Lua::bullets::create"] := by
  decide

theorem entityTables_check :
    entityTableNames.all (fun name =>
      hasCountAndAll name && (hasIndexAndLen name == (name != "bullets"))) = true := by
  decide

/-- C18, counterexample: the table `bullets` is one of the entity-kind tables, yet
    it has no metatable: neither an `__index` handler nor a `__len`. -/
theorem bullets_table_counterexample :
    ¬ (∀ name ∈ entityTableNames, hasCountAndAll name = true ∧ hasIndexAndLen name = true) := by
  intro h
  have hb := (h "bullets" (by decide)).2
  revert hb
  decide

/-- C18 (amended): every entity-kind table that `luaInit` registers has `getCount`
    and `getAll`; every one of them except `bullets` has an `__index` handler and
    a `__len` bound to the same function as `getCount`, and `bullets` has no
    metatable. -/
theorem entity_tables_expose_registry (name : String) (h : name ∈ entityTableNames) :
    hasCountAndAll name = true ∧ (hasIndexAndLen name = true ↔ name ≠ "bullets")
    ∧ ((tableBody "bullets").map (fun body => body.contains TableStmt.metatable) = some false) := by
  have hall := entityTables_check
  rw [List.all_eq_true] at hall
  have hn := hall name h
  simp only [Bool.and_eq_true, beq_iff_eq] at hn
  refine ⟨hn.1, ?_, by rw [tableBody_bullets]; decide⟩
  rw [hn.2]
  simp

theorem entity_tables_expose_registry_witness :
    "players" ∈ entityTableNames ∧ hasCountAndAll "players" = true
      ∧ (hasIndexAndLen "players" = true ↔ "players" ≠ "bullets") :=
  ⟨by decide, (entity_tables_expose_registry "players" (by decide)).1,
    (entity_tables_expose_registry "players" (by decide)).2.1⟩

/-! ## C19: the create and remove operations and the hooks -/

/-- C19, counterexample: `items.createRope` is registered and its host function
    `Engine::createRope` is located, but `installHooks` has no `INSTALL(createRope)`. -/
theorem createRope_not_hooked_counterexample :
    ¬ (∀ op : ScriptOp, op.registered = true →
        located op.hostFunction = true ∧ hooked op.hostFunction = true) := by
  intro h
  have hr := (h ScriptOp.itemsCreateRope (by decide)).2
  revert hr
  decide

/-- C19 (amended): every create and remove operation exposed to scripts is
    registered by `luaInit` and its host function is located by `locateMemory`;
    the host function is hooked by `installHooks` for every operation except
    `items.createRope`, whose host function `Engine::createRope` is located but
    not hooked. -/
theorem create_remove_located_and_hooked (op : ScriptOp) :
    op.registered = true ∧ located op.hostFunction = true
    ∧ (hooked op.hostFunction = true ↔ op ≠ ScriptOp.itemsCreateRope) := by
  cases op <;> decide

/-! ## C20: the liveness flag -/

theorem write32_apply (mem : Nat → Nat) (a v x : Nat) :
    write32 mem a v x
      = if x = (((a + 1) % WORD + 1) % WORD + 1) % WORD then v / 16777216 % 256
        else if x = ((a + 1) % WORD + 1) % WORD then v / 65536 % 256
        else if x = (a + 1) % WORD then v / 256 % 256
        else if x = a then v % 256
        else mem x := rfl

/-- Reading a 32-bit value back from where it was stored. -/
theorem read32_write32 (mem : Nat → Nat) (a v : Nat) (hv : v < 4294967296) :
    read32 (write32 mem a v) a = v := by
  have e1 : ((a + 1) % WORD + 1) % WORD = (a + 2) % WORD := by
    unfold WORD at *
    omega
  have e2 : ((a + 2) % WORD + 1) % WORD = (a + 3) % WORD := by
    unfold WORD at *
    omega
  have n01 : a ≠ (a + 1) % WORD := by
    unfold WORD at *
    omega
  have n02 : a ≠ (a + 2) % WORD := by
    unfold WORD at *
    omega
  have n03 : a ≠ (a + 3) % WORD := by
    unfold WORD at *
    omega
  have n12 : (a + 1) % WORD ≠ (a + 2) % WORD := by
    unfold WORD at *
    omega
  have n13 : (a + 1) % WORD ≠ (a + 3) % WORD := by
    unfold WORD at *
    omega
  have n23 : (a + 2) % WORD ≠ (a + 3) % WORD := by
    unfold WORD at *
    omega
  simp only [read32, write32_apply, e1, e2]
  simp only [n01, n02, n03, n12, n13, n23, if_false, if_true]
  omega

/-- A 32-bit store changes the four bytes of its target only. -/
theorem write32_frame (mem : Nat → Nat) (a v x : Nat)
    (h0 : x ≠ a) (h1 : x ≠ (a + 1) % WORD) (h2 : x ≠ (a + 2) % WORD)
    (h3 : x ≠ (a + 3) % WORD) :
    write32 mem a v x = mem x := by
  have e1 : ((a + 1) % WORD + 1) % WORD = (a + 2) % WORD := by
    unfold WORD at *
    omega
  have e2 : ((a + 2) % WORD + 1) % WORD = (a + 3) % WORD := by
    unfold WORD at *
    omega
  rw [write32_apply, e1, e2]
  simp only [h0, h1, h2, h3, if_false]

theorem ActiveStruct.activeAddress_eq (k : ActiveStruct) (this : Nat) :
    k.activeAddress this = this % WORD := by
  cases k <;> rfl

/-- C20: for each of the seven structs, `getIsActive` is true exactly when the
    32-bit `active` field, which lies at the start of the struct, is non-zero;
    `getIsActive` after `setIsActive(b)` returns `b`; and `setIsActive` leaves
    every byte outside the four bytes of `active` as it was. -/
theorem setIsActive_getIsActive (k : ActiveStruct) (mem : Nat → Nat) (this : Nat) (b : Bool) :
    k.activeAddress this = this % WORD
    ∧ (getIsActive k mem this = true ↔ read32 mem (k.activeAddress this) ≠ 0)
    ∧ getIsActive k (setIsActive k this b mem) this = b
    ∧ (∀ x, x ≠ k.activeAddress this → x ≠ (k.activeAddress this + 1) % WORD →
        x ≠ (k.activeAddress this + 2) % WORD → x ≠ (k.activeAddress this + 3) % WORD →
        setIsActive k this b mem x = mem x) := by
  refine ⟨ActiveStruct.activeAddress_eq k this, ?_, ?_, ?_⟩
  · simp [getIsActive]
  · unfold getIsActive setIsActive
    rw [read32_write32 _ _ _ (by cases b <;> decide)]
    cases b <;> rfl
  · intro x h0 h1 h2 h3
    exact write32_frame mem _ _ x h0 h1 h2 h3

/-! ## C21: the runtime-reset lock -/

theorem prefixEvents_mem (env : LuaEnv) (redo : Bool) (s : Runtime) :
    ∀ e ∈ prefixEvents env redo s, e ≠ Event.lock ∧ e ≠ Event.unlock := by
  intro e he
  cases redo
  · simp [prefixEvents] at he
    subst he
    simp
  · simp only [prefixEvents, if_true, List.mem_append, List.mem_cons, List.mem_singleton,
      List.not_mem_nil, or_false] at he
    rcases he with ((rfl | rfl) | he) | rfl
    · simp
    · simp
    · obtain ⟨k, i, t, rfl, _, _⟩ := expectedDeletes_mem _ e he
      simp
    · simp

theorem rebuildEvents_mem (env : LuaEnv) (n : Nat) (ok : Bool) :
    ∀ e ∈ rebuildEvents env n ok, e ≠ Event.lock ∧ e ≠ Event.unlock := by
  intro e he
  simp only [rebuildEvents, List.mem_append, List.mem_cons, List.mem_singleton,
    List.not_mem_nil, or_false] at he
  rcases he with ((rfl | rfl | rfl) | he) | he
  · simp
  · simp
  · simp
  · rcases definesEvents_luaInitDefines_mem (n + 1) e he with h | rfl
    · constructor <;> intro h' <;> subst h' <;> simp [Event.isBinding] at h
    · simp
  · rcases bootstrapEvents_mem env ok e he with ⟨_, rfl⟩ | ⟨_, rfl⟩ | ⟨_, rfl⟩ | rfl <;> simp

/-- C21: in every environment (the script loads or not, runs with or without
    error) the events of `luaInit(redo)` are the acquisition of the lock, then
    every step of the teardown and of the rebuild up to the end of the bootstrap
    phase, then the release of the lock; no step in between acquires or releases
    the lock. -/
theorem luaInit_holds_lock (env : LuaEnv) (redo : Bool) (s : Runtime) :
    (luaInit env redo s).events
      = s.events ++ (Event.lock ::
          (prefixEvents env redo s
            ++ rebuildEvents env s.nextObject (env.bootstrap (scriptStart redo s)).2)
          ++ [Event.unlock])
    ∧ (∀ e ∈ prefixEvents env redo s
          ++ rebuildEvents env s.nextObject (env.bootstrap (scriptStart redo s)).2,
        e ≠ Event.lock ∧ e ≠ Event.unlock)
    ∧ (env.loadFails = false →
        Event.runScript ∈ rebuildEvents env s.nextObject (env.bootstrap (scriptStart redo s)).2)
    ∧ (redo = true → Event.deleteLua s.lua ∈ prefixEvents env redo s) := by
  refine ⟨?_, ?_, ?_, ?_⟩
  · rw [(luaInit_spec env redo s).2.2.2.1, luaInitEvents]
    simp
  · intro e he
    rcases List.mem_append.mp he with h | h
    · exact prefixEvents_mem env redo s e h
    · exact rebuildEvents_mem env _ _ e h
  · intro hl
    simp [rebuildEvents, bootstrapEvents, hl]
  · intro hr
    subst hr
    simp [prefixEvents]

/-! ## C23: the documented sizes of the raw structures -/

set_option maxRecDepth 100000 in
theorem documentedStructs_check :
    documentedStructs.all (fun d => structSize d.members == d.bytes && d.bytes == d.hexBytes
      && d.members.all Member.wellFormed) = true := by
  decide

set_option maxRecDepth 100000 in
theorem documentedStructs_names :
    documentedStructs.map (fun d => (d.name, d.bytes))
      = [("EarShot", 40), ("Connection", 0x2E1E0), ("Account", 112), ("Action", 84),
         ("MenuButton", 72), ("Player", 0x3834), ("Bone", 312), ("InventorySlot", 40),
         ("Human", 0x6FF8), ("ItemType", 0x13D0), ("Item", 0x1B80), ("VehicleType", 0x185C0),
         ("Vehicle", 0x5168), ("Bullet", 92), ("RigidBody", 0xBC), ("Bond", 0xF4),
         ("StreetLane", 28), ("Street", 0x630), ("StreetIntersection", 0x88), ("ShopCar", 12),
         ("Building", 0xDB0C)] := by
  decide

/-- C23: for each of the 21 raw structures with a documented byte size, every
    array dimension is a valid one, the size computed from the declared members
    under natural alignment equals the documented size (in decimal and in
    hexadecimal), and element `i` of an array of it lies at
    `arrayBase + i * documented size` in 64-bit pointer arithmetic. -/
theorem documented_sizes_hold (d : Documented) (h : d ∈ documentedStructs) :
    structSize d.members = d.bytes ∧ d.bytes = d.hexBytes
    ∧ d.members.all Member.wellFormed = true
    ∧ (∀ arrayBase i, slotAddress arrayBase i d.members = (arrayBase + i * d.bytes) % WORD)
    ∧ documentedStructs.map (fun d => (d.name, d.bytes))
      = [("EarShot", 40), ("Connection", 0x2E1E0), ("Account", 112), ("Action", 84),
         ("MenuButton", 72), ("Player", 0x3834), ("Bone", 312), ("InventorySlot", 40),
         ("Human", 0x6FF8), ("ItemType", 0x13D0), ("Item", 0x1B80), ("VehicleType", 0x185C0),
         ("Vehicle", 0x5168), ("Bullet", 92), ("RigidBody", 0xBC), ("Bond", 0xF4),
         ("StreetLane", 28), ("Street", 0x630), ("StreetIntersection", 0x88), ("ShopCar", 12),
         ("Building", 0xDB0C)] := by
  have hall := documentedStructs_check
  rw [List.all_eq_true] at hall
  have hd := hall d h
  simp only [Bool.and_eq_true, beq_iff_eq] at hd
  obtain ⟨⟨h1, h2⟩, h3⟩ := hd
  refine ⟨h1, h2, h3, ?_, documentedStructs_names⟩
  intro arrayBase i
  rw [slotAddress, h1]

theorem documented_sizes_hold_witness :
    (Documented.mk "EarShot" EarShot 40 0x28) ∈ documentedStructs
    ∧ structSize EarShot = 40
    ∧ slotAddress 0x1000 3 EarShot = (0x1000 + 3 * 40) % WORD :=
  ⟨List.mem_cons_self _ _,
   (documented_sizes_hold (Documented.mk "EarShot" EarShot 40 0x28)
      (List.mem_cons_self _ _)).1,
   (documented_sizes_hold (Documented.mk "EarShot" EarShot 40 0x28)
      (List.mem_cons_self _ _)).2.2.2.1 0x1000 3⟩

/-! ## C24: the offset comments of the entity structs -/

set_option maxRecDepth 100000 in
theorem hostArrayStructs_check :
    hostArrayStructs.all (fun S => commentsHold S.2) = true := by
  decide

/-- C24: in each of the eleven structs backed by a host entity array, every
    member with an offset comment lies, under natural alignment, at the offset
    of its comment. -/
theorem host_struct_comment_offsets (S : String × List Member) (hS : S ∈ hostArrayStructs)
    (m : Member) (o c : Nat) (hm : (m, o) ∈ layout S.2) (hc : m.comment = some c) :
    o = c := by
  have hall := hostArrayStructs_check
  rw [List.all_eq_true] at hall
  have h1 := hall S hS
  simp only [commentsHold, List.all_eq_true] at h1
  have h2 := h1 (m, o) hm
  simp only [hc, beq_iff_eq] at h2
  exact h2.symm

theorem host_struct_comment_offsets_witness :
    ("Connection", Connection) ∈ hostArrayStructs
    ∧ (Member.mk "port" CType.unsignedInt [] (some 0x4), 4) ∈ layout Connection
    ∧ (Member.mk "port" CType.unsignedInt [] (some 0x4)).comment = some 4
    ∧ 4 = 4 :=
  ⟨List.mem_cons_self _ _, by decide, rfl,
   host_struct_comment_offsets ("Connection", Connection) (List.mem_cons_self _ _)
     (Member.mk "port" CType.unsignedInt [] (some 0x4)) 4 4 (by decide) rfl⟩

/-! ## C25: the offset comments of the world-geometry structs -/

set_option maxRecDepth 100000 in
/-- C25, evaluated on the declarations: in `StreetIntersection` the member
    `streetSouth`, whose comment says `2c`, lies at offset `0x1c`, after
    `streetEast` at `0x18` and before `streetWest` at `0x20` and `streetNorth` at
    `0x24`, so the comments of the struct do not all hold; `streetSouth` is the
    only member of the struct off its comment, and in `StreetLane`, `Street`,
    `ShopCar` and `Building` every member with an offset comment lies at the
    offset of its comment. -/
theorem streetSouth_lies_at_0x1c :
    (Member.mk "streetSouth" CType.int [] (some 0x2c), 0x1c) ∈ layout StreetIntersection
    ∧ offsetOf StreetIntersection "streetEast" = some 0x18
    ∧ offsetOf StreetIntersection "streetSouth" = some 0x1c
    ∧ offsetOf StreetIntersection "streetWest" = some 0x20
    ∧ offsetOf StreetIntersection "streetNorth" = some 0x24
    ∧ commentsHold StreetIntersection = false
    ∧ ((layout StreetIntersection).filter (fun mo => mo.1.comment != none
          && mo.1.comment != some mo.2)).map (fun mo => mo.1.name) = ["streetSouth"]
    ∧ (worldStructs.filter (fun S => !commentsHold S.2)).map (fun S => S.1)
        = ["StreetIntersection"] := by
  decide

/-! ## C27: the entity arrays in the memory map -/

set_option maxRecDepth 100000 in
theorem entityArrays_disjoint :
    entityArrays.all (fun a => entityArrays.all (fun b => a.1 == b.1 || spansDisjoint a b))
      = true := by
  decide

set_option maxRecDepth 100000 in
theorem intruders_eq : intruders = [(Slot.connections, Slot.bodies)] := by
  decide

set_option maxRecDepth 100000 in
theorem arraySpan_bodies :
    arraySpan (Slot.bodies, maxNumberOfRigidBodies, RigidBody) = (0x2DACC0, 0x452CC0) := by
  decide

theorem structSize_RigidBody : structSize RigidBody = 188 := by decide

/-- C27, evaluated on the memory map: the spans of the nine entity arrays are
    pairwise disjoint, but the rigid-body array, `maxNumberOfRigidBodies = 8192`
    elements of 188 bytes from offset `0x2DACC0`, spans the offsets up to
    `0x452CC0`, and `Engine::connections` at offset `0x43ACE0` lies inside it: at
    byte 52 of the element 7669, for every base. It is the only data entry
    inside the span of an array that is not its own. -/
theorem connections_inside_rigid_bodies (base : Nat) :
    entityArrays.all (fun a => entityArrays.all (fun b => a.1 == b.1 || spansDisjoint a b))
      = true
    ∧ dataEntries.lookup Slot.bodies = some 0x2DACC0
    ∧ dataEntries.lookup Slot.connections = some 0x43ACE0
    ∧ arraySpan (Slot.bodies, maxNumberOfRigidBodies, RigidBody) = (0x2DACC0, 0x452CC0)
    ∧ 0x2DACC0 ≤ 0x43ACE0 ∧ 0x43ACE0 < 0x452CC0
    ∧ 7669 < maxNumberOfRigidBodies ∧ 52 < structSize RigidBody
    ∧ (base + 0x43ACE0) % WORD
        = (slotAddress ((base + 0x2DACC0) % WORD) 7669 RigidBody + 52) % WORD
    ∧ intruders = [(Slot.connections, Slot.bodies)] := by
  refine ⟨entityArrays_disjoint, by decide, by decide, arraySpan_bodies, by decide, by decide,
    by decide, by decide, ?_, intruders_eq⟩
  rw [slotAddress, structSize_RigidBody]
  unfold WORD
  omega

/-! ## C26: the gravity constant and the pried page -/

/-- The page protections after `locateMemory`, whichever way it ended. -/
theorem locateMemory_state_prot (env : Env) (base : Nat) (p : Process) :
    (locateMemory env base p).state.prot
      = (match env.mprotectErr p.mprotects
            (pryRequest env.pageSize ((base + gravityOffset) % WORD) 1) with
         | none => applyMprotect env.pageSize
            (pryRequest env.pageSize ((base + gravityOffset) % WORD) 1) p.prot
         | some _ => p.prot) := by
  obtain ⟨-, -, hg, hr⟩ := locateMemory_gravity_core env base p
  cases h : env.mprotectErr p.mprotects
      (pryRequest env.pageSize ((base + gravityOffset) % WORD) 1) with
  | none =>
    obtain ⟨q, hq, -, hp⟩ := hg h
    rw [hq]
    exact hp
  | some text =>
    obtain ⟨q, hq, -, hp⟩ := hr text h
    rw [hq]
    exact hp

/-- A one-page request at a page size that fits a machine word. -/
theorem pryRequest_one (P a : Nat) (hW : P < WORD) :
    pryRequest P a 1 = ⟨P * (a / P), P * 1, PROT_WRITE ||| PROT_READ⟩ := by
  unfold pryRequest
  rw [pryPage_eq_mul, Nat.mul_one, Nat.mod_eq_of_lt hW]

/-- The four bytes of a 4-aligned word lie in one page when the page size is a
    multiple of 4. -/
theorem gravity_word_in_page (P base j : Nat) (hP4 : 4 ∣ P) (hP0 : 0 < P) (hB : P ∣ base)
    (hj : j < 4) :
    P * ((base + gravityOffset) % WORD / P) ≤ ((base + gravityOffset) % WORD + j) % WORD
    ∧ ((base + gravityOffset) % WORD + j) % WORD
        < P * ((base + gravityOffset) % WORD / P) + P := by
  have hb4 : base % 4 = 0 := Nat.mod_eq_zero_of_dvd (Dvd.dvd.trans hP4 hB)
  have hPm : P % 4 = 0 := Nat.mod_eq_zero_of_dvd hP4
  have hg4 : ((base + gravityOffset) % WORD) % 4 = 0 := by
    unfold WORD gravityOffset
    omega
  have hgW : (base + gravityOffset) % WORD < WORD := Nat.mod_lt _ (by decide)
  have hr4 : ((base + gravityOffset) % WORD % P) % 4 = 0 := by
    rw [Nat.mod_mod_of_dvd _ hP4]
    exact hg4
  have hr : (base + gravityOffset) % WORD % P < P := Nat.mod_lt _ hP0
  have hd := Nat.div_add_mod ((base + gravityOffset) % WORD) P
  generalize (base + gravityOffset) % WORD = g at *
  generalize g % P = r at *
  generalize P * (g / P) = q at *
  unfold WORD at *
  omega

theorem four_dvd_pow (P k : Nat) (hP : P = 2 ^ k) (h4 : 4 ≤ P) : 4 ∣ P := by
  subst hP
  rcases k with _ | _ | k
  · simp at h4
  · simp at h4
  · exact ⟨2 ^ k, by rw [pow_succ, pow_succ]; omega⟩

/-- C26: for a page size `P` (a `size_t`) that is a power of two with `P ≥ 4` and
    a base that is a multiple of `P`, the one-page request that `locateMemory`
    makes for the gravity constant names exactly `P` bytes, each of the four
    bytes of the constant at `base + 0xC72AC` lies in that page, and after a
    `locateMemory` that returned each of them is writable. -/
theorem gravity_bytes_in_pried_page (env : Env) (base : Nat) (p : Process) (k j : Nat)
    (hP : env.pageSize = 2 ^ k) (h4 : 4 ≤ env.pageSize) (hW : env.pageSize < WORD)
    (hB : env.pageSize ∣ base) (hj : j < 4) :
    (pryRequest env.pageSize ((base + 0xC72AC) % WORD) 1).len = env.pageSize
    ∧ pryPage env.pageSize ((base + 0xC72AC) % WORD) ≤ ((base + 0xC72AC) % WORD + j) % WORD
    ∧ ((base + 0xC72AC) % WORD + j) % WORD
        < pryPage env.pageSize ((base + 0xC72AC) % WORD) + env.pageSize
    ∧ (pryRequest env.pageSize ((base + 0xC72AC) % WORD) 1).touches env.pageSize
        (((base + 0xC72AC) % WORD + j) % WORD) = true
    ∧ (∀ q, locateMemory env base p = .returned q →
        writable q.prot (((base + 0xC72AC) % WORD + j) % WORD) = true) := by
  have hP0 : 0 < env.pageSize := by omega
  have hP4 := four_dvd_pow env.pageSize k hP h4
  have hgeo := gravity_word_in_page env.pageSize base j hP4 hP0 hB hj
  have hoff : gravityOffset = 0xC72AC := rfl
  rw [hoff] at hgeo
  have hreq := pryRequest_one env.pageSize ((base + 0xC72AC) % WORD) hW
  have htouch : (pryRequest env.pageSize ((base + 0xC72AC) % WORD) 1).touches env.pageSize
      (((base + 0xC72AC) % WORD + j) % WORD) = true := by
    rw [hreq]
    exact (touches_iff_range env.pageSize _ 1 _ hP0 (Nat.le_refl 1) _).mpr
      ⟨hgeo.1, by rw [Nat.mul_one]; exact hgeo.2⟩
  refine ⟨?_, ?_, ?_, htouch, ?_⟩
  · rw [hreq, Nat.mul_one]
  · rw [pryPage_eq_mul]
    exact hgeo.1
  · rw [pryPage_eq_mul]
    exact hgeo.2
  · intro q hq
    have hs := locateMemory_state_prot env base p
    rw [hq, hoff] at hs
    cases h : env.mprotectErr p.mprotects
        (pryRequest env.pageSize ((base + 0xC72AC) % WORD) 1) with
    | none =>
      rw [h] at hs
      simp only [Result.state] at hs
      rw [hs]
      simp only [writable, applyMprotect, htouch, if_true]
      rw [hreq]
      show (((PROT_WRITE ||| PROT_READ) / PROT_WRITE) % 2 == 1) = true
      decide
    | some text =>
      obtain ⟨-, -, -, hr⟩ := locateMemory_gravity_core env base p
      rw [hoff] at hr
      obtain ⟨q', hq', -, -⟩ := hr text h
      rw [hq'] at hq
      cases hq

theorem gravity_bytes_in_pried_page_witness :
    (grantingEnv none).pageSize = 2 ^ 12 ∧ 4 ≤ (grantingEnv none).pageSize
    ∧ (grantingEnv none).pageSize < WORD ∧ (grantingEnv none).pageSize ∣ 0x400000 ∧ 3 < 4
    ∧ pryPage (grantingEnv none).pageSize ((0x400000 + 0xC72AC) % WORD)
        ≤ ((0x400000 + 0xC72AC) % WORD + 3) % WORD
    ∧ ((0x400000 + 0xC72AC) % WORD + 3) % WORD
        < pryPage (grantingEnv none).pageSize ((0x400000 + 0xC72AC) % WORD)
          + (grantingEnv none).pageSize :=
  ⟨by decide, by decide, by decide, by decide, by decide,
   (gravity_bytes_in_pried_page (grantingEnv none) 0x400000 sampleProcess 12 3
      (by decide) (by decide) (by decide) (by decide) (by decide)).2.1,
   (gravity_bytes_in_pried_page (grantingEnv none) 0x400000 sampleProcess 12 3
      (by decide) (by decide) (by decide) (by decide) (by decide)).2.2.1⟩

/-! ## C30: the pried page holds no function -/

/-- With 4096-byte pages and a page-aligned base, an offset of another page than
    the gravity constant is outside the pried page. -/
theorem offset_outside_pried_page (base off : Nat) (hB : base % 4096 = 0)
    (hpage : off / 4096 ≠ 0xC7) (hlt : off < 4294967296) :
    (pryRequest 4096 ((base + gravityOffset) % WORD) 1).touches 4096 ((base + off) % WORD)
      = false := by
  have hreq := pryRequest_one 4096 ((base + gravityOffset) % WORD) (by decide)
  rw [hreq]
  simp only [MprotectCall.touches, Bool.and_eq_false_iff, decide_eq_false_iff_not]
  unfold WORD gravityOffset
  omega

theorem functionTable_pages :
    functionTable.all (fun e => e.2 / 4096 != 0xC7 && decide (e.2 < 4294967296)) = true := by
  decide

/-- C30: with 4096-byte pages and a page-aligned base, the page that
    `locateMemory` pries for the gravity constant contains no entry point of the
    function table and not the bootstrap target at `base + 0xC5B00`: the
    protection of the page of each of them is after `locateMemory` what it was
    before, whether the pry was granted or refused, while the protection that the
    pry requests has no execute permission. -/
theorem functions_outside_pried_page (env : Env) (base : Nat) (p : Process)
    (hP : env.pageSize = 4096) (hB : base % 4096 = 0) :
    (∀ e ∈ functionTable,
        (pryRequest env.pageSize ((base + 0xC72AC) % WORD) 1).touches env.pageSize
            ((base + e.2) % WORD) = false
        ∧ (locateMemory env base p).state.prot ((base + e.2) % WORD)
            = p.prot ((base + e.2) % WORD))
    ∧ (pryRequest env.pageSize ((base + 0xC72AC) % WORD) 1).touches env.pageSize
          ((base + 0xC5B00) % WORD) = false
    ∧ (locateMemory env base p).state.prot ((base + 0xC5B00) % WORD)
          = p.prot ((base + 0xC5B00) % WORD)
    ∧ (∀ s ∈ hookSequence, s ∈ functionTable.map Prod.fst)
    ∧ (pryRequest env.pageSize ((base + 0xC72AC) % WORD) 1).prot = PROT_WRITE ||| PROT_READ
    ∧ (PROT_WRITE ||| PROT_READ) &&& PROT_EXEC = 0 := by
  have hoff : gravityOffset = 0xC72AC := rfl
  have hkeep : ∀ x, (pryRequest env.pageSize ((base + 0xC72AC) % WORD) 1).touches env.pageSize x
      = false → (locateMemory env base p).state.prot x = p.prot x := by
    intro x hx
    rw [locateMemory_state_prot, hoff]
    cases env.mprotectErr p.mprotects (pryRequest env.pageSize ((base + 0xC72AC) % WORD) 1) with
    | none => simp only [applyMprotect, hx, Bool.false_eq_true, if_false]
    | some text => rfl
  have hfun : ∀ e ∈ functionTable,
      (pryRequest env.pageSize ((base + 0xC72AC) % WORD) 1).touches env.pageSize
        ((base + e.2) % WORD) = false := by
    intro e he
    have hall := functionTable_pages
    rw [List.all_eq_true] at hall
    have h1 := hall e he
    simp only [Bool.and_eq_true, bne_iff_ne, ne_eq, decide_eq_true_eq] at h1
    rw [hP, ← hoff]
    exact offset_outside_pried_page base e.2 hB h1.1 h1.2
  have hboot : (pryRequest env.pageSize ((base + 0xC72AC) % WORD) 1).touches env.pageSize
      ((base + 0xC5B00) % WORD) = false := by
    rw [hP, ← hoff]
    exact offset_outside_pried_page base 0xC5B00 hB (by decide) (by decide)
  exact ⟨fun e he => ⟨hfun e he, hkeep _ (hfun e he)⟩, hboot, hkeep _ hboot,
    hookSequence_subset_functionTable, rfl, by decide⟩

theorem functions_outside_pried_page_witness :
    (grantingEnv none).pageSize = 4096 ∧ 0x400000 % 4096 = 0
    ∧ (locateMemory (grantingEnv none) 0x400000 sampleProcess).state.prot
          ((0x400000 + 0xC5B00) % WORD)
        = sampleProcess.prot ((0x400000 + 0xC5B00) % WORD) :=
  ⟨rfl, by decide,
   (functions_outside_pried_page (grantingEnv none) 0x400000 sampleProcess rfl
      (by decide)).2.2.1⟩

/-! ## Lemmas on byte copies -/

theorem writeBytes_cons (mem : Nat → Nat) (a b : Nat) (rest : List Nat) :
    writeBytes mem a (b :: rest)
      = writeBytes (fun x => if x = a then b else mem x) ((a + 1) % WORD) rest := rfl

/-- A copy leaves every byte outside its target as it was. -/
theorem writeBytes_frame (mem : Nat → Nat) (a : Nat) (bytes : List Nat) (x : Nat)
    (ha : a < WORD) (h : ∀ j, j < bytes.length → x ≠ (a + j) % WORD) :
    writeBytes mem a bytes x = mem x := by
  induction bytes generalizing mem a with
  | nil => rfl
  | cons b rest ih =>
    rw [writeBytes_cons, ih _ _ (Nat.mod_lt _ (by decide))]
    · have h0 := h 0 (by simp)
      have hx : x ≠ a := by
        intro e
        apply h0
        rw [e, Nat.add_zero, Nat.mod_eq_of_lt ha]
      simp only [hx, if_false]
    · intro j hj
      have h1 := h (j + 1) (by simp; omega)
      intro e
      apply h1
      rw [e]
      unfold WORD
      omega

/-- A copy of at most `2^64` bytes stores byte `i` of the source at the `i`-th
    address of the target. -/
theorem writeBytes_get (mem : Nat → Nat) (a : Nat) (bytes : List Nat) (i : Nat)
    (ha : a < WORD) (hlen : bytes.length ≤ WORD) (hi : i < bytes.length) :
    writeBytes mem a bytes ((a + i) % WORD) = bytes.getD i 0 := by
  induction bytes generalizing mem a i with
  | nil => simp at hi
  | cons b rest ih =>
    rw [writeBytes_cons]
    simp only [List.length_cons] at hlen hi
    cases i with
    | zero =>
      rw [writeBytes_frame _ _ _ _ (Nat.mod_lt _ (by decide))]
      · simp [Nat.mod_eq_of_lt ha]
      · intro j hj
        unfold WORD at *
        omega
    | succ i =>
      have e : (a + (i + 1)) % WORD = ((a + 1) % WORD + i) % WORD := by
        unfold WORD
        omega
      rw [e, ih _ _ i (Nat.mod_lt _ (by decide)) (by omega) (by omega)]
      simp

theorem cstring_ne_zero (s : List Nat) : ∀ c ∈ cstring s, c ≠ 0 := by
  intro c hc
  have h := List.mem_takeWhile_imp hc
  simpa using h

theorem strncpyBytes_length (src : List Nat) (n : Nat) : (strncpyBytes src n).length = n := by
  simp only [strncpyBytes, List.length_append, List.length_take, List.length_replicate]
  omega

/-- Byte `i` of what `strncpy` stores: the `i`-th character of the source string
    if it has one, else NUL. -/
theorem strncpyBytes_getD (src : List Nat) (n i : Nat) (hi : i < n) :
    (strncpyBytes src n).getD i 0
      = if i < (cstring src).length then (cstring src).getD i 0 else 0 := by
  unfold strncpyBytes
  by_cases h : i < (cstring src).length
  · have h1 : i < ((cstring src).take n).length := by
      simp only [List.length_take]
      omega
    simp only [h, if_true, List.getD_eq_getElem?_getD]
    rw [List.getElem?_append_left h1, List.getElem?_take_of_lt hi]
  · have h1 : ((cstring src).take n).length ≤ i := by
      simp only [List.length_take]
      omega
    simp only [h, if_false, List.getD_eq_getElem?_getD]
    rw [List.getElem?_append_right h1]
    by_cases h2 : i - ((cstring src).take n).length
        < n - ((cstring src).take n).length
    · rw [List.getElem?_replicate_of_lt h2]
      rfl
    · rw [List.getElem?_eq_none (by simpa using h2)]
      rfl

/-! ## Lemmas on `strncpy` and on C strings -/

theorem strncpy_get (mem : Nat → Nat) (a : Nat) (src : List Nat) (n i : Nat)
    (ha : a < WORD) (hn : n ≤ WORD) (hi : i < n) :
    strncpy mem a src n ((a + i) % WORD)
      = if i < (cstring src).length then (cstring src).getD i 0 else 0 := by
  unfold strncpy
  rw [writeBytes_get mem a _ i ha (by rw [strncpyBytes_length]; exact hn)
    (by rw [strncpyBytes_length]; exact hi), strncpyBytes_getD src n i hi]

theorem strncpy_frame (mem : Nat → Nat) (a : Nat) (src : List Nat) (n x : Nat)
    (ha : a < WORD) (h : ∀ j, j < n → x ≠ (a + j) % WORD) :
    strncpy mem a src n x = mem x := by
  unfold strncpy
  exact writeBytes_frame mem a _ x ha (fun j hj => h j (by rw [strncpyBytes_length] at hj; exact hj))

theorem terminated_iff (mem : Nat → Nat) (a n : Nat) :
    terminated mem a n = true ↔ ∃ i, i < n ∧ mem ((a + i) % WORD) = 0 := by
  simp [terminated, List.any_eq_true, List.mem_range]

theorem cstring_getD_ne_zero (s : List Nat) (i : Nat) (hi : i < (cstring s).length) :
    (cstring s).getD i 0 ≠ 0 := by
  rw [List.getD_eq_getElem?_getD, List.getElem?_eq_getElem hi]
  exact cstring_ne_zero s _ (List.getElem_mem hi)

/-- Whether a buffer of `N` bytes holds a NUL after `strncpy(buffer, src, N - 1)`:
    exactly when the source string is shorter than `N - 1` or the last byte of
    the buffer was NUL before. -/
theorem terminated_strncpy (mem : Nat → Nat) (a : Nat) (src : List Nat) (N : Nat)
    (ha : a < WORD) (hN1 : 1 ≤ N) (hNW : N ≤ WORD) :
    terminated (strncpy mem a src (N - 1)) a N = true
      ↔ ((cstring src).length < N - 1 ∨ mem ((a + (N - 1)) % WORD) = 0) := by
  have hlast : strncpy mem a src (N - 1) ((a + (N - 1)) % WORD) = mem ((a + (N - 1)) % WORD) := by
    apply strncpy_frame mem a src (N - 1) _ ha
    intro j hj
    unfold WORD at *
    omega
  rw [terminated_iff]
  constructor
  · rintro ⟨i, hi, hz⟩
    by_cases hlt : i < N - 1
    · rw [strncpy_get mem a src (N - 1) i ha (by omega) hlt] at hz
      by_cases hc : i < (cstring src).length
      · rw [if_pos hc] at hz
        exact absurd hz (cstring_getD_ne_zero src i hc)
      · exact Or.inl (by omega)
    · have e : i = N - 1 := by omega
      rw [e, hlast] at hz
      exact Or.inr hz
  · rintro (h | h)
    · refine ⟨(cstring src).length, by omega, ?_⟩
      rw [strncpy_get mem a src (N - 1) _ ha (by omega) h]
      simp
    · exact ⟨N - 1, by omega, by rw [hlast]; exact h⟩

/-- Reading a C string whose characters and terminator lie inside the limit. -/
theorem readCString_eq (mem : Nat → Nat) (s : List Nat) (a n : Nat) (ha : a < WORD)
    (hs : ∀ c ∈ s, c ≠ 0) (hlen : s.length < n)
    (hb : ∀ i, i < s.length → mem ((a + i) % WORD) = s.getD i 0)
    (hz : mem ((a + s.length) % WORD) = 0) :
    readCString mem a n = s := by
  induction s generalizing a n with
  | nil =>
    cases n with
    | zero => simp at hlen
    | succ n =>
      simp only [List.length_nil, Nat.add_zero, Nat.mod_eq_of_lt ha] at hz
      simp [readCString, hz]
  | cons c s ih =>
    cases n with
    | zero => simp at hlen
    | succ n =>
      have h0 := hb 0 (by simp)
      simp only [Nat.add_zero, Nat.mod_eq_of_lt ha, List.getD_cons_zero] at h0
      have hc : c ≠ 0 := hs c (List.mem_cons_self c s)
      simp only [readCString, h0, hc, if_false]
      rw [ih ((a + 1) % WORD) n (Nat.mod_lt _ (by decide))
        (fun x hx => hs x (List.mem_cons_of_mem c hx)) (by simp at hlen; omega)]
      · intro i hi
        have h1 := hb (i + 1) (by simp; omega)
        simp only [List.getD_cons_succ] at h1
        rw [← h1]
        congr 1
        unfold WORD
        omega
      · rw [← hz]
        congr 1
        simp only [List.length_cons]
        unfold WORD
        omega

/-- Reading a terminated buffer stops before its end. -/
theorem readCString_length (mem : Nat → Nat) (a n : Nat) (ha : a < WORD)
    (h : terminated mem a n = true) :
    (readCString mem a n).length < n := by
  induction n generalizing a with
  | zero =>
    rw [terminated_iff] at h
    obtain ⟨i, hi, _⟩ := h
    omega
  | succ n ih =>
    rw [terminated_iff] at h
    obtain ⟨i, hi, hz⟩ := h
    by_cases h0 : mem a = 0
    · simp [readCString, h0]
    · simp only [readCString, h0, if_false, List.length_cons]
      have hi0 : i ≠ 0 := by
        intro e
        rw [e, Nat.add_zero, Nat.mod_eq_of_lt ha] at hz
        exact h0 hz
      have := ih ((a + 1) % WORD) (Nat.mod_lt _ (by decide))
        ((terminated_iff mem _ n).mpr ⟨i - 1, by omega, by
          rw [← hz]
          congr 1
          unfold WORD
          omega⟩)
      omega

/-! ## C28 and C29: the fixed-buffer string setters -/

theorem StringSetter.bufferSize_eq :
    StringSetter.Player_setName.bufferSize = 32
    ∧ StringSetter.VehicleType_setName.bufferSize = 32
    ∧ StringSetter.ItemType_setName.bufferSize = 64
    ∧ StringSetter.MenuButton_setText.bufferSize = 64 := by
  decide

theorem StringSetter.bufferOffset_eq :
    StringSetter.Player_setName.bufferOffset = 0x04
    ∧ StringSetter.VehicleType_setName.bufferOffset = 0x14
    ∧ StringSetter.ItemType_setName.bufferOffset = 0x30
    ∧ StringSetter.MenuButton_setText.bufferOffset = 0x04 := by
  decide

theorem StringSetter.bufferSize_bounds (k : StringSetter) :
    1 ≤ k.bufferSize ∧ k.bufferSize ≤ WORD := by
  obtain ⟨h1, h2, h3, h4⟩ := StringSetter.bufferSize_eq
  cases k
  · rw [h1]; decide
  · rw [h2]; decide
  · rw [h3]; decide
  · rw [h4]; decide

theorem StringSetter.buffer_lt (k : StringSetter) (this : Nat) : k.buffer this < WORD :=
  Nat.mod_lt _ (by decide)

set_option maxRecDepth 100000 in
/-- C28, counterexample: a `Player` at `0x1000` whose name buffer holds a NUL at
    index 2 and `'A'` everywhere else, its last byte included. After `setName`
    with a name of 40 characters the 32 bytes of the buffer hold no NUL. -/
theorem setName_loses_terminator_counterexample :
    terminated sampleNameMemory (StringSetter.Player_setName.buffer 0x1000)
        StringSetter.Player_setName.bufferSize = true
    ∧ terminated (setName StringSetter.Player_setName 0x1000 (List.replicate 40 66)
          sampleNameMemory)
        (StringSetter.Player_setName.buffer 0x1000)
        StringSetter.Player_setName.bufferSize = false := by
  constructor <;> decide

/-- C28 (amended): the buffers have 32, 32, 64 and 64 bytes; after a call of the
    setter the buffer contains a NUL within its bounds exactly when the input
    string is shorter than `N - 1` bytes or the last byte of the buffer was NUL
    before the call. So if the last byte was NUL before the call, then for every
    input the buffer still contains a NUL and the getter stops reading before
    the end of the buffer. -/
theorem setName_keeps_terminator (k : StringSetter) (this : Nat) (newName : List Nat)
    (mem : Nat → Nat) :
    (StringSetter.Player_setName.bufferSize = 32
      ∧ StringSetter.VehicleType_setName.bufferSize = 32
      ∧ StringSetter.ItemType_setName.bufferSize = 64
      ∧ StringSetter.MenuButton_setText.bufferSize = 64)
    ∧ (terminated (setName k this newName mem) (k.buffer this) k.bufferSize = true
        ↔ ((cstring newName).length < k.bufferSize - 1
            ∨ mem ((k.buffer this + (k.bufferSize - 1)) % WORD) = 0))
    ∧ (mem ((k.buffer this + (k.bufferSize - 1)) % WORD) = 0 →
        terminated (setName k this newName mem) (k.buffer this) k.bufferSize = true
        ∧ (getName k (setName k this newName mem) this).length < k.bufferSize) := by
  have hiff := terminated_strncpy mem (k.buffer this) newName k.bufferSize
    (StringSetter.buffer_lt k this) (StringSetter.bufferSize_bounds k).1
    (StringSetter.bufferSize_bounds k).2
  refine ⟨StringSetter.bufferSize_eq, hiff, ?_⟩
  intro h
  have ht : terminated (setName k this newName mem) (k.buffer this) k.bufferSize = true :=
    hiff.mpr (Or.inr h)
  exact ⟨ht, readCString_length _ _ _ (StringSetter.buffer_lt k this) ht⟩

/-- C29: a call of the setter stores at byte `i` of the buffer, for each
    `i < N - 1`, the `i`-th character of the input string if it has one and NUL
    otherwise, and leaves every other byte of memory as it was; when the input is
    shorter than `N - 1` bytes the getter afterwards returns exactly the input. -/
theorem setName_writes_prefix (k : StringSetter) (this : Nat) (newName : List Nat)
    (mem : Nat → Nat) :
    (StringSetter.Player_setName.bufferSize = 32
      ∧ StringSetter.VehicleType_setName.bufferSize = 32
      ∧ StringSetter.ItemType_setName.bufferSize = 64
      ∧ StringSetter.MenuButton_setText.bufferSize = 64)
    ∧ (∀ i, i < k.bufferSize - 1 →
        setName k this newName mem ((k.buffer this + i) % WORD)
          = if i < (cstring newName).length then (cstring newName).getD i 0 else 0)
    ∧ (∀ x, (∀ i, i < k.bufferSize - 1 → x ≠ (k.buffer this + i) % WORD) →
        setName k this newName mem x = mem x)
    ∧ ((cstring newName).length < k.bufferSize - 1 →
        getName k (setName k this newName mem) this = cstring newName) := by
  have ha := StringSetter.buffer_lt k this
  obtain ⟨hN1, hNW⟩ := StringSetter.bufferSize_bounds k
  have hget : ∀ i, i < k.bufferSize - 1 →
      setName k this newName mem ((k.buffer this + i) % WORD)
        = if i < (cstring newName).length then (cstring newName).getD i 0 else 0 :=
    fun i hi => strncpy_get mem _ newName _ i ha (by omega) hi
  refine ⟨StringSetter.bufferSize_eq, hget, ?_, ?_⟩
  · intro x hx
    exact strncpy_frame mem _ newName _ x ha hx
  · intro hlen
    apply readCString_eq _ _ _ _ ha (cstring_ne_zero newName) (by omega)
    · intro i hi
      rw [hget i (by omega), if_pos hi]
    · rw [hget _ hlen]
      simp

/-! ## C22: get-by-index on an invalid index -/

theorem IndexedKind.registered (k : IndexedKind) : hasIndexAndLen k.tableName = true := by
  cases k <;> decide

set_option maxRecDepth 100000 in
theorem IndexedKind.active_iff (k : IndexedKind) :
    (offsetOf k.struct "active").isSome = true
      ↔ k ∈ [IndexedKind.players, IndexedKind.humans, IndexedKind.items,
          IndexedKind.vehicles, IndexedKind.rigidBodies, IndexedKind.bonds] := by
  cases k <;> decide

/-- C22: for every entity kind with a get-by-index handler, an index below 0 or
    not below the capacity, or one that names a slot whose `active` member is 0,
    makes get-by-index fail with `InvalidHandle`, and no field can be read
    through its result. The handler is registered for each of these kinds, and
    the kinds with an `active` member are players, humans, items, vehicles, rigid
    bodies and bonds. -/
theorem getByIndex_invalid_handle (k : IndexedKind) (bound : IndexedKind → Nat)
    (mem : Nat → Nat) (arrayBase : Nat) (index : Int)
    (h : index < 0 ∨ (k.capacity bound : Int) ≤ index
      ∨ slotActive k mem (slotAddress arrayBase index.toNat k.struct) = false) :
    getByIndex k bound mem arrayBase index = Except.error ScriptError.InvalidHandle
    ∧ (∀ fieldOffset, readField mem (getByIndex k bound mem arrayBase index) fieldOffset
        = Except.error ScriptError.InvalidHandle)
    ∧ hasIndexAndLen k.tableName = true
    ∧ ((offsetOf k.struct "active").isSome = true
        ↔ k ∈ [IndexedKind.players, IndexedKind.humans, IndexedKind.items,
            IndexedKind.vehicles, IndexedKind.rigidBodies, IndexedKind.bonds]) := by
  have hget : getByIndex k bound mem arrayBase index
      = Except.error ScriptError.InvalidHandle := by
    unfold getByIndex
    rcases h with h | h | h
    · rw [if_neg (by omega)]
    · rw [if_neg (by omega)]
    · by_cases hr : 0 ≤ index ∧ index < (k.capacity bound : Int)
      · rw [if_pos hr, if_neg (by rw [h]; decide)]
      · rw [if_neg hr]
  refine ⟨hget, ?_, IndexedKind.registered k, IndexedKind.active_iff k⟩
  intro fieldOffset
  rw [hget]
  rfl

theorem getByIndex_invalid_handle_witness :
    ((256 : Int) < 0 ∨ ((IndexedKind.players.capacity (fun _ => 0) : Nat) : Int) ≤ 256
      ∨ slotActive IndexedKind.players (fun _ => 7)
          (slotAddress 0x19BC9CC0 (256 : Int).toNat IndexedKind.players.struct) = false)
    ∧ getByIndex IndexedKind.players (fun _ => 0) (fun _ => 7) 0x19BC9CC0 256
        = Except.error ScriptError.InvalidHandle :=
  ⟨Or.inr (Or.inl (by decide)),
   (getByIndex_invalid_handle IndexedKind.players (fun _ => 0) (fun _ => 7) 0x19BC9CC0 256
      (Or.inr (Or.inl (by decide)))).1⟩

end RosaServer
